import Mathlib

/-!
# A verification model of `ipa_pkcs11.c`

The file embeds the key-object functions of `src/python/ipa_pkcs11.c` in Lean:
the boolean attribute tables, the object locator (`_find_key`, `_get_key`,
`_id_label_exists`), the key generators, the RSA public key export/import and
the wrapped key import.

Conventions of the embedding.

* The PKCS#11 provider is a parameter: a record `P11 σ` of transition
  functions over an arbitrary provider state `σ`.  Every call made through
  `self->p11` is logged, with its arguments, in `World.trace`.
* `World` also carries the interpreter's error indicator (`pyerr`, what
  `PyErr_SetString` writes) and a script `heap` of the outcomes of the coming
  allocation requests (`true`: a non-NULL pointer is returned).
* Machine integers are natural numbers; `unsigned int` arithmetic is taken
  modulo `2 ^ 32`.  Sizes are those of an LP64 platform.
* A pointer argument that may be `NULL` is an `Option`; a `(pointer, length)`
  pair keeps its length as a separate number, as in the C code.
* Loops that are driven by the provider take a `fuel` bound; `none` means the
  bound was reached.
-/

namespace IpaPkcs11

/-! ## PKCS#11 scalar types and constants (`pkcs11.h`) -/

abbrev CK_BYTE := Nat
abbrev CK_ULONG := Nat
abbrev CK_RV := Nat
abbrev CK_OBJECT_HANDLE := Nat
abbrev CK_OBJECT_CLASS := Nat
abbrev CK_KEY_TYPE := Nat
abbrev CK_ATTRIBUTE_TYPE := Nat
abbrev CK_MECHANISM_TYPE := Nat

abbrev CKR_OK : CK_RV := 0x0
abbrev CKR_HOST_MEMORY : CK_RV := 0x2
abbrev CKR_ATTRIBUTE_TYPE_INVALID : CK_RV := 0x12
abbrev CKR_OBJECT_HANDLE_INVALID : CK_RV := 0x82
abbrev CKR_OPERATION_NOT_INITIALIZED : CK_RV := 0x91

abbrev CKO_PUBLIC_KEY : CK_OBJECT_CLASS := 0x2
abbrev CKO_PRIVATE_KEY : CK_OBJECT_CLASS := 0x3
abbrev CKO_SECRET_KEY : CK_OBJECT_CLASS := 0x4

abbrev CKK_RSA : CK_KEY_TYPE := 0x0
abbrev CKK_AES : CK_KEY_TYPE := 0x1f

abbrev CKM_RSA_PKCS_KEY_PAIR_GEN : CK_MECHANISM_TYPE := 0x0
abbrev CKM_RSA_PKCS : CK_MECHANISM_TYPE := 0x1
abbrev CKM_RSA_PKCS_OAEP : CK_MECHANISM_TYPE := 0x9
abbrev CKM_AES_KEY_GEN : CK_MECHANISM_TYPE := 0x1080
/-- Defined by the source itself (`#define CKM_AES_KEY_WRAP (0x1090)`). -/
abbrev CKM_AES_KEY_WRAP : CK_MECHANISM_TYPE := 0x1090
/-- Defined by the source itself (`#define CKM_AES_KEY_WRAP_PAD (0x1091)`). -/
abbrev CKM_AES_KEY_WRAP_PAD : CK_MECHANISM_TYPE := 0x1091

abbrev CKA_CLASS : CK_ATTRIBUTE_TYPE := 0x0
abbrev CKA_TOKEN : CK_ATTRIBUTE_TYPE := 0x1
abbrev CKA_PRIVATE : CK_ATTRIBUTE_TYPE := 0x2
abbrev CKA_LABEL : CK_ATTRIBUTE_TYPE := 0x3
abbrev CKA_VALUE : CK_ATTRIBUTE_TYPE := 0x11
/-- Defined by the source itself (`#define CKA_COPYABLE (0x0017)`). -/
abbrev CKA_COPYABLE : CK_ATTRIBUTE_TYPE := 0x17
abbrev CKA_TRUSTED : CK_ATTRIBUTE_TYPE := 0x86
abbrev CKA_KEY_TYPE : CK_ATTRIBUTE_TYPE := 0x100
abbrev CKA_ID : CK_ATTRIBUTE_TYPE := 0x102
abbrev CKA_SENSITIVE : CK_ATTRIBUTE_TYPE := 0x103
abbrev CKA_ENCRYPT : CK_ATTRIBUTE_TYPE := 0x104
abbrev CKA_DECRYPT : CK_ATTRIBUTE_TYPE := 0x105
abbrev CKA_WRAP : CK_ATTRIBUTE_TYPE := 0x106
abbrev CKA_UNWRAP : CK_ATTRIBUTE_TYPE := 0x107
abbrev CKA_SIGN : CK_ATTRIBUTE_TYPE := 0x108
abbrev CKA_SIGN_RECOVER : CK_ATTRIBUTE_TYPE := 0x109
abbrev CKA_VERIFY : CK_ATTRIBUTE_TYPE := 0x10a
abbrev CKA_VERIFY_RECOVER : CK_ATTRIBUTE_TYPE := 0x10b
abbrev CKA_DERIVE : CK_ATTRIBUTE_TYPE := 0x10c
abbrev CKA_MODULUS : CK_ATTRIBUTE_TYPE := 0x120
abbrev CKA_MODULUS_BITS : CK_ATTRIBUTE_TYPE := 0x121
abbrev CKA_PUBLIC_EXPONENT : CK_ATTRIBUTE_TYPE := 0x122
abbrev CKA_VALUE_LEN : CK_ATTRIBUTE_TYPE := 0x161
abbrev CKA_EXTRACTABLE : CK_ATTRIBUTE_TYPE := 0x162
abbrev CKA_LOCAL : CK_ATTRIBUTE_TYPE := 0x163
abbrev CKA_NEVER_EXTRACTABLE : CK_ATTRIBUTE_TYPE := 0x164
abbrev CKA_ALWAYS_SENSITIVE : CK_ATTRIBUTE_TYPE := 0x165
abbrev CKA_MODIFIABLE : CK_ATTRIBUTE_TYPE := 0x170
abbrev CKA_ALWAYS_AUTHENTICATE : CK_ATTRIBUTE_TYPE := 0x202
abbrev CKA_WRAP_WITH_TRUSTED : CK_ATTRIBUTE_TYPE := 0x210

/-- Number of bytes of a `CK_BBOOL`. -/
abbrev sizeof_CK_BBOOL : CK_ULONG := 1
/-- Number of bytes of a `CK_ULONG`, `CK_OBJECT_CLASS`, `CK_KEY_TYPE` (LP64). -/
abbrev sizeof_CK_ULONG : CK_ULONG := 8

/-- What a `pValue` pointer of a `CK_ATTRIBUTE` points to. -/
inductive PValue
  | null
  | bytes (b : List CK_BYTE)
  | bbool (b : Bool)
  | ulong (n : CK_ULONG)
  deriving DecidableEq, Repr

/-- The triple `{type, pValue, ulValueLen}`. -/
structure CK_ATTRIBUTE where
  type : CK_ATTRIBUTE_TYPE
  pValue : PValue
  ulValueLen : CK_ULONG
  deriving DecidableEq, Repr

/-- The triple `{mechanism, pParameter, ulParameterLen}`. -/
structure CK_MECHANISM where
  mechanism : CK_MECHANISM_TYPE
  pParameter : PValue
  ulParameterLen : CK_ULONG
  deriving DecidableEq, Repr

/-- A `CK_BYTE *` argument as a `pValue`: `NULL` stays `NULL`. -/
def bytePtr : Option (List CK_BYTE) → PValue
  | none => PValue.null
  | some b => PValue.bytes b

/-- A `CK_BBOOL *` argument as a `pValue`: `NULL` stays `NULL`. -/
def boolPtr : Option Bool → PValue
  | none => PValue.null
  | some b => PValue.bbool b

/-! ## The host interpreter: objects, truth test, error indicator -/

/-- The Python values the binding meets.  `broken` stands for an object whose
truth test raises (`PyObject_IsTrue` returns `-1`). -/
inductive PyObject
  | pyNone
  | pyBool (b : Bool)
  | pyInt (n : Int)
  | pyStr (s : List CK_BYTE)
  | pyUnicode (s : List Nat)
  | pyIntList (xs : List Nat)
  | pyIntPair (a b : Nat)
  | broken
  deriving DecidableEq, Repr

/-- The host's truth test: `1` truthy, `0` falsy, `-1` when the test raises. -/
def PyObject_IsTrue : PyObject → Int
  | PyObject.pyNone => 0
  | PyObject.pyBool b => if b then 1 else 0
  | PyObject.pyInt n => if n = 0 then 0 else 1
  | PyObject.pyStr s => if s = [] then 0 else 1
  | PyObject.pyUnicode s => if s = [] then 0 else 1
  | PyObject.pyIntList xs => if xs = [] then 0 else 1
  | PyObject.pyIntPair _ _ => 1
  | PyObject.broken => -1

/-- The three exception classes the module raises, and the class the host's
UTF-8 decoder raises. -/
inductive PyExc
  | IPA_PKCS11Error
  | IPA_PKCS11NotFound
  | IPA_PKCS11DuplicationError
  | UnicodeDecodeError
  deriving DecidableEq, Repr

/-- The text of an exception: a literal, or the text that
`check_return_value` formats, `"Error at %s: 0x%x"`, kept as its two
arguments. -/
inductive ErrMsg
  | text (s : String)
  | errorAt (stage : String) (code : Nat)
  deriving DecidableEq, Repr

/-- The error indicator: exception class and text. -/
structure PyErr where
  exc : PyExc
  msg : ErrMsg
  deriving DecidableEq, Repr

/-! ## Attribute tables -/

/-- The C struct `PyObj2Bool_mapping_t`: the caller's override object
(`NULL` when the keyword was not given) and the boolean handed to the token
(`&true` or `&false`). -/
structure PyObj2Bool_mapping_t where
  py_obj : Option PyObject
  bool : Bool
  deriving DecidableEq, Repr

/-- The C function `pyobj_to_bool`. -/
def pyobj_to_bool (pyobj : PyObject) : Bool :=
  if PyObject_IsTrue pyobj ≠ 0 then true else false

/-- The body of the loop of `convert_py2bool` at index `i`: when
`mapping[i].py_obj` is not `NULL`, `mapping[i].bool` is overwritten. -/
def convert_py2bool_step (mapping : List PyObj2Bool_mapping_t) (i : Nat) :
    List PyObj2Bool_mapping_t :=
  match mapping[i]? with
  | some m =>
    match m.py_obj with
    | some py_obj => mapping.set i { m with bool := pyobj_to_bool py_obj }
    | none => mapping
  | none => mapping

/-- The C function `convert_py2bool`: `for (i = 0; i < length; ++i)`. -/
def convert_py2bool (mapping : List PyObj2Bool_mapping_t) (length : Nat) :
    List PyObj2Bool_mapping_t :=
  (List.range length).foldl convert_py2bool_step mapping

/-! ## The provider and the world -/

/-- The functions of `CK_FUNCTION_LIST` the module calls on a key object, as
transitions of a provider state `σ`.  Output parameters are returned next to
the status. -/
structure P11 (σ : Type) where
  /-- `C_FindObjectsInit(session, template, count)`. -/
  C_FindObjectsInit : σ → List CK_ATTRIBUTE → CK_RV × σ
  /-- `C_FindObjects(session, &object, 1, &objectCount)`: status, the handle
  written to `object`, the number written to `objectCount`. -/
  C_FindObjects : σ → CK_RV × CK_OBJECT_HANDLE × CK_ULONG × σ
  /-- `C_FindObjectsFinal(session)`. -/
  C_FindObjectsFinal : σ → CK_RV × σ
  /-- `C_GenerateKey(session, &mechanism, template, count, &key)`. -/
  C_GenerateKey : σ → CK_MECHANISM → List CK_ATTRIBUTE → CK_RV × CK_OBJECT_HANDLE × σ
  /-- `C_GenerateKeyPair(session, &mechanism, pub, n, priv, m, &public, &private)`. -/
  C_GenerateKeyPair : σ → CK_MECHANISM → List CK_ATTRIBUTE → List CK_ATTRIBUTE →
    CK_RV × CK_OBJECT_HANDLE × CK_OBJECT_HANDLE × σ
  /-- `C_CreateObject(session, template, count, &object)`. -/
  C_CreateObject : σ → List CK_ATTRIBUTE → CK_RV × CK_OBJECT_HANDLE × σ
  /-- `C_GetAttributeValue(session, object, template, count)`: the template
  comes back with what the provider wrote into it. -/
  C_GetAttributeValue : σ → CK_OBJECT_HANDLE → List CK_ATTRIBUTE →
    CK_RV × List CK_ATTRIBUTE × σ
  /-- `C_UnwrapKey(session, &mechanism, unwrappingKey, wrapped, len, template, count, &key)`. -/
  C_UnwrapKey : σ → CK_MECHANISM → CK_OBJECT_HANDLE → List CK_BYTE → CK_ULONG →
    List CK_ATTRIBUTE → CK_RV × CK_OBJECT_HANDLE × σ
  /-- `C_WrapKey(session, &mechanism, wrappingKey, key, pWrappedKey, &len)`:
  status, the buffer `pWrappedKey` after the call, the number written to `len`. -/
  C_WrapKey : σ → CK_MECHANISM → CK_OBJECT_HANDLE → CK_OBJECT_HANDLE → PValue → CK_ULONG →
    CK_RV × PValue × CK_ULONG × σ
  /-- `C_SetAttributeValue(session, object, template, count)`. -/
  C_SetAttributeValue : σ → CK_OBJECT_HANDLE → List CK_ATTRIBUTE → CK_RV × σ

/-- One logged call through `self->p11`, with the arguments passed in. -/
inductive P11Call
  | C_FindObjectsInit (template : List CK_ATTRIBUTE)
  | C_FindObjects
  | C_FindObjectsFinal
  | C_GenerateKey (mechanism : CK_MECHANISM) (template : List CK_ATTRIBUTE)
  | C_GenerateKeyPair (mechanism : CK_MECHANISM) (pub priv : List CK_ATTRIBUTE)
  | C_CreateObject (template : List CK_ATTRIBUTE)
  | C_GetAttributeValue (object : CK_OBJECT_HANDLE) (template : List CK_ATTRIBUTE)
  | C_UnwrapKey (mechanism : CK_MECHANISM) (unwrappingKey : CK_OBJECT_HANDLE)
      (wrapped : List CK_BYTE) (len : CK_ULONG) (template : List CK_ATTRIBUTE)
  | C_WrapKey (mechanism : CK_MECHANISM) (wrappingKey key : CK_OBJECT_HANDLE)
      (pWrappedKey : PValue) (len : CK_ULONG)
  | C_SetAttributeValue (object : CK_OBJECT_HANDLE) (template : List CK_ATTRIBUTE)
  deriving DecidableEq, Repr

/-- Everything outside the function being run: the provider state, the log of
provider calls, the outcomes of the coming allocation requests, and the
interpreter's error indicator. -/
structure World (σ : Type) where
  tok : σ
  trace : List P11Call
  heap : List Bool
  pyerr : Option PyErr

namespace World

variable {σ : Type}

/-- One allocation request (`malloc`, `realloc`, `asprintf`): whether a
non-NULL pointer comes back.  An exhausted script grants every request. -/
def alloc (w : World σ) : Bool × World σ :=
  match w.heap with
  | [] => (true, w)
  | b :: rest => (b, { w with heap := rest })

/-- The call `self->p11->C_FindObjectsInit(self->session, template, n)`. -/
def findObjectsInit (p : P11 σ) (w : World σ) (template : List CK_ATTRIBUTE) :
    CK_RV × World σ :=
  let r := p.C_FindObjectsInit w.tok template
  (r.1, { w with tok := r.2, trace := w.trace ++ [P11Call.C_FindObjectsInit template] })

/-- The call `self->p11->C_FindObjects(self->session, &object, 1, &count)`. -/
def findObjects (p : P11 σ) (w : World σ) :
    CK_RV × CK_OBJECT_HANDLE × CK_ULONG × World σ :=
  let r := p.C_FindObjects w.tok
  (r.1, r.2.1, r.2.2.1,
    { w with tok := r.2.2.2, trace := w.trace ++ [P11Call.C_FindObjects] })

/-- The call `self->p11->C_FindObjectsFinal(self->session)`. -/
def findObjectsFinal (p : P11 σ) (w : World σ) : CK_RV × World σ :=
  let r := p.C_FindObjectsFinal w.tok
  (r.1, { w with tok := r.2, trace := w.trace ++ [P11Call.C_FindObjectsFinal] })

/-- The call `self->p11->C_GenerateKey(...)`. -/
def generateKey (p : P11 σ) (w : World σ) (m : CK_MECHANISM)
    (template : List CK_ATTRIBUTE) : CK_RV × CK_OBJECT_HANDLE × World σ :=
  let r := p.C_GenerateKey w.tok m template
  (r.1, r.2.1,
    { w with tok := r.2.2, trace := w.trace ++ [P11Call.C_GenerateKey m template] })

/-- The call `self->p11->C_GenerateKeyPair(...)`. -/
def generateKeyPair (p : P11 σ) (w : World σ) (m : CK_MECHANISM)
    (pub priv : List CK_ATTRIBUTE) :
    CK_RV × CK_OBJECT_HANDLE × CK_OBJECT_HANDLE × World σ :=
  let r := p.C_GenerateKeyPair w.tok m pub priv
  (r.1, r.2.1, r.2.2.1,
    { w with tok := r.2.2.2, trace := w.trace ++ [P11Call.C_GenerateKeyPair m pub priv] })

/-- The call `self->p11->C_CreateObject(...)`. -/
def createObject (p : P11 σ) (w : World σ) (template : List CK_ATTRIBUTE) :
    CK_RV × CK_OBJECT_HANDLE × World σ :=
  let r := p.C_CreateObject w.tok template
  (r.1, r.2.1,
    { w with tok := r.2.2, trace := w.trace ++ [P11Call.C_CreateObject template] })

/-- The call `self->p11->C_GetAttributeValue(...)`. -/
def getAttributeValue (p : P11 σ) (w : World σ) (object : CK_OBJECT_HANDLE)
    (template : List CK_ATTRIBUTE) : CK_RV × List CK_ATTRIBUTE × World σ :=
  let r := p.C_GetAttributeValue w.tok object template
  (r.1, r.2.1,
    { w with tok := r.2.2,
             trace := w.trace ++ [P11Call.C_GetAttributeValue object template] })

/-- The call `self->p11->C_UnwrapKey(...)`. -/
def unwrapKey (p : P11 σ) (w : World σ) (m : CK_MECHANISM) (key : CK_OBJECT_HANDLE)
    (wrapped : List CK_BYTE) (len : CK_ULONG) (template : List CK_ATTRIBUTE) :
    CK_RV × CK_OBJECT_HANDLE × World σ :=
  let r := p.C_UnwrapKey w.tok m key wrapped len template
  (r.1, r.2.1,
    { w with tok := r.2.2,
             trace := w.trace ++ [P11Call.C_UnwrapKey m key wrapped len template] })

/-- The call `self->p11->C_WrapKey(...)`. -/
def wrapKey (p : P11 σ) (w : World σ) (m : CK_MECHANISM) (wrappingKey key : CK_OBJECT_HANDLE)
    (pWrappedKey : PValue) (len : CK_ULONG) : CK_RV × PValue × CK_ULONG × World σ :=
  let r := p.C_WrapKey w.tok m wrappingKey key pWrappedKey len
  (r.1, r.2.1, r.2.2.1,
    { w with tok := r.2.2.2,
             trace := w.trace ++ [P11Call.C_WrapKey m wrappingKey key pWrappedKey len] })

/-- The call `self->p11->C_SetAttributeValue(...)`. -/
def setAttributeValue (p : P11 σ) (w : World σ) (object : CK_OBJECT_HANDLE)
    (template : List CK_ATTRIBUTE) : CK_RV × World σ :=
  let r := p.C_SetAttributeValue w.tok object template
  (r.1, { w with tok := r.2,
                 trace := w.trace ++ [P11Call.C_SetAttributeValue object template] })

/-- The call `PyErr_SetString(exc, msg)`. -/
def PyErr_SetString (w : World σ) (exc : PyExc) (msg : ErrMsg) : World σ :=
  { w with pyerr := some ⟨exc, msg⟩ }

end World

/-! ## Support functions -/

variable {σ : Type}

/-- The C function `check_return_value`: `1` when `rv` is `CKR_OK`; otherwise
`0`, with the error indicator set to the formatted text, or to the
`DOUBLE ERROR` text when `asprintf` fails.  The status is printed through
`(unsigned int) rv`. -/
def check_return_value (rv : CK_RV) (message : String) (w : World σ) : Int × World σ :=
  if rv ≠ CKR_OK then
    let a := w.alloc
    if a.1 = false then
      (0, a.2.PyErr_SetString PyExc.IPA_PKCS11Error
            (ErrMsg.text "DOUBLE ERROR: Creating the error message caused an error"))
    else
      (0, a.2.PyErr_SetString PyExc.IPA_PKCS11Error
            (ErrMsg.errorAt message (rv % 2 ^ 32)))
  else (1, w)

/-! ## The object locator -/

/-- The return value of `_find_key` with its two output parameters
`*objects` and `*objects_count`. -/
structure FindKeyRet where
  ret : Int
  objects : Option (List CK_OBJECT_HANDLE)
  objects_count : Nat
  deriving DecidableEq, Repr

/-- The search template `_find_key` fills: one entry for each filter that is
not `NULL`, then the class.  Its length is the C variable `attr_count`. -/
def _find_key_template (id : Option (List CK_BYTE)) (id_len : CK_ULONG)
    (label : Option (List CK_BYTE)) (label_len : CK_ULONG) (cls : CK_OBJECT_CLASS)
    (cka_wrap cka_unwrap : Option Bool) : List CK_ATTRIBUTE :=
  let t0 : List CK_ATTRIBUTE := []
  let t1 := match label with
    | some l => t0 ++ [⟨CKA_LABEL, PValue.bytes l, label_len⟩]
    | none => t0
  let t2 := match id with
    | some i => t1 ++ [⟨CKA_ID, PValue.bytes i, id_len⟩]
    | none => t1
  let t3 := match cka_wrap with
    | some b => t2 ++ [⟨CKA_WRAP, PValue.bbool b, sizeof_CK_BBOOL⟩]
    | none => t2
  let t4 := match cka_unwrap with
    | some b => t3 ++ [⟨CKA_UNWRAP, PValue.bbool b, sizeof_CK_BBOOL⟩]
    | none => t3
  t4 ++ [⟨CKA_CLASS, PValue.ulong cls, sizeof_CK_ULONG⟩]

/-- The store `array[i] = v` on the initialised part of a buffer. -/
def storeAt (xs : List CK_OBJECT_HANDLE) (i : Nat) (v : CK_OBJECT_HANDLE) :
    List CK_OBJECT_HANDLE :=
  if i < xs.length then xs.set i v else xs ++ [v]

/-- The block `if (allocated <= count) { allocated += 32; realloc ... }` of
`_find_key`: `none` when `realloc` returns `NULL`, else the buffer, the
capacity and the world after the block. -/
def _find_key_grow (result_objects : Option (List CK_OBJECT_HANDLE))
    (count allocated : Nat) (w : World σ) :
    Option (Option (List CK_OBJECT_HANDLE) × Nat × World σ) :=
  if allocated ≤ count then
    let a := w.alloc
    if a.1 = false then none
    else some (some (result_objects.getD []), (allocated + 32) % 2 ^ 32, a.2)
  else some (result_objects, allocated, w)

/-- The tail of `_find_key` after its `while` loop: the search is closed and
the result is published. -/
def _find_key_finish (p : P11 σ) (objects0 : Option (List CK_OBJECT_HANDLE))
    (objects_count0 : Nat) (result_objects : Option (List CK_OBJECT_HANDLE))
    (count : Nat) (w : World σ) : FindKeyRet × World σ :=
  let f := w.findObjectsFinal p
  let c := check_return_value f.1 "Find objects final" f.2
  if c.1 = 0 then (⟨0, objects0, objects_count0⟩, c.2)
  else (⟨1, result_objects, count⟩, c.2)

/-- The loop `while (objectCount > 0)` of `_find_key` and what follows it.
`fuel` bounds the number of iterations. -/
def _find_key_loop (p : P11 σ) (objects0 : Option (List CK_OBJECT_HANDLE))
    (objects_count0 : Nat) :
    Nat → CK_OBJECT_HANDLE → CK_ULONG → Option (List CK_OBJECT_HANDLE) → Nat → Nat →
      World σ → Option (FindKeyRet × World σ)
  | 0, _, objectCount, result_objects, count, _, w =>
    if objectCount > 0 then none
    else some (_find_key_finish p objects0 objects_count0 result_objects count w)
  | fuel + 1, result_object, objectCount, result_objects, count, allocated, w =>
    if objectCount > 0 then
      match _find_key_grow result_objects count allocated w with
      | none =>
        some (⟨0, objects0, 0⟩,
          (w.alloc).2.PyErr_SetString PyExc.IPA_PKCS11Error
            (ErrMsg.text "_find_key realloc failed"))
      | some (buf, allocated1, w1) =>
        let stored := storeAt (buf.getD []) count result_object
        let count1 := (count + 1) % 2 ^ 32
        let f := w1.findObjects p
        let c := check_return_value f.1 "Check for duplicated key" f.2.2.2
        if c.1 = 0 then some (⟨0, objects0, objects_count0⟩, c.2)
        else _find_key_loop p objects0 objects_count0 fuel f.2.1 f.2.2.1
               (some stored) count1 allocated1 c.2
    else some (_find_key_finish p objects0 objects_count0 result_objects count w)

/-- The C function `_find_key`.  `objects0` and `objects_count0` are the
values the caller's variables hold on entry. -/
def _find_key (p : P11 σ) (id : Option (List CK_BYTE)) (id_len : CK_ULONG)
    (label : Option (List CK_BYTE)) (label_len : CK_ULONG) (cls : CK_OBJECT_CLASS)
    (cka_wrap cka_unwrap : Option Bool) (objects0 : Option (List CK_OBJECT_HANDLE))
    (objects_count0 : Nat) (fuel : Nat) (w : World σ) :
    Option (FindKeyRet × World σ) :=
  let template := _find_key_template id id_len label label_len cls cka_wrap cka_unwrap
  let i := w.findObjectsInit p template
  let c := check_return_value i.1 "Find key init" i.2
  if c.1 = 0 then some (⟨0, objects0, objects_count0⟩, c.2)
  else
    let f := c.2.findObjects p
    let c2 := check_return_value f.1 "Find key" f.2.2.2
    if c2.1 = 0 then some (⟨0, objects0, objects_count0⟩, c2.2)
    else _find_key_loop p objects0 objects_count0 fuel f.2.1 f.2.2.1 none 0 0 c2.2

/-- The return value of `_get_key` with its output parameter `*object`. -/
structure GetKeyRet where
  ret : Int
  object : CK_OBJECT_HANDLE
  deriving DecidableEq, Repr

/-- The C function `_get_key`.  `object0` is the value the caller's variable
holds on entry; it is overwritten only when exactly one object was found. -/
def _get_key (p : P11 σ) (id : Option (List CK_BYTE)) (id_len : CK_ULONG)
    (label : Option (List CK_BYTE)) (label_len : CK_ULONG) (cls : CK_OBJECT_CLASS)
    (cka_wrap cka_unwrap : Option Bool) (object0 : CK_OBJECT_HANDLE) (fuel : Nat)
    (w : World σ) : Option (GetKeyRet × World σ) :=
  if label = none ∧ id = none then
    some (⟨0, object0⟩,
      w.PyErr_SetString PyExc.IPA_PKCS11Error (ErrMsg.text "Key 'id' or 'label' required."))
  else
    match _find_key p id id_len label label_len cls cka_wrap cka_unwrap none 0 fuel w with
    | none => none
    | some (r, w1) =>
      if r.ret = 0 then some (⟨0, object0⟩, w1)
      else
        let not_found_err : Nat := if r.objects_count = 0 then 1 else 0
        let duplication_err : Nat := if r.objects_count > 1 then 1 else 0
        let object1 :=
          if ¬ (not_found_err ≠ 0 ∨ duplication_err ≠ 0) then
            (r.objects.getD [])[0]?.getD object0
          else object0
        if not_found_err ≠ 0 then
          some (⟨0, object1⟩,
            w1.PyErr_SetString PyExc.IPA_PKCS11NotFound (ErrMsg.text "Key not found"))
        else if duplication_err ≠ 0 then
          some (⟨0, object1⟩,
            w1.PyErr_SetString PyExc.IPA_PKCS11DuplicationError
              (ErrMsg.text "_get_key: more than 1 key found"))
        else some (⟨1, object1⟩, w1)

/-- The search template of `_id_label_exists`: always the three entries id,
label, class, whatever is `NULL`. -/
def _id_label_exists_template (id : Option (List CK_BYTE)) (id_len : CK_ULONG)
    (label : Option (List CK_BYTE)) (label_len : CK_ULONG) (cls : CK_OBJECT_CLASS) :
    List CK_ATTRIBUTE :=
  [⟨CKA_ID, bytePtr id, id_len⟩,
   ⟨CKA_LABEL, bytePtr label, label_len⟩,
   ⟨CKA_CLASS, PValue.ulong cls, sizeof_CK_ULONG⟩]

/-- The C function `_id_label_exists`: `1` found, `0` not found, `-1` error. -/
def _id_label_exists (p : P11 σ) (id : Option (List CK_BYTE)) (id_len : CK_ULONG)
    (label : Option (List CK_BYTE)) (label_len : CK_ULONG) (cls : CK_OBJECT_CLASS)
    (w : World σ) : Int × World σ :=
  let template := _id_label_exists_template id id_len label label_len cls
  let i := w.findObjectsInit p template
  let c := check_return_value i.1 "id, label exists init" i.2
  if c.1 = 0 then (-1, c.2)
  else
    let f := c.2.findObjects p
    let c2 := check_return_value f.1 "id, label exists" f.2.2.2
    if c2.1 = 0 then (-1, c2.2)
    else
      let e := c2.2.findObjectsFinal p
      let c3 := check_return_value e.1 "id, label exists final" e.2
      if c3.1 = 0 then (-1, c3.2)
      else if f.2.2.1 = 0 then (0, c3.2)
      else (1, c3.2)

/-- The local variables of `_find_key` at the head of its `while` loop. -/
structure FindKeyVars (σ : Type) where
  result_object : CK_OBJECT_HANDLE
  objectCount : CK_ULONG
  result_objects : Option (List CK_OBJECT_HANDLE)
  count : Nat
  allocated : Nat
  w : World σ

/-- One pass through the body of the loop of `_find_key`: the variables at
the next loop head, or `none` when the pass leaves the function (`realloc`
returned `NULL`, or `C_FindObjects` failed). -/
def _find_key_pass (p : P11 σ) (v : FindKeyVars σ) : Option (FindKeyVars σ) :=
  match _find_key_grow v.result_objects v.count v.allocated v.w with
  | none => none
  | some (buf, allocated1, w1) =>
    let stored := storeAt (buf.getD []) v.count v.result_object
    let count1 := (v.count + 1) % 2 ^ 32
    let f := w1.findObjects p
    let c := check_return_value f.1 "Check for duplicated key" f.2.2.2
    if c.1 = 0 then none else some ⟨f.2.1, f.2.2.1, some stored, count1, allocated1, c.2⟩

/-- The variables at the loop head after `n` passes, when the loop makes
that many. -/
def _find_key_passes (p : P11 σ) : Nat → FindKeyVars σ → Option (FindKeyVars σ)
  | 0, v => some v
  | n + 1, v =>
    if v.objectCount > 0 then
      match _find_key_pass p v with
      | none => none
      | some v1 => _find_key_passes p n v1
    else none

/-- The variables of `_find_key` when the loop is reached: the answer to the
first `C_FindObjects` call, no buffer, `count` and `allocated` `0`. -/
def _find_key_entry (p : P11 σ) (id : Option (List CK_BYTE)) (id_len : CK_ULONG)
    (label : Option (List CK_BYTE)) (label_len : CK_ULONG) (cls : CK_OBJECT_CLASS)
    (cka_wrap cka_unwrap : Option Bool) (w : World σ) : FindKeyVars σ :=
  let template := _find_key_template id id_len label label_len cls cka_wrap cka_unwrap
  let i := w.findObjectsInit p template
  let f := i.2.findObjects p
  ⟨f.2.1, f.2.2.1, none, 0, 0, f.2.2.2⟩

/-! ## Argument conversion -/

/-- A Python unicode object, seen through `PyUnicode_AsUTF8String`: its UTF-8
bytes, or `none` when the encoder fails. -/
structure PyUnicodeObject where
  utf8 : Option (List CK_BYTE)
  deriving DecidableEq, Repr

/-- The C function `unicode_to_char_array`: the byte pointer (`NULL` on an
encoder failure, with the error indicator set) and the value of `*l`
afterwards (`l0` is its value on entry).  The branch `bytes == NULL` is left
out: `PyString_AS_STRING` of a string object is never `NULL`. -/
def unicode_to_char_array (unicode : PyUnicodeObject) (l0 : Nat) (w : World σ) :
    Option (List CK_BYTE) × Nat × World σ :=
  match unicode.utf8 with
  | none =>
    (none, l0, w.PyErr_SetString PyExc.IPA_PKCS11Error (ErrMsg.text "Unable to encode UTF-8"))
  | some bytes => (some bytes, bytes.length, w)

/-- The read `attrs[i].bool`, a `CK_BBOOL *`. -/
def attrBoolPtr (attrs : List PyObj2Bool_mapping_t) (i : Nat) : Option Bool :=
  match attrs[i]? with
  | some m => some m.bool
  | none => none

/-- The read `attrs[i].bool` as a `pValue`. -/
def attrBool (attrs : List PyObj2Bool_mapping_t) (i : Nat) : PValue :=
  boolPtr (attrBoolPtr attrs i)

/-! ### Positions of the three attribute tables -/

abbrev sec_en_cka_copyable : Nat := 0
abbrev sec_en_cka_decrypt : Nat := 1
abbrev sec_en_cka_derive : Nat := 2
abbrev sec_en_cka_encrypt : Nat := 3
abbrev sec_en_cka_extractable : Nat := 4
abbrev sec_en_cka_modifiable : Nat := 5
abbrev sec_en_cka_private : Nat := 6
abbrev sec_en_cka_sensitive : Nat := 7
abbrev sec_en_cka_sign : Nat := 8
abbrev sec_en_cka_unwrap : Nat := 9
abbrev sec_en_cka_verify : Nat := 10
abbrev sec_en_cka_wrap : Nat := 11
abbrev sec_en_cka_wrap_with_trusted : Nat := 12

abbrev pub_en_cka_copyable : Nat := 0
abbrev pub_en_cka_derive : Nat := 1
abbrev pub_en_cka_encrypt : Nat := 2
abbrev pub_en_cka_modifiable : Nat := 3
abbrev pub_en_cka_private : Nat := 4
abbrev pub_en_cka_trusted : Nat := 5
abbrev pub_en_cka_verify : Nat := 6
abbrev pub_en_cka_verify_recover : Nat := 7
abbrev pub_en_cka_wrap : Nat := 8

abbrev priv_en_cka_always_authenticate : Nat := 0
abbrev priv_en_cka_copyable : Nat := 1
abbrev priv_en_cka_decrypt : Nat := 2
abbrev priv_en_cka_derive : Nat := 3
abbrev priv_en_cka_extractable : Nat := 4
abbrev priv_en_cka_modifiable : Nat := 5
abbrev priv_en_cka_private : Nat := 6
abbrev priv_en_cka_sensitive : Nat := 7
abbrev priv_en_cka_sign : Nat := 8
abbrev priv_en_cka_sign_recover : Nat := 9
abbrev priv_en_cka_unwrap : Nat := 10
abbrev priv_en_cka_wrap_with_trusted : Nat := 11

/-! ## Key generation

In the functions below `kw i` is the object the caller passed for the keyword
that `PyArg_ParseTupleAndKeywords` stores in position `i` of the table
(`none`: the keyword was not given, `py_obj` stays `NULL`). -/

/-- The table `attrs` of `IPA_PKCS11_generate_master_key` after argument
parsing. -/
def generate_master_key_attrs (kw : Nat → Option PyObject) : List PyObj2Bool_mapping_t :=
  [⟨kw sec_en_cka_copyable, true⟩,
   ⟨kw sec_en_cka_decrypt, false⟩,
   ⟨kw sec_en_cka_derive, false⟩,
   ⟨kw sec_en_cka_encrypt, false⟩,
   ⟨kw sec_en_cka_extractable, true⟩,
   ⟨kw sec_en_cka_modifiable, true⟩,
   ⟨kw sec_en_cka_private, true⟩,
   ⟨kw sec_en_cka_sensitive, true⟩,
   ⟨kw sec_en_cka_sign, false⟩,
   ⟨kw sec_en_cka_unwrap, true⟩,
   ⟨kw sec_en_cka_verify, false⟩,
   ⟨kw sec_en_cka_wrap, true⟩,
   ⟨kw sec_en_cka_wrap_with_trusted, false⟩]

/-- The array `symKeyTemplate` of `IPA_PKCS11_generate_master_key`. -/
def generate_master_key_template (id : Option (List CK_BYTE)) (id_length : CK_ULONG)
    (label : Option (List CK_BYTE)) (label_length : CK_ULONG) (key_length : CK_ULONG)
    (attrs : List PyObj2Bool_mapping_t) : List CK_ATTRIBUTE :=
  [⟨CKA_ID, bytePtr id, id_length⟩,
   ⟨CKA_LABEL, bytePtr label, label_length⟩,
   ⟨CKA_TOKEN, PValue.bbool true, sizeof_CK_BBOOL⟩,
   ⟨CKA_VALUE_LEN, PValue.ulong key_length, sizeof_CK_ULONG⟩,
   ⟨CKA_DECRYPT, attrBool attrs sec_en_cka_decrypt, sizeof_CK_BBOOL⟩,
   ⟨CKA_DERIVE, attrBool attrs sec_en_cka_derive, sizeof_CK_BBOOL⟩,
   ⟨CKA_ENCRYPT, attrBool attrs sec_en_cka_encrypt, sizeof_CK_BBOOL⟩,
   ⟨CKA_EXTRACTABLE, attrBool attrs sec_en_cka_extractable, sizeof_CK_BBOOL⟩,
   ⟨CKA_MODIFIABLE, attrBool attrs sec_en_cka_modifiable, sizeof_CK_BBOOL⟩,
   ⟨CKA_PRIVATE, attrBool attrs sec_en_cka_private, sizeof_CK_BBOOL⟩,
   ⟨CKA_SENSITIVE, attrBool attrs sec_en_cka_sensitive, sizeof_CK_BBOOL⟩,
   ⟨CKA_SIGN, attrBool attrs sec_en_cka_sign, sizeof_CK_BBOOL⟩,
   ⟨CKA_UNWRAP, attrBool attrs sec_en_cka_unwrap, sizeof_CK_BBOOL⟩,
   ⟨CKA_VERIFY, attrBool attrs sec_en_cka_verify, sizeof_CK_BBOOL⟩,
   ⟨CKA_WRAP, attrBool attrs sec_en_cka_wrap, sizeof_CK_BBOOL⟩,
   ⟨CKA_WRAP_WITH_TRUSTED, attrBool attrs sec_en_cka_wrap_with_trusted, sizeof_CK_BBOOL⟩]

/-- The C function `IPA_PKCS11_generate_master_key`, after argument parsing
(`"Us#|kOOOOOOOOOOOOO"`): `none` is the `NULL` return. -/
def IPA_PKCS11_generate_master_key (p : P11 σ) (label_unicode : PyUnicodeObject)
    (id : List CK_BYTE) (key_length : CK_ULONG) (kw : Nat → Option PyObject)
    (w : World σ) : Option PyObject × World σ :=
  let attrs0 := generate_master_key_attrs kw
  let id_length := id.length
  let u := unicode_to_char_array label_unicode 0 w
  let label := u.1
  let label_length := u.2.1
  let mechanism : CK_MECHANISM := ⟨CKM_AES_KEY_GEN, PValue.null, 0⟩
  if key_length ≠ 16 ∧ key_length ≠ 24 ∧ key_length ≠ 32 then
    (none, u.2.2.PyErr_SetString PyExc.IPA_PKCS11Error
      (ErrMsg.text "generate_master_key: key length allowed values are: 16, 24 and 32"))
  else
    let r := _id_label_exists p (some id) id_length label label_length CKO_SECRET_KEY u.2.2
    if r.1 = 1 then
      (none, r.2.PyErr_SetString PyExc.IPA_PKCS11DuplicationError
        (ErrMsg.text "Master key with same ID and LABEL already exists"))
    else if r.1 = -1 then (none, r.2)
    else
      let attrs := convert_py2bool attrs0 13
      let symKeyTemplate :=
        generate_master_key_template (some id) id_length label label_length key_length attrs
      let g := r.2.generateKey p mechanism symKeyTemplate
      let c := check_return_value g.1 "generate master key" g.2.2
      if c.1 = 0 then (none, c.2)
      else (some (PyObject.pyInt g.2.1), c.2)

/-- The table `attrs_pub` of `IPA_PKCS11_generate_replica_key_pair` after
argument parsing. -/
def generate_replica_key_pair_attrs_pub (kw : Nat → Option PyObject) :
    List PyObj2Bool_mapping_t :=
  [⟨kw pub_en_cka_copyable, true⟩,
   ⟨kw pub_en_cka_derive, false⟩,
   ⟨kw pub_en_cka_encrypt, false⟩,
   ⟨kw pub_en_cka_modifiable, true⟩,
   ⟨kw pub_en_cka_private, true⟩,
   ⟨kw pub_en_cka_trusted, false⟩,
   ⟨kw pub_en_cka_verify, false⟩,
   ⟨kw pub_en_cka_verify_recover, false⟩,
   ⟨kw pub_en_cka_wrap, true⟩]

/-- The table `attrs_priv` of `IPA_PKCS11_generate_replica_key_pair` after
argument parsing. -/
def generate_replica_key_pair_attrs_priv (kw : Nat → Option PyObject) :
    List PyObj2Bool_mapping_t :=
  [⟨kw priv_en_cka_always_authenticate, false⟩,
   ⟨kw priv_en_cka_copyable, true⟩,
   ⟨kw priv_en_cka_decrypt, false⟩,
   ⟨kw priv_en_cka_derive, false⟩,
   ⟨kw priv_en_cka_extractable, false⟩,
   ⟨kw priv_en_cka_modifiable, true⟩,
   ⟨kw priv_en_cka_private, true⟩,
   ⟨kw priv_en_cka_sensitive, true⟩,
   ⟨kw priv_en_cka_sign, false⟩,
   ⟨kw priv_en_cka_sign_recover, false⟩,
   ⟨kw priv_en_cka_unwrap, true⟩,
   ⟨kw priv_en_cka_wrap_with_trusted, false⟩]

/-- The array `publicKeyTemplate` of `IPA_PKCS11_generate_replica_key_pair`;
`public_exponent` is the byte array `{1, 0, 1}`. -/
def generate_replica_key_pair_publicKeyTemplate (id : Option (List CK_BYTE))
    (id_length : CK_ULONG) (label : Option (List CK_BYTE)) (label_length : CK_ULONG)
    (modulus_bits : CK_ULONG) (attrs_pub : List PyObj2Bool_mapping_t) :
    List CK_ATTRIBUTE :=
  [⟨CKA_ID, bytePtr id, id_length⟩,
   ⟨CKA_LABEL, bytePtr label, label_length⟩,
   ⟨CKA_TOKEN, PValue.bbool true, sizeof_CK_BBOOL⟩,
   ⟨CKA_MODULUS_BITS, PValue.ulong modulus_bits, sizeof_CK_ULONG⟩,
   ⟨CKA_PUBLIC_EXPONENT, PValue.bytes [1, 0, 1], 3⟩,
   ⟨CKA_DERIVE, attrBool attrs_pub pub_en_cka_derive, sizeof_CK_BBOOL⟩,
   ⟨CKA_ENCRYPT, attrBool attrs_pub pub_en_cka_encrypt, sizeof_CK_BBOOL⟩,
   ⟨CKA_MODIFIABLE, attrBool attrs_pub pub_en_cka_modifiable, sizeof_CK_BBOOL⟩,
   ⟨CKA_PRIVATE, attrBool attrs_pub pub_en_cka_private, sizeof_CK_BBOOL⟩,
   ⟨CKA_TRUSTED, attrBool attrs_pub pub_en_cka_trusted, sizeof_CK_BBOOL⟩,
   ⟨CKA_VERIFY, attrBool attrs_pub pub_en_cka_verify, sizeof_CK_BBOOL⟩,
   ⟨CKA_VERIFY_RECOVER, attrBool attrs_pub pub_en_cka_verify_recover, sizeof_CK_BBOOL⟩,
   ⟨CKA_WRAP, attrBool attrs_pub pub_en_cka_wrap, sizeof_CK_BBOOL⟩]

/-- The array `privateKeyTemplate` of `IPA_PKCS11_generate_replica_key_pair`. -/
def generate_replica_key_pair_privateKeyTemplate (id : Option (List CK_BYTE))
    (id_length : CK_ULONG) (label : Option (List CK_BYTE)) (label_length : CK_ULONG)
    (attrs_priv : List PyObj2Bool_mapping_t) : List CK_ATTRIBUTE :=
  [⟨CKA_ID, bytePtr id, id_length⟩,
   ⟨CKA_LABEL, bytePtr label, label_length⟩,
   ⟨CKA_TOKEN, PValue.bbool true, sizeof_CK_BBOOL⟩,
   ⟨CKA_ALWAYS_AUTHENTICATE, attrBool attrs_priv priv_en_cka_always_authenticate,
     sizeof_CK_BBOOL⟩,
   ⟨CKA_DECRYPT, attrBool attrs_priv priv_en_cka_decrypt, sizeof_CK_BBOOL⟩,
   ⟨CKA_DERIVE, attrBool attrs_priv priv_en_cka_derive, sizeof_CK_BBOOL⟩,
   ⟨CKA_EXTRACTABLE, attrBool attrs_priv priv_en_cka_extractable, sizeof_CK_BBOOL⟩,
   ⟨CKA_MODIFIABLE, attrBool attrs_priv priv_en_cka_modifiable, sizeof_CK_BBOOL⟩,
   ⟨CKA_PRIVATE, attrBool attrs_priv priv_en_cka_private, sizeof_CK_BBOOL⟩,
   ⟨CKA_SENSITIVE, attrBool attrs_priv priv_en_cka_sensitive, sizeof_CK_BBOOL⟩,
   ⟨CKA_SIGN, attrBool attrs_priv priv_en_cka_sign, sizeof_CK_BBOOL⟩,
   ⟨CKA_SIGN_RECOVER, attrBool attrs_priv priv_en_cka_sign, sizeof_CK_BBOOL⟩,
   ⟨CKA_UNWRAP, attrBool attrs_priv priv_en_cka_unwrap, sizeof_CK_BBOOL⟩,
   ⟨CKA_WRAP_WITH_TRUSTED, attrBool attrs_priv priv_en_cka_wrap_with_trusted,
     sizeof_CK_BBOOL⟩]

/-- The C function `IPA_PKCS11_generate_replica_key_pair`, after argument
parsing (`"Us#|kOOOOOOOOOOOOOOOOOOOOO"`): `kw_pub` and `kw_priv` are the
overrides of the public and of the private table. -/
def IPA_PKCS11_generate_replica_key_pair (p : P11 σ) (label_unicode : PyUnicodeObject)
    (id : List CK_BYTE) (modulus_bits : CK_ULONG) (kw_pub kw_priv : Nat → Option PyObject)
    (w : World σ) : Option PyObject × World σ :=
  let attrs_pub0 := generate_replica_key_pair_attrs_pub kw_pub
  let attrs_priv0 := generate_replica_key_pair_attrs_priv kw_priv
  let id_length := id.length
  let u := unicode_to_char_array label_unicode 0 w
  let label := u.1
  let label_length := u.2.1
  let mechanism : CK_MECHANISM := ⟨CKM_RSA_PKCS_KEY_PAIR_GEN, PValue.null, 0⟩
  let r := _id_label_exists p (some id) id_length label label_length CKO_PRIVATE_KEY u.2.2
  if r.1 = 1 then
    (none, r.2.PyErr_SetString PyExc.IPA_PKCS11DuplicationError
      (ErrMsg.text "Private key with same ID and LABEL already exists"))
  else if r.1 = -1 then (none, r.2)
  else
    let r2 := _id_label_exists p (some id) id_length label label_length CKO_PUBLIC_KEY r.2
    if r2.1 = 1 then
      (none, r2.2.PyErr_SetString PyExc.IPA_PKCS11DuplicationError
        (ErrMsg.text "Public key with same ID and LABEL already exists"))
    else if r2.1 = -1 then (none, r2.2)
    else
      let attrs_pub := convert_py2bool attrs_pub0 9
      let attrs_priv := convert_py2bool attrs_priv0 12
      let publicKeyTemplate := generate_replica_key_pair_publicKeyTemplate (some id)
        id_length label label_length modulus_bits attrs_pub
      let privateKeyTemplate := generate_replica_key_pair_privateKeyTemplate (some id)
        id_length label label_length attrs_priv
      let g := r2.2.generateKeyPair p mechanism publicKeyTemplate privateKeyTemplate
      let c := check_return_value g.1 "generate key pair" g.2.2.2
      if c.1 = 0 then (none, c.2)
      else (some (PyObject.pyIntPair g.2.1 g.2.2.1), c.2)

/-! ## The OpenSSL collaborator -/

abbrev EVP_PKEY_RSA : Nat := 6
abbrev EVP_PKEY_DSA : Nat := 116
abbrev EVP_PKEY_EC : Nat := 408

/-- The two `BIGNUM`s of an RSA public key, as the numbers they hold. -/
structure RSA where
  n : Nat
  e : Nat
  deriving DecidableEq, Repr

/-- An `EVP_PKEY`: its `type` field and, for an RSA key, the key. -/
structure EVP_PKEY where
  type : Nat
  rsa : Option RSA
  deriving DecidableEq, Repr

/-- The OpenSSL call `BN_bin2bn(s, len, NULL)`: the first `len` bytes of `s`
read as a big-endian unsigned integer. -/
def BN_bin2bn (s : List CK_BYTE) (len : Nat) : Nat :=
  (s.take len).foldl (fun acc b => acc * 256 + b % 256) 0

/-- Big-endian digits of `a` in front of `acc`, most significant first. -/
def BN_bytes_aux : Nat → Nat → List CK_BYTE → List CK_BYTE
  | 0, _, acc => acc
  | fuel + 1, a, acc =>
    if a = 0 then acc else BN_bytes_aux fuel (a / 256) (a % 256 :: acc)

/-- The bytes the OpenSSL call `BN_bn2bin(a, to)` writes: the big-endian
unsigned representation without leading zero bytes (none at all for zero).
Their number is both `BN_num_bytes(a)` and the value `BN_bn2bin` returns. -/
def BN_bn2bin (a : Nat) : List CK_BYTE :=
  BN_bytes_aux a a []

/-- The OpenSSL calls whose results the module branches on, as a parameter. -/
structure OpenSSL where
  /-- `EVP_PKEY_set1_RSA(pkey, rsa)` on a fresh `pkey`: the key it becomes, or
  `none` when the call returns `0`. -/
  EVP_PKEY_set1_RSA : RSA → Option EVP_PKEY
  /-- `i2d_PUBKEY(pkey, &pp)`: the returned length and the buffer `pp`
  (`none`: `pp` stays `NULL`). -/
  i2d_PUBKEY : EVP_PKEY → Int × Option (List CK_BYTE)
  /-- `d2i_PUBKEY(NULL, &data, data_length)`: the decoded key, or `NULL`. -/
  d2i_PUBKEY : List CK_BYTE → Nat → Option EVP_PKEY
  /-- `EVP_PKEY_get1_RSA(pkey)`: the RSA key, or `NULL`. -/
  EVP_PKEY_get1_RSA : EVP_PKEY → Option RSA

/-- The bytes a `pValue` buffer holds (a pointer that is not a byte buffer is
read as holding none). -/
def bytesOf : PValue → List CK_BYTE
  | PValue.bytes b => b
  | _ => []

/-- The number a `pValue` pointing to a `CK_ULONG` variable holds. -/
def ulongOf : PValue → CK_ULONG
  | PValue.ulong n => n
  | _ => 0

instance : Inhabited CK_ATTRIBUTE := ⟨⟨0, PValue.null, 0⟩⟩

/-- The result of `malloc(n)` as a `pValue`: a buffer of `n` bytes, or `NULL`. -/
def mallocBytes (ok : Bool) (n : Nat) : PValue :=
  if ok then PValue.bytes (List.replicate n 0) else PValue.null

/-- The assignment `obj_template[i].pValue = v`. -/
def setPValue (t : List CK_ATTRIBUTE) (i : Nat) (v : PValue) : List CK_ATTRIBUTE :=
  match t[i]? with
  | some a => t.set i { a with pValue := v }
  | none => t

/-! ## Public key export and import -/

/-- The C function `IPA_PKCS11_export_RSA_public_key`.  `RSA_new` and
`EVP_PKEY_new` are taken to succeed (their results are used unchecked). -/
def IPA_PKCS11_export_RSA_public_key (p : P11 σ) (ssl : OpenSSL)
    (object : CK_OBJECT_HANDLE) (w : World σ) : Option PyObject × World σ :=
  let obj_template0 : List CK_ATTRIBUTE :=
    [⟨CKA_MODULUS, PValue.null, 0⟩,
     ⟨CKA_PUBLIC_EXPONENT, PValue.null, 0⟩,
     ⟨CKA_CLASS, PValue.ulong CKO_PUBLIC_KEY, sizeof_CK_ULONG⟩,
     ⟨CKA_KEY_TYPE, PValue.ulong CKK_RSA, sizeof_CK_ULONG⟩]
  let g := w.getAttributeValue p object obj_template0
  let c := check_return_value g.1 "get RSA public key values - prepare" g.2.2
  if c.1 = 0 then (none, c.2)
  else
    let a1 := c.2.alloc
    let t1 := setPValue g.2.1 0 (mallocBytes a1.1 (g.2.1.getD 0 default).ulValueLen)
    let a2 := a1.2.alloc
    let t2 := setPValue t1 1 (mallocBytes a2.1 (t1.getD 1 default).ulValueLen)
    let g2 := a2.2.getAttributeValue p object t2
    let c2 := check_return_value g2.1 "get RSA public key values" g2.2.2
    if c2.1 = 0 then (none, c2.2)
    else
      let t3 := g2.2.1
      let cls := ulongOf (t3.getD 2 default).pValue
      let key_type := ulongOf (t3.getD 3 default).pValue
      if cls ≠ CKO_PUBLIC_KEY then
        (none, c2.2.PyErr_SetString PyExc.IPA_PKCS11Error
          (ErrMsg.text "export_RSA_public_key: required public key class"))
      else if key_type ≠ CKK_RSA then
        (none, c2.2.PyErr_SetString PyExc.IPA_PKCS11Error
          (ErrMsg.text "export_RSA_public_key: required RSA key type"))
      else
        let b1 := c2.2.alloc
        if b1.1 = false then
          (none, b1.2.PyErr_SetString PyExc.IPA_PKCS11Error
            (ErrMsg.text "export_RSA_public_key: internal error: unable to convert modulus"))
        else
          let n := BN_bin2bn (bytesOf (t3.getD 0 default).pValue) (t3.getD 0 default).ulValueLen
          let b2 := b1.2.alloc
          if b2.1 = false then
            (none, b2.2.PyErr_SetString PyExc.IPA_PKCS11Error
              (ErrMsg.text "export_RSA_public_key: internal error: unable to convert exponent"))
          else
            let e := BN_bin2bn (bytesOf (t3.getD 1 default).pValue)
              (t3.getD 1 default).ulValueLen
            match ssl.EVP_PKEY_set1_RSA ⟨n, e⟩ with
            | none =>
              (none, b2.2.PyErr_SetString PyExc.IPA_PKCS11Error
                (ErrMsg.text "export_RSA_public_key: internal error: EVP_PKEY_set1_RSA failed"))
            | some pkey =>
              let d := ssl.i2d_PUBKEY pkey
              match d.2 with
              | none => (some PyObject.pyNone, b2.2)
              | some pp => (some (PyObject.pyStr (pp.take d.1.toNat)), b2.2)

/-- The C function `IPA_PKCS11_export_public_key`, after argument parsing. -/
def IPA_PKCS11_export_public_key (p : P11 σ) (ssl : OpenSSL)
    (object : CK_OBJECT_HANDLE) (w : World σ) : Option PyObject × World σ :=
  let obj_template : List CK_ATTRIBUTE :=
    [⟨CKA_CLASS, PValue.ulong CKO_PUBLIC_KEY, sizeof_CK_ULONG⟩,
     ⟨CKA_KEY_TYPE, PValue.ulong CKK_RSA, sizeof_CK_ULONG⟩]
  let g := w.getAttributeValue p object obj_template
  let c := check_return_value g.1 "export_public_key: get RSA public key values" g.2.2
  if c.1 = 0 then (none, c.2)
  else
    let cls := ulongOf (g.2.1.getD 0 default).pValue
    let key_type := ulongOf (g.2.1.getD 1 default).pValue
    if cls ≠ CKO_PUBLIC_KEY then
      (none, c.2.PyErr_SetString PyExc.IPA_PKCS11Error
        (ErrMsg.text "export_public_key: required public key class"))
    else if key_type = CKK_RSA then
      IPA_PKCS11_export_RSA_public_key p ssl object c.2
    else
      (none, c.2.PyErr_SetString PyExc.IPA_PKCS11Error
        (ErrMsg.text "export_public_key: unsupported key type"))

/-- The array `template` of `IPA_PKCS11_import_RSA_public_key`.  It is
initialised where it is declared, at the head of the function, from the
values the local variables hold there: `modulus` and `exponent` are `NULL`
and `modulus_len` and `exponent_len` are `0`. -/
def import_RSA_public_key_template (label : Option (List CK_BYTE)) (label_length : CK_ULONG)
    (id : Option (List CK_BYTE)) (id_length : CK_ULONG)
    (modulus : Option (List CK_BYTE)) (modulus_len : Nat)
    (exponent : Option (List CK_BYTE)) (exponent_len : Nat)
    (cka_derive cka_encrypt cka_modifiable cka_private cka_trusted cka_verify
      cka_verify_recover cka_wrap : Option Bool) : List CK_ATTRIBUTE :=
  [⟨CKA_ID, bytePtr id, id_length⟩,
   ⟨CKA_CLASS, PValue.ulong CKO_PUBLIC_KEY, sizeof_CK_ULONG⟩,
   ⟨CKA_KEY_TYPE, PValue.ulong CKK_RSA, sizeof_CK_ULONG⟩,
   ⟨CKA_TOKEN, PValue.bbool true, sizeof_CK_BBOOL⟩,
   ⟨CKA_LABEL, bytePtr label, label_length⟩,
   ⟨CKA_MODULUS, bytePtr modulus, modulus_len⟩,
   ⟨CKA_PUBLIC_EXPONENT, bytePtr exponent, exponent_len⟩,
   ⟨CKA_DERIVE, boolPtr cka_derive, sizeof_CK_BBOOL⟩,
   ⟨CKA_ENCRYPT, boolPtr cka_encrypt, sizeof_CK_BBOOL⟩,
   ⟨CKA_MODIFIABLE, boolPtr cka_modifiable, sizeof_CK_BBOOL⟩,
   ⟨CKA_PRIVATE, boolPtr cka_private, sizeof_CK_BBOOL⟩,
   ⟨CKA_TRUSTED, boolPtr cka_trusted, sizeof_CK_BBOOL⟩,
   ⟨CKA_VERIFY, boolPtr cka_verify, sizeof_CK_BBOOL⟩,
   ⟨CKA_VERIFY_RECOVER, boolPtr cka_verify_recover, sizeof_CK_BBOOL⟩,
   ⟨CKA_WRAP, boolPtr cka_wrap, sizeof_CK_BBOOL⟩]

set_option linter.unusedVariables false in
/-- The C function `IPA_PKCS11_import_RSA_public_key`.  The local variables
`modulus`, `modulus_len`, `exponent`, `exponent_len` are assigned after the
template was initialised; the template is not written again before
`C_CreateObject`.  A failed `malloc` is taken to the error return that
follows the `BN_bn2bin` call (the call itself would write through `NULL`).
The parameter `cka_copyable` is not used, as in the source. -/
def IPA_PKCS11_import_RSA_public_key (p : P11 σ) (ssl : OpenSSL)
    (label : Option (List CK_BYTE)) (label_length : CK_ULONG)
    (id : Option (List CK_BYTE)) (id_length : CK_ULONG) (pkey : EVP_PKEY)
    (cka_copyable cka_derive cka_encrypt cka_modifiable cka_private cka_trusted
      cka_verify cka_verify_recover cka_wrap : Option Bool)
    (w : World σ) : Option PyObject × World σ :=
  let modulus0 : Option (List CK_BYTE) := none
  let modulus_len0 : Nat := 0
  let exponent0 : Option (List CK_BYTE) := none
  let exponent_len0 : Nat := 0
  let template := import_RSA_public_key_template label label_length id id_length
    modulus0 modulus_len0 exponent0 exponent_len0
    cka_derive cka_encrypt cka_modifiable cka_private cka_trusted cka_verify
    cka_verify_recover cka_wrap
  if pkey.type ≠ EVP_PKEY_RSA then
    (none, w.PyErr_SetString PyExc.IPA_PKCS11Error (ErrMsg.text "Required RSA public key"))
  else
    match ssl.EVP_PKEY_get1_RSA pkey with
    | none =>
      (none, w.PyErr_SetString PyExc.IPA_PKCS11Error
        (ErrMsg.text "import_RSA_public_key: EVP_PKEY_get1_RSA error"))
    | some rsa =>
      let a1 := w.alloc
      let modulus : Option (List CK_BYTE) := if a1.1 then some (BN_bn2bin rsa.n) else none
      if modulus = none then
        (none, a1.2.PyErr_SetString PyExc.IPA_PKCS11Error
          (ErrMsg.text "import_RSA_public_key: BN_bn2bin modulus error"))
      else
        let a2 := a1.2.alloc
        let exponent : Option (List CK_BYTE) := if a2.1 then some (BN_bn2bin rsa.e) else none
        if exponent = none then
          (none, a2.2.PyErr_SetString PyExc.IPA_PKCS11Error
            (ErrMsg.text "import_RSA_public_key: BN_bn2bin exponent error"))
        else
          let g := a2.2.createObject p template
          let c := check_return_value g.1 "create public key object" g.2.2
          if c.1 = 0 then (none, c.2)
          else (some (PyObject.pyInt g.2.1), c.2)

/-- The table `attrs_pub` of `IPA_PKCS11_import_public_key` after argument
parsing. -/
def import_public_key_attrs_pub (kw : Nat → Option PyObject) : List PyObj2Bool_mapping_t :=
  [⟨kw pub_en_cka_copyable, true⟩,
   ⟨kw pub_en_cka_derive, false⟩,
   ⟨kw pub_en_cka_encrypt, false⟩,
   ⟨kw pub_en_cka_modifiable, true⟩,
   ⟨kw pub_en_cka_private, true⟩,
   ⟨kw pub_en_cka_trusted, false⟩,
   ⟨kw pub_en_cka_verify, true⟩,
   ⟨kw pub_en_cka_verify_recover, true⟩,
   ⟨kw pub_en_cka_wrap, false⟩]

/-- The C function `IPA_PKCS11_import_public_key`, after argument parsing
(`"Us#s#|OOOOOOOOO"`). -/
def IPA_PKCS11_import_public_key (p : P11 σ) (ssl : OpenSSL)
    (label_unicode : PyUnicodeObject) (id : List CK_BYTE) (data : List CK_BYTE)
    (kw : Nat → Option PyObject) (w : World σ) : Option PyObject × World σ :=
  let attrs_pub0 := import_public_key_attrs_pub kw
  let id_length := id.length
  let data_length := data.length
  let u := unicode_to_char_array label_unicode 0 w
  let label := u.1
  let label_length := u.2.1
  let r := _id_label_exists p (some id) id_length label label_length CKO_PUBLIC_KEY u.2.2
  if r.1 = 1 then
    (none, r.2.PyErr_SetString PyExc.IPA_PKCS11DuplicationError
      (ErrMsg.text "Public key with same ID and LABEL already exists"))
  else if r.1 = -1 then (none, r.2)
  else
    let attrs_pub := convert_py2bool attrs_pub0 9
    match ssl.d2i_PUBKEY data data_length with
    | none =>
      (none, r.2.PyErr_SetString PyExc.IPA_PKCS11Error
        (ErrMsg.text "import_public_key: d2i_PUBKEY error"))
    | some pkey =>
      if pkey.type = EVP_PKEY_RSA then
        IPA_PKCS11_import_RSA_public_key p ssl label label_length (some id) id_length pkey
          (attrBoolPtr attrs_pub pub_en_cka_copyable)
          (attrBoolPtr attrs_pub pub_en_cka_derive)
          (attrBoolPtr attrs_pub pub_en_cka_encrypt)
          (attrBoolPtr attrs_pub pub_en_cka_modifiable)
          (attrBoolPtr attrs_pub pub_en_cka_private)
          (attrBoolPtr attrs_pub pub_en_cka_trusted)
          (attrBoolPtr attrs_pub pub_en_cka_verify)
          (attrBoolPtr attrs_pub pub_en_cka_verify_recover)
          (attrBoolPtr attrs_pub pub_en_cka_wrap)
          r.2
      else if pkey.type = EVP_PKEY_DSA then
        (none, r.2.PyErr_SetString PyExc.IPA_PKCS11Error (ErrMsg.text "DSA is not supported"))
      else if pkey.type = EVP_PKEY_EC then
        (none, r.2.PyErr_SetString PyExc.IPA_PKCS11Error (ErrMsg.text "EC is not supported"))
      else
        (none, r.2.PyErr_SetString PyExc.IPA_PKCS11Error (ErrMsg.text "Unsupported key type"))

/-! ## Import of wrapped keys -/

/-- The table `attrs` of `IPA_PKCS11_import_wrapped_secret_key` after
argument parsing. -/
def import_wrapped_secret_key_attrs (kw : Nat → Option PyObject) :
    List PyObj2Bool_mapping_t :=
  [⟨kw sec_en_cka_copyable, true⟩,
   ⟨kw sec_en_cka_decrypt, false⟩,
   ⟨kw sec_en_cka_derive, false⟩,
   ⟨kw sec_en_cka_encrypt, false⟩,
   ⟨kw sec_en_cka_extractable, true⟩,
   ⟨kw sec_en_cka_modifiable, true⟩,
   ⟨kw sec_en_cka_private, true⟩,
   ⟨kw sec_en_cka_sensitive, true⟩,
   ⟨kw sec_en_cka_sign, false⟩,
   ⟨kw sec_en_cka_unwrap, true⟩,
   ⟨kw sec_en_cka_verify, false⟩,
   ⟨kw sec_en_cka_wrap, true⟩,
   ⟨kw sec_en_cka_wrap_with_trusted, false⟩]

/-- The array `template` of `IPA_PKCS11_import_wrapped_secret_key`. -/
def import_wrapped_secret_key_template (key_class : CK_OBJECT_CLASS) (key_type : CK_KEY_TYPE)
    (id : Option (List CK_BYTE)) (id_length : CK_ULONG)
    (label : Option (List CK_BYTE)) (label_length : CK_ULONG)
    (attrs : List PyObj2Bool_mapping_t) : List CK_ATTRIBUTE :=
  [⟨CKA_CLASS, PValue.ulong key_class, sizeof_CK_ULONG⟩,
   ⟨CKA_KEY_TYPE, PValue.ulong key_type, sizeof_CK_ULONG⟩,
   ⟨CKA_ID, bytePtr id, id_length⟩,
   ⟨CKA_LABEL, bytePtr label, label_length⟩,
   ⟨CKA_TOKEN, PValue.bbool true, sizeof_CK_BBOOL⟩,
   ⟨CKA_DECRYPT, attrBool attrs sec_en_cka_decrypt, sizeof_CK_BBOOL⟩,
   ⟨CKA_DERIVE, attrBool attrs sec_en_cka_derive, sizeof_CK_BBOOL⟩,
   ⟨CKA_ENCRYPT, attrBool attrs sec_en_cka_encrypt, sizeof_CK_BBOOL⟩,
   ⟨CKA_EXTRACTABLE, attrBool attrs sec_en_cka_extractable, sizeof_CK_BBOOL⟩,
   ⟨CKA_MODIFIABLE, attrBool attrs sec_en_cka_modifiable, sizeof_CK_BBOOL⟩,
   ⟨CKA_PRIVATE, attrBool attrs sec_en_cka_private, sizeof_CK_BBOOL⟩,
   ⟨CKA_SENSITIVE, attrBool attrs sec_en_cka_sensitive, sizeof_CK_BBOOL⟩,
   ⟨CKA_SIGN, attrBool attrs sec_en_cka_sign, sizeof_CK_BBOOL⟩,
   ⟨CKA_UNWRAP, attrBool attrs sec_en_cka_unwrap, sizeof_CK_BBOOL⟩,
   ⟨CKA_VERIFY, attrBool attrs sec_en_cka_verify, sizeof_CK_BBOOL⟩,
   ⟨CKA_WRAP, attrBool attrs sec_en_cka_wrap, sizeof_CK_BBOOL⟩,
   ⟨CKA_WRAP_WITH_TRUSTED, attrBool attrs sec_en_cka_wrap_with_trusted, sizeof_CK_BBOOL⟩]

/-- The C function `IPA_PKCS11_import_wrapped_secret_key`, after argument
parsing (`"Us#s#kkk|OOOOOOOOOOOOO"`). -/
def IPA_PKCS11_import_wrapped_secret_key (p : P11 σ) (label_unicode : PyUnicodeObject)
    (id : List CK_BYTE) (wrapped_key : List CK_BYTE) (unwrapping_key_object : CK_ULONG)
    (wrapping_mech_type : CK_MECHANISM_TYPE) (key_type : CK_KEY_TYPE)
    (kw : Nat → Option PyObject) (w : World σ) : Option PyObject × World σ :=
  let wrapped_key_len := wrapped_key.length
  let id_length := id.length
  let wrapping_mech : CK_MECHANISM := ⟨wrapping_mech_type, PValue.null, 0⟩
  let key_class : CK_OBJECT_CLASS := CKO_SECRET_KEY
  let attrs0 := import_wrapped_secret_key_attrs kw
  let u := unicode_to_char_array label_unicode 0 w
  let label := u.1
  let label_length := u.2.1
  let r := _id_label_exists p (some id) id_length label label_length key_class u.2.2
  if r.1 = 1 then
    (none, r.2.PyErr_SetString PyExc.IPA_PKCS11DuplicationError
      (ErrMsg.text "Secret key with same ID and LABEL already exists"))
  else if r.1 = -1 then (none, r.2)
  else
    let attrs := convert_py2bool attrs0 13
    let template := import_wrapped_secret_key_template key_class key_type (some id)
      id_length label label_length attrs
    let g := r.2.unwrapKey p wrapping_mech unwrapping_key_object wrapped_key
      wrapped_key_len template
    let c := check_return_value g.1 "import_wrapped_key: key unwrapping" g.2.2
    if c.1 = 0 then (none, c.2)
    else (some (PyObject.pyInt g.2.1), c.2)

/-- The table `attrs_priv` of `IPA_PKCS11_import_wrapped_private_key` after
argument parsing. -/
def import_wrapped_private_key_attrs_priv (kw : Nat → Option PyObject) :
    List PyObj2Bool_mapping_t :=
  [⟨kw priv_en_cka_always_authenticate, false⟩,
   ⟨kw priv_en_cka_copyable, true⟩,
   ⟨kw priv_en_cka_decrypt, false⟩,
   ⟨kw priv_en_cka_derive, false⟩,
   ⟨kw priv_en_cka_extractable, true⟩,
   ⟨kw priv_en_cka_modifiable, true⟩,
   ⟨kw priv_en_cka_private, true⟩,
   ⟨kw priv_en_cka_sensitive, true⟩,
   ⟨kw priv_en_cka_sign, true⟩,
   ⟨kw priv_en_cka_sign_recover, true⟩,
   ⟨kw priv_en_cka_unwrap, false⟩,
   ⟨kw priv_en_cka_wrap_with_trusted, false⟩]

/-- The array `template` of `IPA_PKCS11_import_wrapped_private_key`. -/
def import_wrapped_private_key_template (key_class : CK_OBJECT_CLASS)
    (key_type : CK_KEY_TYPE) (id : Option (List CK_BYTE)) (id_length : CK_ULONG)
    (label : Option (List CK_BYTE)) (label_length : CK_ULONG)
    (attrs_priv : List PyObj2Bool_mapping_t) : List CK_ATTRIBUTE :=
  [⟨CKA_CLASS, PValue.ulong key_class, sizeof_CK_ULONG⟩,
   ⟨CKA_KEY_TYPE, PValue.ulong key_type, sizeof_CK_ULONG⟩,
   ⟨CKA_ID, bytePtr id, id_length⟩,
   ⟨CKA_LABEL, bytePtr label, label_length⟩,
   ⟨CKA_TOKEN, PValue.bbool true, sizeof_CK_BBOOL⟩,
   ⟨CKA_ALWAYS_AUTHENTICATE, attrBool attrs_priv priv_en_cka_always_authenticate,
     sizeof_CK_BBOOL⟩,
   ⟨CKA_DECRYPT, attrBool attrs_priv priv_en_cka_decrypt, sizeof_CK_BBOOL⟩,
   ⟨CKA_DERIVE, attrBool attrs_priv priv_en_cka_derive, sizeof_CK_BBOOL⟩,
   ⟨CKA_EXTRACTABLE, attrBool attrs_priv priv_en_cka_extractable, sizeof_CK_BBOOL⟩,
   ⟨CKA_MODIFIABLE, attrBool attrs_priv priv_en_cka_modifiable, sizeof_CK_BBOOL⟩,
   ⟨CKA_PRIVATE, attrBool attrs_priv priv_en_cka_private, sizeof_CK_BBOOL⟩,
   ⟨CKA_SENSITIVE, attrBool attrs_priv priv_en_cka_sensitive, sizeof_CK_BBOOL⟩,
   ⟨CKA_SIGN, attrBool attrs_priv priv_en_cka_sign, sizeof_CK_BBOOL⟩,
   ⟨CKA_SIGN_RECOVER, attrBool attrs_priv priv_en_cka_sign, sizeof_CK_BBOOL⟩,
   ⟨CKA_UNWRAP, attrBool attrs_priv priv_en_cka_unwrap, sizeof_CK_BBOOL⟩,
   ⟨CKA_WRAP_WITH_TRUSTED, attrBool attrs_priv priv_en_cka_wrap_with_trusted,
     sizeof_CK_BBOOL⟩]

/-- The C function `IPA_PKCS11_import_wrapped_private_key`, after argument
parsing (`"Us#s#kkk|OOOOOOOOOOOO"`).  The local `key_class` is initialised to
`CKO_SECRET_KEY`, and the existence check names `CKO_SECRET_KEY` as well. -/
def IPA_PKCS11_import_wrapped_private_key (p : P11 σ) (label_unicode : PyUnicodeObject)
    (id : List CK_BYTE) (wrapped_key : List CK_BYTE) (unwrapping_key_object : CK_ULONG)
    (wrapping_mech_type : CK_MECHANISM_TYPE) (key_type : CK_KEY_TYPE)
    (kw : Nat → Option PyObject) (w : World σ) : Option PyObject × World σ :=
  let wrapped_key_len := wrapped_key.length
  let id_length := id.length
  let wrapping_mech : CK_MECHANISM := ⟨wrapping_mech_type, PValue.null, 0⟩
  let key_class : CK_OBJECT_CLASS := CKO_SECRET_KEY
  let attrs_priv0 := import_wrapped_private_key_attrs_priv kw
  let u := unicode_to_char_array label_unicode 0 w
  let label := u.1
  let label_length := u.2.1
  let r := _id_label_exists p (some id) id_length label label_length CKO_SECRET_KEY u.2.2
  if r.1 = 1 then
    (none, r.2.PyErr_SetString PyExc.IPA_PKCS11DuplicationError
      (ErrMsg.text "Secret key with same ID and LABEL already exists"))
  else if r.1 = -1 then (none, r.2)
  else
    let attrs_priv := convert_py2bool attrs_priv0 12
    let template := import_wrapped_private_key_template key_class key_type (some id)
      id_length label label_length attrs_priv
    let g := r.2.unwrapKey p wrapping_mech unwrapping_key_object wrapped_key
      wrapped_key_len template
    let c := check_return_value g.1 "import_wrapped_key: key unwrapping" g.2.2
    if c.1 = 0 then (none, c.2)
    else (some (PyObject.pyInt g.2.1), c.2)

/-! ## Export of a wrapped key -/

/-- The C function `IPA_PKCS11_export_wrapped_key`, after argument parsing
(`"kkk|"`): a first `C_WrapKey` call with a `NULL` buffer asks for the
length, the buffer is allocated, a second call fills it. -/
def IPA_PKCS11_export_wrapped_key (p : P11 σ) (object_key : CK_OBJECT_HANDLE)
    (object_wrapping_key : CK_OBJECT_HANDLE) (wrapping_mech_type : CK_MECHANISM_TYPE)
    (w : World σ) : Option PyObject × World σ :=
  let wrapped_key_len0 : CK_ULONG := 0
  let wrapping_mech : CK_MECHANISM := ⟨wrapping_mech_type, PValue.null, 0⟩
  let r := w.wrapKey p wrapping_mech object_wrapping_key object_key PValue.null
    wrapped_key_len0
  let c := check_return_value r.1 "key wrapping: get buffer length" r.2.2.2
  if c.1 = 0 then (none, c.2)
  else
    let wrapped_key_len := r.2.2.1
    let a := c.2.alloc
    let wrapped_key := mallocBytes a.1 wrapped_key_len
    if wrapped_key = PValue.null then
      let c1 := check_return_value CKR_HOST_MEMORY "key wrapping: buffer allocation" a.2
      (none, c1.2)
    else
      let r2 := a.2.wrapKey p wrapping_mech object_wrapping_key object_key wrapped_key
        wrapped_key_len
      let c2 := check_return_value r2.1 "key wrapping: wrapping" r2.2.2.2
      if c2.1 = 0 then (none, c2.2)
      else (some (PyObject.pyStr ((bytesOf r2.2.1).take r2.2.2.1)), c2.2)

/-! ## Attributes of an object -/

/-- The host interpreter's UTF-8 codec. -/
structure PyHost where
  /-- `PyUnicode_AsUTF8String(u)`, seen as bytes: `none` when the encoder
  fails. -/
  PyUnicode_AsUTF8String : List Nat → Option (List CK_BYTE)
  /-- `PyUnicode_DecodeUTF8(s, size, "strict")`: the code points, or `none`
  when the decoder raises. -/
  PyUnicode_DecodeUTF8 : List CK_BYTE → Option (List Nat)

/-- The host's `PyString_Check`. -/
def PyString_Check : PyObject → Bool
  | PyObject.pyStr _ => true
  | _ => false

/-- The host's `PyUnicode_Check`. -/
def PyUnicode_Check : PyObject → Bool
  | PyObject.pyUnicode _ => true
  | _ => false

/-- The host's `PyInt_Check`: a bool is an int. -/
def PyInt_Check : PyObject → Bool
  | PyObject.pyInt _ => true
  | PyObject.pyBool _ => true
  | _ => false

/-- The host's `PyInt_AsUnsignedLongMask` on an object that passed
`PyInt_Check`: the value reduced modulo `2 ^ 64`. -/
def PyInt_AsUnsignedLongMask : PyObject → Nat
  | PyObject.pyInt n => (n % 2 ^ 64).toNat
  | PyObject.pyBool b => if b then 1 else 0
  | _ => 0

/-- How the `switch` of `set_attribute` or `get_attribute` treats an
attribute code: as a boolean, as a byte string, as a text, as a number, or
not at all (the `default:` label). -/
inductive AttrKind
  | boolean
  | byteString
  | text
  | number
  | unknown
  deriving DecidableEq, Repr

/-- The `case` labels of the `switch` of `IPA_PKCS11_set_attribute`, in the
order of the source. -/
def set_attribute_case (attr : Nat) : AttrKind :=
  if attr = CKA_ALWAYS_AUTHENTICATE ∨ attr = CKA_ALWAYS_SENSITIVE ∨ attr = CKA_COPYABLE ∨
      attr = CKA_ENCRYPT ∨ attr = CKA_EXTRACTABLE ∨ attr = CKA_DECRYPT ∨ attr = CKA_DERIVE ∨
      attr = CKA_LOCAL ∨ attr = CKA_MODIFIABLE ∨ attr = CKA_NEVER_EXTRACTABLE ∨
      attr = CKA_PRIVATE ∨ attr = CKA_SENSITIVE ∨ attr = CKA_SIGN ∨ attr = CKA_SIGN_RECOVER ∨
      attr = CKA_TOKEN ∨ attr = CKA_TRUSTED ∨ attr = CKA_UNWRAP ∨ attr = CKA_VERIFY ∨
      attr = CKA_VERIFY_RECOVER ∨ attr = CKA_WRAP ∨ attr = CKA_WRAP_WITH_TRUSTED then
    AttrKind.boolean
  else if attr = CKA_ID then AttrKind.byteString
  else if attr = CKA_LABEL then AttrKind.text
  else if attr = CKA_KEY_TYPE then AttrKind.number
  else AttrKind.unknown

/-- The `case` labels of the `switch` of `IPA_PKCS11_get_attribute`, in the
order of the source. -/
def get_attribute_case (attr : Nat) : AttrKind :=
  if attr = CKA_ALWAYS_AUTHENTICATE ∨ attr = CKA_ALWAYS_SENSITIVE ∨ attr = CKA_COPYABLE ∨
      attr = CKA_ENCRYPT ∨ attr = CKA_EXTRACTABLE ∨ attr = CKA_DECRYPT ∨ attr = CKA_DERIVE ∨
      attr = CKA_LOCAL ∨ attr = CKA_MODIFIABLE ∨ attr = CKA_NEVER_EXTRACTABLE ∨
      attr = CKA_PRIVATE ∨ attr = CKA_SENSITIVE ∨ attr = CKA_SIGN ∨ attr = CKA_SIGN_RECOVER ∨
      attr = CKA_TOKEN ∨ attr = CKA_TRUSTED ∨ attr = CKA_UNWRAP ∨ attr = CKA_VERIFY ∨
      attr = CKA_VERIFY_RECOVER ∨ attr = CKA_WRAP ∨ attr = CKA_WRAP_WITH_TRUSTED then
    AttrKind.boolean
  else if attr = CKA_LABEL then AttrKind.text
  else if attr = CKA_ID then AttrKind.byteString
  else if attr = CKA_KEY_TYPE then AttrKind.number
  else AttrKind.unknown

/-- The part of `IPA_PKCS11_set_attribute` after its `switch`: the one-entry
template is handed to `C_SetAttributeValue`. -/
def set_attribute_send (p : P11 σ) (object : CK_ULONG) (attribute0 : CK_ATTRIBUTE)
    (w : World σ) : Option PyObject × World σ :=
  let template : List CK_ATTRIBUTE := [attribute0]
  let r := w.setAttributeValue p object template
  let c := check_return_value r.1 "set_attribute" r.2
  if c.1 = 0 then (none, c.2) else (some PyObject.pyNone, c.2)

/-- The C function `IPA_PKCS11_set_attribute`, after argument parsing
(`"kkO|"`).  `PyString_AsStringAndSize` is given a length pointer and so does
not fail on a string object. -/
def IPA_PKCS11_set_attribute (p : P11 σ) (host : PyHost) (object : CK_ULONG) (attr : Nat)
    (value : PyObject) (w : World σ) : Option PyObject × World σ :=
  match set_attribute_case attr with
  | AttrKind.boolean =>
    set_attribute_send p object
      ⟨attr, PValue.bbool (if PyObject_IsTrue value ≠ 0 then true else false),
        sizeof_CK_BBOOL⟩ w
  | AttrKind.byteString =>
    match value with
    | PyObject.pyStr s => set_attribute_send p object ⟨attr, PValue.bytes s, s.length⟩ w
    | _ =>
      (none, w.PyErr_SetString PyExc.IPA_PKCS11Error (ErrMsg.text "String value expected"))
  | AttrKind.text =>
    match value with
    | PyObject.pyUnicode u =>
      let c := unicode_to_char_array ⟨host.PyUnicode_AsUTF8String u⟩ 0 w
      match c.1 with
      | none => (none, c.2.2)
      | some b => set_attribute_send p object ⟨attr, PValue.bytes b, c.2.1⟩ c.2.2
    | _ =>
      (none, w.PyErr_SetString PyExc.IPA_PKCS11Error (ErrMsg.text "Unicode value expected"))
  | AttrKind.number =>
    if PyInt_Check value then
      set_attribute_send p object
        ⟨attr, PValue.ulong (PyInt_AsUnsignedLongMask value), sizeof_CK_ULONG⟩ w
    else
      (none, w.PyErr_SetString PyExc.IPA_PKCS11Error (ErrMsg.text "Integer value expected"))
  | AttrKind.unknown =>
    (none, w.PyErr_SetString PyExc.IPA_PKCS11Error (ErrMsg.text "Unknown attribute"))

/-- The bytes of the memory a `pValue` points to (LP64, little-endian);
`none` for `NULL`. -/
def memoryOf : PValue → Option (List CK_BYTE)
  | PValue.null => none
  | PValue.bytes b => some b
  | PValue.bbool b => some [if b then 1 else 0]
  | PValue.ulong n => some ((List.range 8).map (fun i => n / 256 ^ i % 256))

/-- The first call of `IPA_PKCS11_get_attribute`: the length query, with
`pValue` `NULL`. -/
def get_attribute_query (p : P11 σ) (object : CK_ULONG) (attr : Nat) (w : World σ) :
    CK_RV × List CK_ATTRIBUTE × World σ :=
  w.getAttributeValue p object [⟨attr, PValue.null, 0⟩]

/-- The allocation and the second call of `IPA_PKCS11_get_attribute`, made
on the template the first call left: the status, the template afterwards,
the pointer `value`, and the world. -/
def get_attribute_fill (p : P11 σ) (object : CK_ULONG) (template : List CK_ATTRIBUTE)
    (w : World σ) : CK_RV × List CK_ATTRIBUTE × PValue × World σ :=
  let a := w.alloc
  let value := mallocBytes a.1 (template.getD 0 default).ulValueLen
  let g := a.2.getAttributeValue p object (setPValue template 0 value)
  (g.1, g.2.1, value, g.2.2)

/-- The memory `value` points to after the second call: what the provider
left in the buffer of entry `0`; nothing can be read through `NULL`. -/
def get_attribute_memory (value : PValue) (template : List CK_ATTRIBUTE) :
    Option (List CK_BYTE) :=
  match memoryOf value with
  | none => none
  | some fresh =>
    match memoryOf (template.getD 0 default).pValue with
    | none => some fresh
    | some written => some written

/-- The C function `IPA_PKCS11_get_attribute`, after argument parsing
(`"kk|"`).  `value_addr` is the address of the block `malloc` returns when it
grants the request.  The outer `none` is a read through `NULL` or past the
end of the buffer, which has no defined result. -/
def IPA_PKCS11_get_attribute (p : P11 σ) (host : PyHost) (object : CK_ULONG) (attr : Nat)
    (value_addr : Nat) (w : World σ) : Option (Option PyObject × World σ) :=
  let q := get_attribute_query p object attr w
  if q.1 = CKR_ATTRIBUTE_TYPE_INVALID ∨ (q.2.1.getD 0 default).ulValueLen = 2 ^ 64 - 1 then
    some (none, q.2.2.PyErr_SetString PyExc.IPA_PKCS11NotFound
      (ErrMsg.text "attribute does not exist"))
  else
    let c := check_return_value q.1 "get_attribute init" q.2.2
    if c.1 = 0 then some (none, c.2)
    else
      let f := get_attribute_fill p object q.2.1 c.2
      let c2 := check_return_value f.1 "get_attribute" f.2.2.2
      if c2.1 = 0 then some (none, c2.2)
      else
        let len := (f.2.1.getD 0 default).ulValueLen
        let memory := get_attribute_memory f.2.2.1 f.2.1
        match get_attribute_case attr with
        | AttrKind.boolean =>
          match memory with
          | some (b :: _) => some (some (PyObject.pyBool (decide (b ≠ 0))), c2.2)
          | _ => none
        | AttrKind.text =>
          match memory with
          | some bytes =>
            if bytes.length < len then none
            else
              match host.PyUnicode_DecodeUTF8 (bytes.take len) with
              | some u => some (some (PyObject.pyUnicode u), c2.2)
              | none =>
                some (none, c2.2.PyErr_SetString PyExc.UnicodeDecodeError
                  (ErrMsg.text "invalid UTF-8"))
          | none =>
            if len = 0 then
              match host.PyUnicode_DecodeUTF8 [] with
              | some u => some (some (PyObject.pyUnicode u), c2.2)
              | none =>
                some (none, c2.2.PyErr_SetString PyExc.UnicodeDecodeError
                  (ErrMsg.text "invalid UTF-8"))
            else none
        | AttrKind.byteString =>
          match memory with
          | some bytes =>
            if bytes.length < len then none
            else some (some (PyObject.pyStr (bytes.take len)), c2.2)
          | none => some (some PyObject.pyNone, c2.2)
        | AttrKind.number =>
          some (some (PyObject.pyInt (if f.2.2.1 = PValue.null then 0 else value_addr)), c2.2)
        | AttrKind.unknown =>
          some (none, c2.2.PyErr_SetString PyExc.IPA_PKCS11Error
            (ErrMsg.text "Unknown attribute"))

/-! ## A reference provider

A small provider used to run the functions on concrete inputs: objects are
attribute lists, and a search yields, one handle per call, the objects that
carry every entry of the search template. -/

/-- An object of the reference provider. -/
structure TokenObject where
  handle : CK_OBJECT_HANDLE
  attrs : List CK_ATTRIBUTE
  deriving DecidableEq, Repr

/-- The state of the reference provider: the stored objects, the handles the
active search has still to yield (`none`: no search is active), and the next
free handle. -/
structure SoftToken where
  objects : List TokenObject
  search : Option (List CK_OBJECT_HANDLE)
  next : CK_OBJECT_HANDLE
  deriving DecidableEq, Repr

namespace SoftToken

/-- Whether the object carries every entry of the template. -/
def matchesTemplate (template : List CK_ATTRIBUTE) (o : TokenObject) : Bool :=
  template.all (fun a => decide (a ∈ o.attrs))

/-- Handles of the objects that carry every entry of the template. -/
def matching (s : SoftToken) (template : List CK_ATTRIBUTE) : List CK_OBJECT_HANDLE :=
  (s.objects.filter (matchesTemplate template)).map TokenObject.handle

/-- A new object with the given attributes. -/
def store (s : SoftToken) (attrs : List CK_ATTRIBUTE) : SoftToken :=
  { s with objects := s.objects ++ [⟨s.next, attrs⟩], next := s.next + 1 }

/-- What `C_GetAttributeValue` leaves in one template entry. -/
def readEntry (o : TokenObject) (a : CK_ATTRIBUTE) : CK_ATTRIBUTE :=
  match o.attrs.find? (fun b => b.type = a.type) with
  | some b =>
    if a.pValue = PValue.null then { a with ulValueLen := b.ulValueLen }
    else { a with pValue := b.pValue, ulValueLen := b.ulValueLen }
  | none => { a with ulValueLen := 2 ^ 64 - 1 }

/-- The reference provider. -/
def p11 : P11 SoftToken where
  C_FindObjectsInit := fun s t => (CKR_OK, { s with search := some (s.matching t) })
  C_FindObjects := fun s =>
    match s.search with
    | none => (CKR_OPERATION_NOT_INITIALIZED, 0, 0, s)
    | some [] => (CKR_OK, 0, 0, s)
    | some (h :: rest) => (CKR_OK, h, 1, { s with search := some rest })
  C_FindObjectsFinal := fun s =>
    match s.search with
    | none => (CKR_OPERATION_NOT_INITIALIZED, s)
    | some _ => (CKR_OK, { s with search := none })
  C_GenerateKey := fun s _ t =>
    (CKR_OK, s.next,
      s.store (t ++ [⟨CKA_CLASS, PValue.ulong CKO_SECRET_KEY, sizeof_CK_ULONG⟩,
                     ⟨CKA_KEY_TYPE, PValue.ulong CKK_AES, sizeof_CK_ULONG⟩]))
  C_GenerateKeyPair := fun s _ pub priv =>
    (CKR_OK, s.next, s.next + 1,
      (s.store (pub ++ [⟨CKA_CLASS, PValue.ulong CKO_PUBLIC_KEY, sizeof_CK_ULONG⟩,
                        ⟨CKA_KEY_TYPE, PValue.ulong CKK_RSA, sizeof_CK_ULONG⟩])).store
        (priv ++ [⟨CKA_CLASS, PValue.ulong CKO_PRIVATE_KEY, sizeof_CK_ULONG⟩,
                  ⟨CKA_KEY_TYPE, PValue.ulong CKK_RSA, sizeof_CK_ULONG⟩]))
  C_CreateObject := fun s t => (CKR_OK, s.next, s.store t)
  C_GetAttributeValue := fun s h t =>
    match s.objects.find? (fun o => o.handle = h) with
    | none => (CKR_OBJECT_HANDLE_INVALID, t, s)
    | some o =>
      (if t.all (fun a => (o.attrs.find? (fun b => b.type = a.type)).isSome) then CKR_OK
        else CKR_ATTRIBUTE_TYPE_INVALID,
       t.map (readEntry o), s)
  C_UnwrapKey := fun s _ _ _ _ t => (CKR_OK, s.next, s.store t)
  C_WrapKey := fun s _ wrappingKey key pWrappedKey len =>
    match s.objects.find? (fun o => o.handle = key) with
    | none => (CKR_OBJECT_HANDLE_INVALID, pWrappedKey, len, s)
    | some o =>
      let blob := (bytesOf ((o.attrs.find? (fun b => b.type = CKA_VALUE)).getD
        default).pValue).map (fun b => (b + wrappingKey) % 256)
      if pWrappedKey = PValue.null then (CKR_OK, pWrappedKey, blob.length, s)
      else (CKR_OK, PValue.bytes blob, blob.length, s)
  C_SetAttributeValue := fun s h t =>
    match s.objects.find? (fun o => o.handle = h) with
    | none => (CKR_OBJECT_HANDLE_INVALID, s)
    | some _ =>
      (CKR_OK,
        { s with objects := s.objects.map (fun o =>
            if o.handle = h then
              { o with attrs := t ++ o.attrs.filter (fun b => t.all (fun a => a.type ≠ b.type)) }
            else o) })

/-- The attribute of the given type that the object with the given handle
carries, if any. -/
def attributeOf (s : SoftToken) (h : CK_OBJECT_HANDLE) (type : CK_ATTRIBUTE_TYPE) :
    Option CK_ATTRIBUTE :=
  match s.objects.find? (fun o => o.handle = h) with
  | none => none
  | some o => o.attrs.find? (fun b => b.type = type)

end SoftToken

/-- A world around the reference provider: nothing logged, every allocation
granted, no error pending. -/
def softWorld (s : SoftToken) : World SoftToken :=
  ⟨s, [], [], none⟩

/-! ## A reference codec

DER `SubjectPublicKeyInfo` of an RSA key (`rsaEncryption`), used to run the
export and import functions on concrete inputs. -/

/-- DER length octets. -/
def derLen (n : Nat) : List CK_BYTE :=
  if n < 128 then [n] else (128 + (BN_bn2bin n).length) :: BN_bn2bin n

/-- DER `INTEGER` of a non-negative number. -/
def derInteger (v : Nat) : List CK_BYTE :=
  let body : List CK_BYTE :=
    match BN_bn2bin v with
    | [] => [0]
    | b :: rest => if 128 ≤ b then 0 :: b :: rest else b :: rest
  0x02 :: (derLen body.length ++ body)

/-- The object identifier `rsaEncryption` (1.2.840.113549.1.1.1). -/
def oidRsaEncryption : List CK_BYTE := [0x2a, 0x86, 0x48, 0x86, 0xf7, 0x0d, 0x01, 0x01, 0x01]
/-- The object identifier `id-dsa` (1.2.840.10040.4.1). -/
def oidDsa : List CK_BYTE := [0x2a, 0x86, 0x48, 0xce, 0x38, 0x04, 0x01]
/-- The object identifier `id-ecPublicKey` (1.2.840.10045.2.1). -/
def oidEcPublicKey : List CK_BYTE := [0x2a, 0x86, 0x48, 0xce, 0x3d, 0x02, 0x01]

/-- DER `SubjectPublicKeyInfo` of an RSA public key. -/
def derSubjectPublicKeyInfo (k : RSA) : List CK_BYTE :=
  let ints := derInteger k.n ++ derInteger k.e
  let pk := 0x30 :: (derLen ints.length ++ ints)
  let bits := 0x03 :: (derLen (pk.length + 1) ++ 0 :: pk)
  let alg := 0x30 :: (derLen (oidRsaEncryption.length + 4) ++
    (0x06 :: oidRsaEncryption.length :: oidRsaEncryption ++ [0x05, 0x00]))
  0x30 :: (derLen (alg.length + bits.length) ++ (alg ++ bits))

/-- Reads DER length octets: the length and the rest. -/
def derReadLen : List CK_BYTE → Option (Nat × List CK_BYTE)
  | [] => none
  | b :: rest =>
    if b < 128 then some (b, rest)
    else if rest.length < b - 128 then none
    else some (BN_bin2bn rest (b - 128), rest.drop (b - 128))

/-- Reads one DER element with the given tag: its content and the rest. -/
def derRead (tag : CK_BYTE) : List CK_BYTE → Option (List CK_BYTE × List CK_BYTE)
  | [] => none
  | t :: rest =>
    if t ≠ tag then none
    else
      match derReadLen rest with
      | none => none
      | some (n, body) =>
        if body.length < n then none else some (body.take n, body.drop n)

/-- Reads the two `INTEGER`s of an `RSAPublicKey` from a `BIT STRING` content. -/
def derReadRSAPublicKey : List CK_BYTE → Option RSA
  | 0 :: pk =>
    match derRead 0x30 pk with
    | none => none
    | some (ints, _) =>
      match derRead 0x02 ints with
      | none => none
      | some (n, rest) =>
        match derRead 0x02 rest with
        | none => none
        | some (e, _) => some ⟨BN_bin2bn n n.length, BN_bin2bn e e.length⟩
  | _ => none

/-- Decodes a DER `SubjectPublicKeyInfo`: an RSA key is decoded in full, a
DSA or EC key only as far as its type. -/
def derDecode (data : List CK_BYTE) : Option EVP_PKEY :=
  match derRead 0x30 data with
  | none => none
  | some (spki, _) =>
    match derRead 0x30 spki with
    | none => none
    | some (alg, rest) =>
      match derRead 0x06 alg, derRead 0x03 rest with
      | some (oid, _), some (bits, _) =>
        if oid = oidRsaEncryption then
          match derReadRSAPublicKey bits with
          | some k => some ⟨EVP_PKEY_RSA, some k⟩
          | none => none
        else if oid = oidDsa then some ⟨EVP_PKEY_DSA, none⟩
        else if oid = oidEcPublicKey then some ⟨EVP_PKEY_EC, none⟩
        else none
      | _, _ => none

/-- The reference codec. -/
def derCodec : OpenSSL where
  EVP_PKEY_set1_RSA := fun rsa => some ⟨EVP_PKEY_RSA, some rsa⟩
  i2d_PUBKEY := fun pkey =>
    match pkey.rsa with
    | some k =>
      if pkey.type = EVP_PKEY_RSA then
        (((derSubjectPublicKeyInfo k).length : Nat), some (derSubjectPublicKeyInfo k))
      else (-1, none)
    | none => (-1, none)
  d2i_PUBKEY := fun data len => derDecode (data.take len)
  EVP_PKEY_get1_RSA := fun pkey => if pkey.type = EVP_PKEY_RSA then pkey.rsa else none

/-! ## Notions used in the statements -/

/-- What `convert_py2bool` makes of one entry. -/
def convertedEntry (m : PyObj2Bool_mapping_t) : PyObj2Bool_mapping_t :=
  match m.py_obj with
  | some py_obj => { m with bool := pyobj_to_bool py_obj }
  | none => m

/-- The provider, started in state `s`, answers the coming `C_FindObjects`
calls with the handles `hs`, one per call, and then with an empty answer,
each time with status `CKR_OK`, and is then in state `s'`. -/
def Yields (p : P11 σ) : σ → List CK_OBJECT_HANDLE → σ → Prop
  | s, [], s' =>
    (p.C_FindObjects s).1 = CKR_OK ∧ (p.C_FindObjects s).2.2.1 = 0 ∧
      (p.C_FindObjects s).2.2.2 = s'
  | s, h :: hs, s' =>
    (p.C_FindObjects s).1 = CKR_OK ∧ (p.C_FindObjects s).2.1 = h ∧
      0 < (p.C_FindObjects s).2.2.1 ∧ Yields p (p.C_FindObjects s).2.2.2 hs s'

/-- Every allocation request still to come is granted. -/
def AllocOK (w : World σ) : Prop := ∀ b ∈ w.heap, b = true

/-! ## Example inputs -/

/-- The label `L1` as a unicode object. -/
def labelL1 : PyUnicodeObject := ⟨some [76, 49]⟩

/-- The label `L2` as a unicode object. -/
def labelL2 : PyUnicodeObject := ⟨some [76, 50]⟩

/-- A token that holds two RSA public keys labelled `L1`, with ids `01` and
`02`, and the private key of the first. -/
def exampleToken : SoftToken :=
  ⟨[⟨1, [⟨CKA_ID, PValue.bytes [1], 1⟩, ⟨CKA_LABEL, PValue.bytes [76, 49], 2⟩,
         ⟨CKA_CLASS, PValue.ulong CKO_PUBLIC_KEY, 8⟩, ⟨CKA_KEY_TYPE, PValue.ulong CKK_RSA, 8⟩,
         ⟨CKA_MODULUS, PValue.bytes [0xc7, 0x3b], 2⟩,
         ⟨CKA_PUBLIC_EXPONENT, PValue.bytes [1, 0, 1], 3⟩]⟩,
    ⟨2, [⟨CKA_ID, PValue.bytes [2], 1⟩, ⟨CKA_LABEL, PValue.bytes [76, 49], 2⟩,
         ⟨CKA_CLASS, PValue.ulong CKO_PUBLIC_KEY, 8⟩, ⟨CKA_KEY_TYPE, PValue.ulong CKK_RSA, 8⟩,
         ⟨CKA_MODULUS, PValue.bytes [0xa9, 0x05], 2⟩,
         ⟨CKA_PUBLIC_EXPONENT, PValue.bytes [1, 0, 1], 3⟩]⟩,
    ⟨3, [⟨CKA_ID, PValue.bytes [1], 1⟩, ⟨CKA_LABEL, PValue.bytes [76, 49], 2⟩,
         ⟨CKA_CLASS, PValue.ulong CKO_PRIVATE_KEY, 8⟩,
         ⟨CKA_KEY_TYPE, PValue.ulong CKK_RSA, 8⟩]⟩],
   none, 4⟩

/-- The booleans of an attribute table, in table order. -/
def tableBools (attrs : List PyObj2Bool_mapping_t) : List Bool :=
  attrs.map PyObj2Bool_mapping_t.bool

/-- The empty override set: no keyword was given. -/
def noOverrides : Nat → Option PyObject := fun _ => none

/-- Whether a logged call is a key generation call. -/
def isGenerate : P11Call → Bool
  | P11Call.C_GenerateKey _ _ => true
  | P11Call.C_GenerateKeyPair _ _ _ => true
  | _ => false

/-- The key generation calls of a log, in order. -/
def generationCalls (trace : List P11Call) : List P11Call :=
  trace.filter isGenerate

/-- Whether a logged call belongs to a search. -/
def isSearchCall : P11Call → Bool
  | P11Call.C_FindObjectsInit _ => true
  | P11Call.C_FindObjects => true
  | P11Call.C_FindObjectsFinal => true
  | _ => false

/-- The world after a first `generate_replica_key_pair` call with label `L1`
and id `01` on an empty token. -/
def afterFirstGeneration : World SoftToken :=
  (IPA_PKCS11_generate_replica_key_pair SoftToken.p11 labelL1 [1] 2048 noOverrides noOverrides
    (softWorld ⟨[], none, 1⟩)).2

/-- The export of the public key with handle `1` of the example token. -/
def exportedExample : Option PyObject × World SoftToken :=
  IPA_PKCS11_export_public_key SoftToken.p11 derCodec 1 (softWorld exampleToken)

/-- The import, under the fresh identity `L2`/`09`, of what `exportedExample`
returned. -/
def roundTripExample : Option PyObject × World SoftToken :=
  match exportedExample.1 with
  | some (PyObject.pyStr der) =>
    IPA_PKCS11_import_public_key SoftToken.p11 derCodec labelL2 [9] der noOverrides
      exportedExample.2
  | _ => (none, exportedExample.2)

/-- The override set that gives only `priv_cka_sign_recover`, as `True`. -/
def onlySignRecover : Nat → Option PyObject :=
  fun i => if i = priv_en_cka_sign_recover then some (PyObject.pyBool true) else none

/-- The filters of a `_find_key` call that are present, as template entries,
in the order label, id, wrap, unwrap. -/
def presentFilters (id : Option (List CK_BYTE)) (id_len : CK_ULONG)
    (label : Option (List CK_BYTE)) (label_len : CK_ULONG)
    (cka_wrap cka_unwrap : Option Bool) : List CK_ATTRIBUTE :=
  (label.map (fun l => (⟨CKA_LABEL, PValue.bytes l, label_len⟩ : CK_ATTRIBUTE))).toList ++
  (id.map (fun i => (⟨CKA_ID, PValue.bytes i, id_len⟩ : CK_ATTRIBUTE))).toList ++
  (cka_wrap.map (fun b => (⟨CKA_WRAP, PValue.bbool b, sizeof_CK_BBOOL⟩ : CK_ATTRIBUTE))).toList ++
  (cka_unwrap.map
    (fun b => (⟨CKA_UNWRAP, PValue.bbool b, sizeof_CK_BBOOL⟩ : CK_ATTRIBUTE))).toList

/-- The number of filters of a `_find_key` call that are present. -/
def presentCount (id label : Option (List CK_BYTE)) (cka_wrap cka_unwrap : Option Bool) : Nat :=
  (if label.isSome then 1 else 0) + (if id.isSome then 1 else 0) +
  (if cka_wrap.isSome then 1 else 0) + (if cka_unwrap.isSome then 1 else 0)

/-- The provider, started in state `s`, answers the coming `C_FindObjects`
calls with the handles `hs`, one per call and each with status `CKR_OK`, and
is then in state `s'`; nothing is said about the call after them. -/
def Delivers (p : P11 σ) : σ → List CK_OBJECT_HANDLE → σ → Prop
  | s, [], s' => s = s'
  | s, h :: hs, s' =>
    (p.C_FindObjects s).1 = CKR_OK ∧ (p.C_FindObjects s).2.1 = h ∧
      0 < (p.C_FindObjects s).2.2.1 ∧ Delivers p (p.C_FindObjects s).2.2.2 hs s'

/-- A status of the provider that is not `CKR_OK` (`CKR_DEVICE_ERROR`). -/
abbrev CKR_DEVICE_ERROR : CK_RV := 0x30

/-- The reference provider with a failing enumeration: a `C_FindObjects`
call returns `CKR_DEVICE_ERROR` once `good` handles have been delivered and
handles are still to come (`good = 0`: the first call fails). -/
def failingFind (good : Nat) : P11 SoftToken :=
  { SoftToken.p11 with
    C_FindObjects := fun s =>
      match s.search with
      | none => (CKR_OPERATION_NOT_INITIALIZED, 0, 0, s)
      | some [] => (CKR_OK, 0, 0, s)
      | some (h :: rest) =>
        if good < h then (CKR_DEVICE_ERROR, 0, 0, s)
        else (CKR_OK, h, 1, { s with search := some rest }) }

/-- The reference provider with a failing `C_FindObjectsInit`. -/
def failingInit : P11 SoftToken :=
  { SoftToken.p11 with C_FindObjectsInit := fun s _ => (CKR_DEVICE_ERROR, s) }

/-- The reference provider with a failing `C_FindObjectsFinal`. -/
def failingFinal : P11 SoftToken :=
  { SoftToken.p11 with C_FindObjectsFinal := fun s => (CKR_DEVICE_ERROR, s) }

/-- A provider whose every search yields the handles `hs`, whatever the
template is; its state is the list of handles the active search has still to
yield. -/
def listP11 (hs : List CK_OBJECT_HANDLE) : P11 (List CK_OBJECT_HANDLE) where
  C_FindObjectsInit := fun _ _ => (CKR_OK, hs)
  C_FindObjects := fun s =>
    match s with
    | [] => (CKR_OK, 0, 0, [])
    | h :: rest => (CKR_OK, h, 1, rest)
  C_FindObjectsFinal := fun _ => (CKR_OK, [])
  C_GenerateKey := fun s _ _ => (CKR_DEVICE_ERROR, 0, s)
  C_GenerateKeyPair := fun s _ _ _ => (CKR_DEVICE_ERROR, 0, 0, s)
  C_CreateObject := fun s _ => (CKR_DEVICE_ERROR, 0, s)
  C_GetAttributeValue := fun s _ t => (CKR_DEVICE_ERROR, t, s)
  C_UnwrapKey := fun s _ _ _ _ _ => (CKR_DEVICE_ERROR, 0, s)
  C_WrapKey := fun s _ _ _ b l => (CKR_DEVICE_ERROR, b, l, s)
  C_SetAttributeValue := fun s _ _ => (CKR_DEVICE_ERROR, s)

/-- Whether a logged call is an object creation call. -/
def isCreateObject : P11Call → Bool
  | P11Call.C_CreateObject _ => true
  | _ => false

/-- The template `export_public_key` passes to `C_GetAttributeValue`. -/
def exportQuery : List CK_ATTRIBUTE :=
  [⟨CKA_CLASS, PValue.ulong CKO_PUBLIC_KEY, sizeof_CK_ULONG⟩,
   ⟨CKA_KEY_TYPE, PValue.ulong CKK_RSA, sizeof_CK_ULONG⟩]

/-- A DER `SubjectPublicKeyInfo` whose algorithm is `id-ecPublicKey`. -/
def ecKeyExample : List CK_BYTE :=
  [0x30, 0x0f, 0x30, 0x09, 0x06, 0x07, 0x2a, 0x86, 0x48, 0xce, 0x3d, 0x02, 0x01,
   0x03, 0x02, 0x00, 0x04]

/-! ## A reference host codec

Strict UTF-8, used to run `set_attribute` and `get_attribute` on concrete
inputs. -/

/-- UTF-8 bytes of one code point; `none` for a surrogate or a number that
is not a code point. -/
def utf8EncodeChar (cp : Nat) : Option (List CK_BYTE) :=
  if cp < 0x80 then some [cp]
  else if cp < 0x800 then some [0xC0 + cp / 64, 0x80 + cp % 64]
  else if cp < 0x10000 then
    if 0xD800 ≤ cp ∧ cp < 0xE000 then none
    else some [0xE0 + cp / 4096, 0x80 + cp / 64 % 64, 0x80 + cp % 64]
  else if cp < 0x110000 then
    some [0xF0 + cp / 262144, 0x80 + cp / 4096 % 64, 0x80 + cp / 64 % 64, 0x80 + cp % 64]
  else none

/-- UTF-8 bytes of a list of code points. -/
def utf8Encode : List Nat → Option (List CK_BYTE)
  | [] => some []
  | cp :: rest =>
    match utf8EncodeChar cp, utf8Encode rest with
    | some a, some b => some (a ++ b)
    | _, _ => none

/-- Whether a byte is a continuation byte. -/
def utf8IsCont (b : CK_BYTE) : Bool := decide (0x80 ≤ b ∧ b < 0xC0)

/-- Strict UTF-8 decoding, at most `fuel` code points. -/
def utf8DecodeAux : Nat → List CK_BYTE → Option (List Nat)
  | _, [] => some []
  | 0, _ :: _ => none
  | fuel + 1, b0 :: rest =>
    if b0 < 0x80 then (utf8DecodeAux fuel rest).map (fun l => b0 :: l)
    else if 0xC2 ≤ b0 ∧ b0 < 0xE0 then
      match rest with
      | b1 :: r =>
        if utf8IsCont b1 then
          (utf8DecodeAux fuel r).map (fun l => ((b0 - 0xC0) * 64 + (b1 - 0x80)) :: l)
        else none
      | _ => none
    else if 0xE0 ≤ b0 ∧ b0 < 0xF0 then
      match rest with
      | b1 :: b2 :: r =>
        let cp := (b0 - 0xE0) * 4096 + (b1 - 0x80) * 64 + (b2 - 0x80)
        if utf8IsCont b1 ∧ utf8IsCont b2 ∧ 0x800 ≤ cp ∧ ¬ (0xD800 ≤ cp ∧ cp < 0xE000) then
          (utf8DecodeAux fuel r).map (fun l => cp :: l)
        else none
      | _ => none
    else if 0xF0 ≤ b0 ∧ b0 < 0xF5 then
      match rest with
      | b1 :: b2 :: b3 :: r =>
        let cp := (b0 - 0xF0) * 262144 + (b1 - 0x80) * 4096 + (b2 - 0x80) * 64 + (b3 - 0x80)
        if utf8IsCont b1 ∧ utf8IsCont b2 ∧ utf8IsCont b3 ∧ 0x10000 ≤ cp ∧ cp < 0x110000 then
          (utf8DecodeAux fuel r).map (fun l => cp :: l)
        else none
      | _ => none
    else none

/-- The reference host codec. -/
def utf8Host : PyHost where
  PyUnicode_AsUTF8String := utf8Encode
  PyUnicode_DecodeUTF8 := fun s => utf8DecodeAux s.length s

/-- A token that holds the AES key `7` with label `L1`, id `05` and the
value `2b 7e`. -/
def aesToken : SoftToken :=
  ⟨[⟨7, [⟨CKA_ID, PValue.bytes [5], 1⟩, ⟨CKA_LABEL, PValue.bytes [76, 49], 2⟩,
         ⟨CKA_CLASS, PValue.ulong CKO_SECRET_KEY, 8⟩, ⟨CKA_KEY_TYPE, PValue.ulong CKK_AES, 8⟩,
         ⟨CKA_EXTRACTABLE, PValue.bbool true, 1⟩,
         ⟨CKA_VALUE, PValue.bytes [0x2b, 0x7e], 2⟩]⟩],
   none, 8⟩

/-- That an outcome of `get_attribute` is the `NULL` return with an
exception of class `exc` set. -/
def Raises (r : Option (Option PyObject × World σ)) (exc : PyExc) : Prop :=
  ∃ w1 msg, r = some (none, w1) ∧ w1.pyerr = some ⟨exc, msg⟩

/-- Whether a logged call is a `C_WrapKey` call. -/
def isWrapKey : P11Call → Bool
  | P11Call.C_WrapKey _ _ _ _ _ => true
  | _ => false

/-- Whether a logged call is a `C_SetAttributeValue` call. -/
def isSetAttributeValue : P11Call → Bool
  | P11Call.C_SetAttributeValue _ _ => true
  | _ => false

/-- The condition under which `get_attribute` reports a missing attribute:
the length query returned `CKR_ATTRIBUTE_TYPE_INVALID`, or left the length
`(unsigned long) -1` in the template. -/
def AttributeAbsent (p : P11 σ) (object : CK_ULONG) (attr : Nat) (w : World σ) : Prop :=
  (get_attribute_query p object attr w).1 = CKR_ATTRIBUTE_TYPE_INVALID ∨
  ((get_attribute_query p object attr w).2.1.getD 0 default).ulValueLen = 2 ^ 64 - 1

/-- The relation between the variables of the loop of `_find_key` at a loop
head: the capacity is the least multiple of 32 that is not below `count`,
the buffer holds `count` handles, and there is no buffer exactly when
`count` is `0`. -/
def CapacityInv (v : FindKeyVars σ) : Prop :=
  v.allocated = 32 * ((v.count + 31) / 32) ∧
  (v.result_objects.getD []).length = v.count ∧
  (v.result_objects = none ↔ v.count = 0)

/-- The attribute codes that `set_attribute` and `get_attribute` list as
booleans. -/
def booleanAttributeCodes : List Nat :=
  [CKA_ALWAYS_AUTHENTICATE, CKA_ALWAYS_SENSITIVE, CKA_COPYABLE, CKA_ENCRYPT,
    CKA_EXTRACTABLE, CKA_DECRYPT, CKA_DERIVE, CKA_LOCAL, CKA_MODIFIABLE,
    CKA_NEVER_EXTRACTABLE, CKA_PRIVATE, CKA_SENSITIVE, CKA_SIGN, CKA_SIGN_RECOVER,
    CKA_TOKEN, CKA_TRUSTED, CKA_UNWRAP, CKA_VERIFY, CKA_VERIFY_RECOVER, CKA_WRAP,
    CKA_WRAP_WITH_TRUSTED]

/-- The outcome of `set_attribute` for a code it does not know. -/
def setRejected (w : World σ) : Option PyObject × World σ :=
  (none, w.PyErr_SetString PyExc.IPA_PKCS11Error (ErrMsg.text "Unknown attribute"))

/-- The world in which `get_attribute` looks at the code: after the length
query, the allocation and the second call. -/
def get_attribute_world (p : P11 σ) (object : CK_ULONG) (attr : Nat) (w : World σ) :
    World σ :=
  (get_attribute_fill p object (get_attribute_query p object attr w).2.1
    (get_attribute_query p object attr w).2.2).2.2.2

/-- The bytes `get_attribute` can read through `value` after the second
call, and the length the provider left in the template. -/
def get_attribute_value (p : P11 σ) (object : CK_ULONG) (attr : Nat) (w : World σ) :
    Option (List CK_BYTE) × CK_ULONG :=
  (get_attribute_memory
    (get_attribute_fill p object (get_attribute_query p object attr w).2.1
      (get_attribute_query p object attr w).2.2).2.2.1
    (get_attribute_fill p object (get_attribute_query p object attr w).2.1
      (get_attribute_query p object attr w).2.2).2.1,
   ((get_attribute_fill p object (get_attribute_query p object attr w).2.1
      (get_attribute_query p object attr w).2.2).2.1.getD 0 default).ulValueLen)

/-- The outcome of `get_attribute` for a code it does not know, when both
calls succeeded. -/
def getRejected (p : P11 σ) (object : CK_ULONG) (attr : Nat) (w : World σ) :
    Option (Option PyObject × World σ) :=
  some (none, (get_attribute_world p object attr w).PyErr_SetString PyExc.IPA_PKCS11Error
    (ErrMsg.text "Unknown attribute"))

/-! # Theorems -/

/-! ## Attribute tables: proofs -/

theorem convert_py2bool_step_getElem? (mapping : List PyObj2Bool_mapping_t) (k i : Nat) :
    (convert_py2bool_step mapping k)[i]? =
      if i = k then (mapping[i]?).map convertedEntry else mapping[i]? := by
  unfold convert_py2bool_step
  by_cases hik : i = k
  · subst hik
    cases hm : mapping[i]? with
    | none => simp [hm]
    | some m =>
      cases ho : m.py_obj with
      | none => simp [hm, ho, convertedEntry]
      | some o =>
        have hlt : i < mapping.length := by
          rw [List.getElem?_eq_some] at hm
          exact hm.1
        simp [hm, ho, convertedEntry, List.getElem?_set, hlt]
  · cases hm : mapping[k]? with
    | none => simp [hm, hik]
    | some m =>
      cases ho : m.py_obj with
      | none => simp [hm, ho, hik]
      | some o =>
        have : k ≠ i := fun h => hik h.symm
        simp [hm, ho, hik, List.getElem?_set, this]

theorem convert_py2bool_getElem? (mapping : List PyObj2Bool_mapping_t) (n i : Nat) :
    (convert_py2bool mapping n)[i]? =
      if i < n then (mapping[i]?).map convertedEntry else mapping[i]? := by
  unfold convert_py2bool
  induction n with
  | zero => simp
  | succ n ih =>
    rw [List.range_succ, List.foldl_append]
    simp only [List.foldl_cons, List.foldl_nil]
    rw [convert_py2bool_step_getElem?, ih]
    by_cases h1 : i = n
    · subst h1
      simp
    · by_cases h2 : i < n
      · have : i < n + 1 := by omega
        simp [h1, h2, this]
      · have : ¬ i < n + 1 := by omega
        simp [h1, h2, this]

theorem convert_py2bool_step_length (mapping : List PyObj2Bool_mapping_t) (k : Nat) :
    (convert_py2bool_step mapping k).length = mapping.length := by
  unfold convert_py2bool_step
  split
  · split
    · simp
    · rfl
  · rfl

theorem convert_py2bool_length (mapping : List PyObj2Bool_mapping_t) (n : Nat) :
    (convert_py2bool mapping n).length = mapping.length := by
  unfold convert_py2bool
  induction n with
  | zero => simp
  | succ n ih =>
    rw [List.range_succ, List.foldl_append]
    simp only [List.foldl_cons, List.foldl_nil]
    rw [convert_py2bool_step_length, ih]

/-- C9. `convert_py2bool` on a table, run over its first `n` entries: the
table keeps its length; every entry keeps its override object; the boolean of
an entry `i < n` becomes the truth value of its override object when there is
one (the host's truth test is non-zero) and keeps its default when there is
none; entries from `n` on are not touched. -/
theorem convert_py2bool_spec (mapping : List PyObj2Bool_mapping_t) (n i : Nat) :
    (convert_py2bool mapping n).length = mapping.length ∧
    ((convert_py2bool mapping n)[i]?).map PyObj2Bool_mapping_t.py_obj =
      (mapping[i]?).map PyObj2Bool_mapping_t.py_obj ∧
    ((convert_py2bool mapping n)[i]?).map PyObj2Bool_mapping_t.bool =
      (mapping[i]?).map (fun m =>
        if i < n then
          match m.py_obj with
          | some py_obj => decide (PyObject_IsTrue py_obj ≠ 0)
          | none => m.bool
        else m.bool) := by
  refine ⟨convert_py2bool_length mapping n, ?_, ?_⟩
  · rw [convert_py2bool_getElem?]
    cases hm : mapping[i]? with
    | none => simp
    | some m =>
      by_cases h : i < n
      · cases ho : m.py_obj <;> simp [convertedEntry, ho, h]
      · simp [h]
  · rw [convert_py2bool_getElem?]
    cases hm : mapping[i]? with
    | none => simp
    | some m =>
      by_cases h : i < n
      · cases ho : m.py_obj <;> simp [convertedEntry, ho, h, pyobj_to_bool]
      · simp [h]

/-! ## Support functions: proofs -/

theorem alloc_trace (w : World σ) : (w.alloc).2.trace = w.trace := by
  unfold World.alloc; split <;> rfl

theorem alloc_tok (w : World σ) : (w.alloc).2.tok = w.tok := by
  unfold World.alloc; split <;> rfl

theorem alloc_pyerr (w : World σ) : (w.alloc).2.pyerr = w.pyerr := by
  unfold World.alloc; split <;> rfl

theorem alloc_ok_fst (w : World σ) (h : AllocOK w) : (w.alloc).1 = true := by
  unfold World.alloc
  split
  · rfl
  · next b rest hb => exact h b (by simp [hb])

theorem alloc_ok_snd (w : World σ) (h : AllocOK w) : AllocOK (w.alloc).2 := by
  unfold World.alloc
  split
  · exact h
  · next b rest hb =>
    intro c hc
    exact h c (by simp only [hb]; exact List.mem_cons_of_mem _ hc)

theorem check_return_value_ok (message : String) (w : World σ) :
    check_return_value CKR_OK message w = (1, w) := by
  simp [check_return_value]

theorem check_return_value_fst (rv : CK_RV) (message : String) (w : World σ) :
    (check_return_value rv message w).1 = if rv = CKR_OK then 1 else 0 := by
  unfold check_return_value
  by_cases h : rv = CKR_OK
  · simp [h]
  · simp only [ne_eq, h, not_false_eq_true, if_true, if_false]
    split <;> rfl

theorem check_return_value_trace (rv : CK_RV) (message : String) (w : World σ) :
    (check_return_value rv message w).2.trace = w.trace := by
  unfold check_return_value
  by_cases h : rv = CKR_OK
  · simp [h]
  · simp only [ne_eq, h, not_false_eq_true, if_true]
    split <;> simp [World.PyErr_SetString, alloc_trace]

theorem check_return_value_tok (rv : CK_RV) (message : String) (w : World σ) :
    (check_return_value rv message w).2.tok = w.tok := by
  unfold check_return_value
  by_cases h : rv = CKR_OK
  · simp [h]
  · simp only [ne_eq, h, not_false_eq_true, if_true]
    split <;> simp [World.PyErr_SetString, alloc_tok]

theorem check_return_value_pyerr (rv : CK_RV) (message : String) (w : World σ)
    (h : rv ≠ CKR_OK) :
    ∃ msg, (check_return_value rv message w).2.pyerr = some ⟨PyExc.IPA_PKCS11Error, msg⟩ := by
  unfold check_return_value
  simp only [ne_eq, h, not_false_eq_true, if_true]
  split
  · exact ⟨_, rfl⟩
  · exact ⟨_, rfl⟩

/-! ## The object locator: proofs -/

theorem storeAt_length (xs : List CK_OBJECT_HANDLE) (v : CK_OBJECT_HANDLE) :
    storeAt xs xs.length v = xs ++ [v] := by
  simp [storeAt]

/-- The loop of `_find_key`, started with the handles `acc` already stored,
holding the answer to the last `C_FindObjects` call (`result_object`,
`objectCount`), when the provider has the handles `pending` still to deliver
(the one held included): it ends with success and publishes `acc ++ pending`. -/
theorem _find_key_loop_yields (p : P11 σ) (objects0 : Option (List CK_OBJECT_HANDLE))
    (objects_count0 : Nat) (s1 s2 : σ) (pending : List CK_OBJECT_HANDLE) :
    ∀ (fuel : Nat) (result_object : CK_OBJECT_HANDLE) (objectCount : CK_ULONG)
      (result_objects : Option (List CK_OBJECT_HANDLE)) (acc : List CK_OBJECT_HANDLE)
      (allocated : Nat) (w : World σ),
      result_objects.getD [] = acc →
      (match pending with
        | [] => objectCount = 0 ∧ w.tok = s1
        | h :: rest => 0 < objectCount ∧ result_object = h ∧ Yields p w.tok rest s1) →
      (p.C_FindObjectsFinal s1).1 = CKR_OK →
      (p.C_FindObjectsFinal s1).2 = s2 →
      AllocOK w →
      acc.length + pending.length < 2 ^ 32 →
      pending.length ≤ fuel →
      ∃ w1, _find_key_loop p objects0 objects_count0 fuel result_object objectCount
            result_objects acc.length allocated w =
          some (⟨1, if pending = [] then result_objects else some (acc ++ pending),
                  acc.length + pending.length⟩, w1) ∧
        w1.tok = s2 ∧
        w1.trace = w.trace ++ List.replicate pending.length P11Call.C_FindObjects ++
          [P11Call.C_FindObjectsFinal] ∧
        w1.pyerr = w.pyerr ∧ AllocOK w1 := by
  induction pending with
  | nil =>
    intro fuel result_object objectCount result_objects acc allocated w hacc hp hf1 hf2 ha _ _
    obtain ⟨hc, ht⟩ := hp
    subst hc
    have hfin : _find_key_finish p objects0 objects_count0 result_objects acc.length w =
        (⟨1, result_objects, acc.length⟩,
          { w with tok := s2, trace := w.trace ++ [P11Call.C_FindObjectsFinal] }) := by
      unfold _find_key_finish
      simp only [World.findObjectsFinal, ht, hf1, hf2, check_return_value_ok]
      simp
    refine ⟨{ w with tok := s2, trace := w.trace ++ [P11Call.C_FindObjectsFinal] }, ?_, rfl,
      by simp, rfl, ha⟩
    cases fuel <;> simp [_find_key_loop, hfin]
  | cons h rest ih =>
    intro fuel result_object objectCount result_objects acc allocated w hacc hp hf1 hf2 ha hlen
      hfuel
    obtain ⟨hc, hr, hy⟩ := hp
    subst hr
    cases fuel with
    | zero => simp at hfuel
    | succ fuel =>
      -- the growth block succeeds
      obtain ⟨buf, allocated1, w1, hg, hbuf, hw1tok, hw1trace, hw1err, hw1ok⟩ :
          ∃ buf allocated1 w1,
            _find_key_grow result_objects acc.length allocated w = some (buf, allocated1, w1) ∧
            buf.getD [] = acc ∧ w1.tok = w.tok ∧ w1.trace = w.trace ∧ w1.pyerr = w.pyerr ∧
            AllocOK w1 := by
        unfold _find_key_grow
        by_cases hle : allocated ≤ acc.length
        · refine ⟨some (result_objects.getD []), (allocated + 32) % 2 ^ 32, (w.alloc).2, ?_,
            by simpa using hacc, alloc_tok w, alloc_trace w, alloc_pyerr w, alloc_ok_snd w ha⟩
          simp [hle, alloc_ok_fst w ha]
        · exact ⟨result_objects, allocated, w, by simp [hle], hacc, rfl, rfl, rfl, ha⟩
      -- the next answer of the provider
      cases rest with
      | nil =>
        obtain ⟨hy1, hy2, hy3⟩ := hy
        have hlen1 : (acc.length + 1) % 2 ^ 32 = (acc ++ [result_object]).length := by
          simp only [List.length_append, List.length_singleton]
          apply Nat.mod_eq_of_lt
          simp only [List.length_cons, List.length_nil] at hlen
          omega
        obtain ⟨w2, h2, h2tok, h2trace, h2err, h2ok⟩ :=
          ih fuel (p.C_FindObjects w1.tok).2.1 (p.C_FindObjects w1.tok).2.2.1
            (some (acc ++ [result_object])) (acc ++ [result_object]) allocated1
            { w1 with tok := (p.C_FindObjects w1.tok).2.2.2,
                      trace := w1.trace ++ [P11Call.C_FindObjects] }
            rfl (by rw [hw1tok]; exact ⟨hy2, hy3⟩) hf1 hf2 hw1ok
            (by simp only [List.length_append, List.length_singleton, List.length_nil]
                simp only [List.length_cons, List.length_nil] at hlen
                omega) (by simp)
        refine ⟨w2, ?_, h2tok, ?_, ?_, h2ok⟩
        · simp only [_find_key_loop, hc, if_true, hg, hbuf, storeAt_length, World.findObjects,
            hw1tok, hy1, check_return_value_ok, hlen1]
          simp only [hw1tok] at h2
          simpa using h2
        · rw [h2trace]
          simp [hw1trace]
        · rw [h2err]
          exact hw1err
      | cons h2 rest2 =>
        obtain ⟨hy1, hy2, hy3, hy4⟩ := hy
        have hlen1 : (acc.length + 1) % 2 ^ 32 = (acc ++ [result_object]).length := by
          simp only [List.length_append, List.length_singleton]
          apply Nat.mod_eq_of_lt
          simp only [List.length_cons] at hlen
          omega
        obtain ⟨w2, h2', h2tok, h2trace, h2err, h2ok⟩ :=
          ih fuel (p.C_FindObjects w1.tok).2.1 (p.C_FindObjects w1.tok).2.2.1
            (some (acc ++ [result_object])) (acc ++ [result_object]) allocated1
            { w1 with tok := (p.C_FindObjects w1.tok).2.2.2,
                      trace := w1.trace ++ [P11Call.C_FindObjects] }
            rfl (by rw [hw1tok]; exact ⟨hy3, hy2, hy4⟩) hf1 hf2 hw1ok
            (by simp only [List.length_append, List.length_cons, List.length_nil]
                simp only [List.length_cons] at hlen
                omega)
            (by simp only [List.length_cons] at hfuel ⊢; omega)
        refine ⟨w2, ?_, h2tok, ?_, ?_, h2ok⟩
        · simp only [_find_key_loop, hc, if_true, hg, hbuf, storeAt_length, World.findObjects,
            hw1tok, hy1, check_return_value_ok, hlen1]
          simp only [hw1tok] at h2'
          simpa [Nat.add_assoc, Nat.add_comm] using h2'
        · rw [h2trace]
          simp [hw1trace, List.replicate_succ]
        · rw [h2err]
          exact hw1err

/-- When the provider accepts the search, delivers the handles `hs` and
accepts the end of the search, and every allocation is granted, `_find_key`
succeeds and publishes exactly `hs`. -/
theorem _find_key_yields (p : P11 σ) (id : Option (List CK_BYTE)) (id_len : CK_ULONG)
    (label : Option (List CK_BYTE)) (label_len : CK_ULONG) (cls : CK_OBJECT_CLASS)
    (cka_wrap cka_unwrap : Option Bool) (objects0 : Option (List CK_OBJECT_HANDLE))
    (objects_count0 : Nat) (fuel : Nat) (w : World σ) (hs : List CK_OBJECT_HANDLE)
    (s1 : σ)
    (hinit : (p.C_FindObjectsInit w.tok
      (_find_key_template id id_len label label_len cls cka_wrap cka_unwrap)).1 = CKR_OK)
    (hy : Yields p (p.C_FindObjectsInit w.tok
      (_find_key_template id id_len label label_len cls cka_wrap cka_unwrap)).2 hs s1)
    (hfin : (p.C_FindObjectsFinal s1).1 = CKR_OK)
    (halloc : AllocOK w) (hlen : hs.length < 2 ^ 32) (hfuel : hs.length ≤ fuel) :
    ∃ w1, _find_key p id id_len label label_len cls cka_wrap cka_unwrap objects0
          objects_count0 fuel w =
        some (⟨1, if hs = [] then none else some hs, hs.length⟩, w1) ∧
      w1.tok = (p.C_FindObjectsFinal s1).2 ∧
      w1.trace = w.trace ++
        [P11Call.C_FindObjectsInit
          (_find_key_template id id_len label label_len cls cka_wrap cka_unwrap)] ++
        List.replicate (hs.length + 1) P11Call.C_FindObjects ++
        [P11Call.C_FindObjectsFinal] ∧
      w1.pyerr = w.pyerr := by
  have hy1 : (p.C_FindObjects (p.C_FindObjectsInit w.tok
      (_find_key_template id id_len label label_len cls cka_wrap cka_unwrap)).2).1 = CKR_OK := by
    cases hs with
    | nil => exact hy.1
    | cons h rest => exact hy.1
  obtain ⟨w1, h1, h1tok, h1trace, h1err, _⟩ :=
    _find_key_loop_yields p objects0 objects_count0 s1 (p.C_FindObjectsFinal s1).2 hs fuel
      (p.C_FindObjects (p.C_FindObjectsInit w.tok
        (_find_key_template id id_len label label_len cls cka_wrap cka_unwrap)).2).2.1
      (p.C_FindObjects (p.C_FindObjectsInit w.tok
        (_find_key_template id id_len label label_len cls cka_wrap cka_unwrap)).2).2.2.1
      none [] 0
      { w with
        tok := (p.C_FindObjects (p.C_FindObjectsInit w.tok
          (_find_key_template id id_len label label_len cls cka_wrap cka_unwrap)).2).2.2.2,
        trace := w.trace ++
          [P11Call.C_FindObjectsInit
            (_find_key_template id id_len label label_len cls cka_wrap cka_unwrap)] ++
          [P11Call.C_FindObjects] }
      rfl
      (by
        cases hs with
        | nil => exact ⟨hy.2.1, hy.2.2⟩
        | cons h rest => exact ⟨hy.2.2.1, hy.2.1, hy.2.2.2⟩)
      hfin rfl halloc (by simpa using hlen) hfuel
  refine ⟨w1, ?_, h1tok, ?_, h1err⟩
  · simp only [_find_key, World.findObjectsInit, hinit, check_return_value_ok,
      World.findObjects, hy1]
    simpa using h1
  · rw [h1trace]
    simp [List.replicate_succ]

/-- C2. `_get_key` with both `id` and `label` `NULL`: it returns `0` with the
error `Key 'id' or 'label' required.` set, whatever the class, the capability
filters and the provider are; the provider state is untouched and no call to
the provider is logged (no `C_FindObjectsInit`, `C_FindObjects`,
`C_FindObjectsFinal`). -/
theorem get_key_without_id_and_label (p : P11 σ) (id_len label_len : CK_ULONG)
    (cls : CK_OBJECT_CLASS) (cka_wrap cka_unwrap : Option Bool)
    (object0 : CK_OBJECT_HANDLE) (fuel : Nat) (w : World σ) :
    ∃ w1, _get_key p none id_len none label_len cls cka_wrap cka_unwrap object0 fuel w =
        some (⟨0, object0⟩, w1) ∧
      w1.pyerr = some ⟨PyExc.IPA_PKCS11Error, ErrMsg.text "Key 'id' or 'label' required."⟩ ∧
      w1.trace = w.trace ∧ w1.tok = w.tok ∧ w1.heap = w.heap := by
  refine ⟨w.PyErr_SetString PyExc.IPA_PKCS11Error
    (ErrMsg.text "Key 'id' or 'label' required."), ?_, rfl, rfl, rfl, rfl⟩
  simp [_get_key]

/-- C1. `_get_key` with `id` or `label` present, when the search itself
succeeds (the provider accepts `C_FindObjectsInit`, delivers the matching
handles `hs` one per `C_FindObjects` call, accepts `C_FindObjectsFinal`, and
allocations are granted): with exactly one match it returns `1` and that
handle; with no match it returns `0` with `IPA_PKCS11NotFound`; with two or
more it returns `0` with `IPA_PKCS11DuplicationError` and leaves `*object`
as it was (the first match is not returned). -/
theorem get_key_exactly_one (p : P11 σ) (id : Option (List CK_BYTE)) (id_len : CK_ULONG)
    (label : Option (List CK_BYTE)) (label_len : CK_ULONG) (cls : CK_OBJECT_CLASS)
    (cka_wrap cka_unwrap : Option Bool) (object0 : CK_OBJECT_HANDLE) (fuel : Nat)
    (w : World σ) (hs : List CK_OBJECT_HANDLE) (s1 : σ)
    (hquery : id ≠ none ∨ label ≠ none)
    (hinit : (p.C_FindObjectsInit w.tok
      (_find_key_template id id_len label label_len cls cka_wrap cka_unwrap)).1 = CKR_OK)
    (hy : Yields p (p.C_FindObjectsInit w.tok
      (_find_key_template id id_len label label_len cls cka_wrap cka_unwrap)).2 hs s1)
    (hfin : (p.C_FindObjectsFinal s1).1 = CKR_OK)
    (halloc : AllocOK w) (hlen : hs.length < 2 ^ 32) (hfuel : hs.length ≤ fuel) :
    ∃ w1, _get_key p id id_len label label_len cls cka_wrap cka_unwrap object0 fuel w =
        some (match hs with
              | [] => ⟨0, object0⟩
              | [h] => ⟨1, h⟩
              | _ :: _ :: _ => ⟨0, object0⟩, w1) ∧
      w1.pyerr = (match hs with
        | [] => some ⟨PyExc.IPA_PKCS11NotFound, ErrMsg.text "Key not found"⟩
        | [_] => w.pyerr
        | _ :: _ :: _ => some ⟨PyExc.IPA_PKCS11DuplicationError,
            ErrMsg.text "_get_key: more than 1 key found"⟩) := by
  obtain ⟨w1, h1, _, _, h1err⟩ :=
    _find_key_yields p id id_len label label_len cls cka_wrap cka_unwrap none 0 fuel w hs s1
      hinit hy hfin halloc hlen hfuel
  have hq : ¬ (label = none ∧ id = none) := by
    rintro ⟨h1, h2⟩
    cases hquery with
    | inl h => exact h h2
    | inr h => exact h h1
  match hs, h1 with
  | [], h1 =>
    refine ⟨w1.PyErr_SetString PyExc.IPA_PKCS11NotFound (ErrMsg.text "Key not found"), ?_, rfl⟩
    simp [_get_key, hq, h1]
  | [h], h1 =>
    refine ⟨w1, ?_, h1err⟩
    simp [_get_key, hq, h1]
  | a :: b :: rest, h1 =>
    refine ⟨w1.PyErr_SetString PyExc.IPA_PKCS11DuplicationError
      (ErrMsg.text "_get_key: more than 1 key found"), ?_, rfl⟩
    simp [_get_key, hq, h1]

/-- Witness of C1 on the reference provider: one public key has label `L1`
and id `01`, and `_get_key` returns its handle. -/
theorem get_key_exactly_one_witness :
    ∃ w1, _get_key SoftToken.p11 (some [1]) 1 (some [76, 49]) 2 CKO_PUBLIC_KEY none none 0 1
        (softWorld exampleToken) = some (⟨1, 1⟩, w1) ∧ w1.pyerr = none :=
  get_key_exactly_one SoftToken.p11 (some [1]) 1 (some [76, 49]) 2 CKO_PUBLIC_KEY none none 0 1
    (softWorld exampleToken) [1] { exampleToken with search := some [] }
    (Or.inl (by simp)) rfl (by unfold Yields; unfold Yields; decide) rfl
    (by intro b hb; simp [softWorld] at hb) (by simp) (by simp)

/-! ## Default tables -/

/-- Counterexample to C10: with no overrides, the public-key table built by
`generate_replica_key_pair` and the one built by `import_public_key` differ,
and so do the private-key tables of `generate_replica_key_pair` and
`import_wrapped_private_key`. -/
theorem default_tables_differ :
    tableBools (convert_py2bool (generate_replica_key_pair_attrs_pub noOverrides) 9) ≠
      tableBools (convert_py2bool (import_public_key_attrs_pub noOverrides) 9) ∧
    tableBools (convert_py2bool (generate_replica_key_pair_attrs_priv noOverrides) 12) ≠
      tableBools (convert_py2bool (import_wrapped_private_key_attrs_priv noOverrides) 12) := by
  decide

/-- C10, amended. With no overrides every operation builds a fixed table of
its own.  `generate_master_key` and `import_wrapped_secret_key` build the
same secret-key table (they build the same table for every override set).
The public-key tables of `generate_replica_key_pair` and `import_public_key`
agree on copyable, derive, encrypt, modifiable, private, trusted and differ
on verify, verify_recover, wrap (false, false, true against true, true,
false).  The private-key tables of `generate_replica_key_pair` and
`import_wrapped_private_key` agree on always_authenticate, copyable, decrypt,
derive, modifiable, private, sensitive, wrap_with_trusted and differ on
extractable, sign, sign_recover, unwrap (false, false, false, true against
true, true, true, false). -/
theorem default_tables :
    (∀ kw, convert_py2bool (generate_master_key_attrs kw) 13 =
      convert_py2bool (import_wrapped_secret_key_attrs kw) 13) ∧
    tableBools (convert_py2bool (generate_master_key_attrs noOverrides) 13) =
      [true, false, false, false, true, true, true, true, false, true, false, true, false] ∧
    tableBools (convert_py2bool (generate_replica_key_pair_attrs_pub noOverrides) 9) =
      [true, false, false, true, true, false, false, false, true] ∧
    tableBools (convert_py2bool (import_public_key_attrs_pub noOverrides) 9) =
      [true, false, false, true, true, false, true, true, false] ∧
    tableBools (convert_py2bool (generate_replica_key_pair_attrs_priv noOverrides) 12) =
      [false, true, false, false, false, true, true, true, false, false, true, false] ∧
    tableBools (convert_py2bool (import_wrapped_private_key_attrs_priv noOverrides) 12) =
      [false, true, false, false, true, true, true, true, true, true, false, false] := by
  refine ⟨fun kw => rfl, ?_, ?_, ?_, ?_, ?_⟩ <;> decide

/-! ## The existence check: proofs -/

/-- The two ways `_id_label_exists` ends: with `-1`, an `IPA_PKCS11Error` set
and a search that was started; or with `0` or `1`, the error indicator
untouched and the three search calls logged. -/
theorem _id_label_exists_cases (p : P11 σ) (id : Option (List CK_BYTE)) (id_len : CK_ULONG)
    (label : Option (List CK_BYTE)) (label_len : CK_ULONG) (cls : CK_OBJECT_CLASS)
    (w : World σ) :
    ((_id_label_exists p id id_len label label_len cls w).1 = -1 ∧
      (∃ msg, (_id_label_exists p id id_len label label_len cls w).2.pyerr =
        some ⟨PyExc.IPA_PKCS11Error, msg⟩) ∧
      ∃ l, (_id_label_exists p id id_len label label_len cls w).2.trace =
          w.trace ++ P11Call.C_FindObjectsInit
            (_id_label_exists_template id id_len label label_len cls) :: l ∧
        ∀ c ∈ l, isSearchCall c = true) ∨
    (((_id_label_exists p id id_len label label_len cls w).1 = 0 ∨
        (_id_label_exists p id id_len label label_len cls w).1 = 1) ∧
      (_id_label_exists p id id_len label label_len cls w).2.pyerr = w.pyerr ∧
      (_id_label_exists p id id_len label label_len cls w).2.trace =
        w.trace ++ [P11Call.C_FindObjectsInit
          (_id_label_exists_template id id_len label label_len cls),
          P11Call.C_FindObjects, P11Call.C_FindObjectsFinal]) := by
  unfold _id_label_exists
  simp only [World.findObjectsInit, World.findObjects, World.findObjectsFinal]
  by_cases h1 : (p.C_FindObjectsInit w.tok
      (_id_label_exists_template id id_len label label_len cls)).1 = CKR_OK
  · rw [h1]
    simp only [check_return_value_ok]
    by_cases h2 : (p.C_FindObjects (p.C_FindObjectsInit w.tok
        (_id_label_exists_template id id_len label label_len cls)).2).1 = CKR_OK
    · rw [h2]
      simp only [check_return_value_ok]
      by_cases h3 : (p.C_FindObjectsFinal (p.C_FindObjects (p.C_FindObjectsInit w.tok
          (_id_label_exists_template id id_len label label_len cls)).2).2.2.2).1 = CKR_OK
      · rw [h3]
        simp only [check_return_value_ok]
        right
        by_cases h4 : (p.C_FindObjects (p.C_FindObjectsInit w.tok
            (_id_label_exists_template id id_len label label_len cls)).2).2.2.1 = 0
        · simp [h4]
        · simp [h4]
      · left
        simp only [check_return_value_fst, h3]
        refine ⟨by simp, ?_, [P11Call.C_FindObjects, P11Call.C_FindObjectsFinal], ?_, ?_⟩
        · simpa using check_return_value_pyerr _ _ _ h3
        · simp [check_return_value_trace]
        · simp [isSearchCall]
    · left
      simp only [check_return_value_fst, h2]
      refine ⟨by simp, ?_, [P11Call.C_FindObjects], ?_, ?_⟩
      · simpa using check_return_value_pyerr _ _ _ h2
      · simp [check_return_value_trace]
      · simp [isSearchCall]
  · left
    simp only [check_return_value_fst, h1]
    refine ⟨by simp, ?_, [], ?_, ?_⟩
    · simpa using check_return_value_pyerr _ _ _ h1
    · simp [check_return_value_trace]
    · simp

theorem _id_label_exists_trace (p : P11 σ) (id : Option (List CK_BYTE)) (id_len : CK_ULONG)
    (label : Option (List CK_BYTE)) (label_len : CK_ULONG) (cls : CK_OBJECT_CLASS)
    (w : World σ) :
    ∃ l, (_id_label_exists p id id_len label label_len cls w).2.trace =
        w.trace ++ P11Call.C_FindObjectsInit
          (_id_label_exists_template id id_len label label_len cls) :: l ∧
      ∀ c ∈ l, isSearchCall c = true := by
  rcases _id_label_exists_cases p id id_len label label_len cls w with
    ⟨_, _, h⟩ | ⟨_, _, h⟩
  · exact h
  · exact ⟨[P11Call.C_FindObjects, P11Call.C_FindObjectsFinal], by simpa using h,
      by simp [isSearchCall]⟩

theorem _id_label_exists_generationCalls (p : P11 σ) (id : Option (List CK_BYTE))
    (id_len : CK_ULONG) (label : Option (List CK_BYTE)) (label_len : CK_ULONG)
    (cls : CK_OBJECT_CLASS) (w : World σ) :
    generationCalls (_id_label_exists p id id_len label label_len cls w).2.trace =
      generationCalls w.trace := by
  obtain ⟨l, hl, hs⟩ := _id_label_exists_trace p id id_len label label_len cls w
  rw [hl]
  unfold generationCalls
  rw [List.filter_append, List.filter_cons]
  have : List.filter isGenerate l = [] := by
    rw [List.filter_eq_nil_iff]
    intro c hc
    have := hs c hc
    cases c <;> simp_all [isSearchCall, isGenerate]
  simp [isGenerate, this]

theorem _id_label_exists_values (p : P11 σ) (id : Option (List CK_BYTE)) (id_len : CK_ULONG)
    (label : Option (List CK_BYTE)) (label_len : CK_ULONG) (cls : CK_OBJECT_CLASS)
    (w : World σ) :
    (_id_label_exists p id id_len label label_len cls w).1 = 1 ∨
    (_id_label_exists p id id_len label label_len cls w).1 = 0 ∨
    (_id_label_exists p id id_len label label_len cls w).1 = -1 := by
  rcases _id_label_exists_cases p id id_len label label_len cls w with
    ⟨h, _, _⟩ | ⟨h | h, _, _⟩
  · exact Or.inr (Or.inr h)
  · exact Or.inr (Or.inl h)
  · exact Or.inl h

/-- An error return of `_id_label_exists` comes with an `IPA_PKCS11Error` set. -/
theorem _id_label_exists_error (p : P11 σ) (id : Option (List CK_BYTE)) (id_len : CK_ULONG)
    (label : Option (List CK_BYTE)) (label_len : CK_ULONG) (cls : CK_OBJECT_CLASS)
    (w : World σ) (h : (_id_label_exists p id id_len label label_len cls w).1 = -1) :
    ∃ msg, (_id_label_exists p id id_len label label_len cls w).2.pyerr =
      some ⟨PyExc.IPA_PKCS11Error, msg⟩ := by
  rcases _id_label_exists_cases p id id_len label label_len cls w with
    ⟨_, h2, _⟩ | ⟨h2 | h2, _, _⟩
  · exact h2
  · rw [h2] at h; simp at h
  · rw [h2] at h; simp at h

/-- When the three search calls succeed, `_id_label_exists` returns `0` for
an empty answer and `1` otherwise, and leaves the error indicator and the
allocation script alone. -/
theorem _id_label_exists_ok (p : P11 σ) (id : Option (List CK_BYTE)) (id_len : CK_ULONG)
    (label : Option (List CK_BYTE)) (label_len : CK_ULONG) (cls : CK_OBJECT_CLASS)
    (w : World σ)
    (h1 : (p.C_FindObjectsInit w.tok
      (_id_label_exists_template id id_len label label_len cls)).1 = CKR_OK)
    (h2 : (p.C_FindObjects (p.C_FindObjectsInit w.tok
      (_id_label_exists_template id id_len label label_len cls)).2).1 = CKR_OK)
    (h3 : (p.C_FindObjectsFinal (p.C_FindObjects (p.C_FindObjectsInit w.tok
      (_id_label_exists_template id id_len label label_len cls)).2).2.2.2).1 = CKR_OK) :
    _id_label_exists p id id_len label label_len cls w =
      (if (p.C_FindObjects (p.C_FindObjectsInit w.tok
          (_id_label_exists_template id id_len label label_len cls)).2).2.2.1 = 0
        then 0 else 1,
       { w with
         tok := (p.C_FindObjectsFinal (p.C_FindObjects (p.C_FindObjectsInit w.tok
           (_id_label_exists_template id id_len label label_len cls)).2).2.2.2).2,
         trace := w.trace ++ [P11Call.C_FindObjectsInit
           (_id_label_exists_template id id_len label label_len cls),
           P11Call.C_FindObjects, P11Call.C_FindObjectsFinal] }) := by
  unfold _id_label_exists
  simp only [World.findObjectsInit, World.findObjects, World.findObjectsFinal]
  rw [h1]
  simp only [check_return_value_ok]
  rw [h2]
  simp only [check_return_value_ok]
  rw [h3]
  simp only [check_return_value_ok]
  by_cases h4 : (p.C_FindObjects (p.C_FindObjectsInit w.tok
      (_id_label_exists_template id id_len label label_len cls)).2).2.2.1 = 0
  · simp [h4]
  · simp [h4]

theorem unicode_to_char_array_trace (u : PyUnicodeObject) (l0 : Nat) (w : World σ) :
    (unicode_to_char_array u l0 w).2.2.trace = w.trace := by
  unfold unicode_to_char_array
  split <;> rfl

theorem unicode_to_char_array_tok (u : PyUnicodeObject) (l0 : Nat) (w : World σ) :
    (unicode_to_char_array u l0 w).2.2.tok = w.tok := by
  unfold unicode_to_char_array
  split <;> rfl

/-! ## Key generation: proofs -/

/-- C7. `generate_master_key` and the key length.  A length other than 16,
24, 32 makes it return `NULL` with an error, the provider untouched and no
provider call logged.  With a length of 16, 24 or 32, when the existence
check answers not found and `C_GenerateKey` succeeds, it returns the handle
`C_GenerateKey` produced, and the template of that call carries the length
as `CKA_VALUE_LEN`. -/
theorem generate_master_key_key_length (p : P11 σ) (label_unicode : PyUnicodeObject)
    (id : List CK_BYTE) (key_length : CK_ULONG) (kw : Nat → Option PyObject) (w : World σ) :
    let u := unicode_to_char_array label_unicode 0 w
    let e := _id_label_exists p (some id) id.length u.1 u.2.1 CKO_SECRET_KEY u.2.2
    let template := generate_master_key_template (some id) id.length u.1 u.2.1 key_length
      (convert_py2bool (generate_master_key_attrs kw) 13)
    let mechanism : CK_MECHANISM := ⟨CKM_AES_KEY_GEN, PValue.null, 0⟩
    let out := IPA_PKCS11_generate_master_key p label_unicode id key_length kw w
    (key_length ≠ 16 ∧ key_length ≠ 24 ∧ key_length ≠ 32 →
      out.1 = none ∧
      out.2.pyerr = some ⟨PyExc.IPA_PKCS11Error, ErrMsg.text
        "generate_master_key: key length allowed values are: 16, 24 and 32"⟩ ∧
      out.2.trace = w.trace ∧ out.2.tok = w.tok) ∧
    (key_length = 16 ∨ key_length = 24 ∨ key_length = 32 →
      e.1 = 0 → (p.C_GenerateKey e.2.tok mechanism template).1 = CKR_OK →
      out.1 = some (PyObject.pyInt (p.C_GenerateKey e.2.tok mechanism template).2.1) ∧
      out.2.trace = e.2.trace ++ [P11Call.C_GenerateKey mechanism template] ∧
      (⟨CKA_VALUE_LEN, PValue.ulong key_length, sizeof_CK_ULONG⟩ : CK_ATTRIBUTE) ∈ template) := by
  intro u e template mechanism out
  constructor
  · intro hk
    have hout : out = (none, u.2.2.PyErr_SetString PyExc.IPA_PKCS11Error (ErrMsg.text
        "generate_master_key: key length allowed values are: 16, 24 and 32")) := by
      show IPA_PKCS11_generate_master_key p label_unicode id key_length kw w = _
      unfold IPA_PKCS11_generate_master_key
      dsimp only
      rw [if_pos hk]
    rw [hout]
    exact ⟨rfl, rfl, unicode_to_char_array_trace _ _ _, unicode_to_char_array_tok _ _ _⟩
  · intro hk he hg
    have hk2 : ¬ (key_length ≠ 16 ∧ key_length ≠ 24 ∧ key_length ≠ 32) := by
      rintro ⟨a, b, c⟩
      rcases hk with h | h | h
      · exact a h
      · exact b h
      · exact c h
    have h1 : ¬ (e.1 = 1) := by rw [he]; decide
    have h2 : ¬ (e.1 = -1) := by rw [he]; decide
    have hout : out = (some (PyObject.pyInt (p.C_GenerateKey e.2.tok mechanism template).2.1),
        { e.2 with tok := (p.C_GenerateKey e.2.tok mechanism template).2.2,
                   trace := e.2.trace ++ [P11Call.C_GenerateKey mechanism template] }) := by
      show IPA_PKCS11_generate_master_key p label_unicode id key_length kw w = _
      unfold IPA_PKCS11_generate_master_key
      dsimp only
      rw [if_neg hk2, if_neg h1, if_neg h2]
      simp only [World.generateKey]
      rw [hg]
      simp only [check_return_value_ok]
      rw [if_neg (by decide)]
    rw [hout]
    refine ⟨rfl, rfl, ?_⟩
    show _ ∈ generate_master_key_template _ _ _ _ _ _
    simp [generate_master_key_template]

/-- Witness of C7 on the reference provider: length 20 is refused before any
provider call; length 32 under a fresh identity yields the new handle. -/
theorem generate_master_key_key_length_witness :
    (IPA_PKCS11_generate_master_key SoftToken.p11 labelL2 [5] 20 noOverrides
      (softWorld exampleToken)).1 = none ∧
    (IPA_PKCS11_generate_master_key SoftToken.p11 labelL2 [5] 20 noOverrides
      (softWorld exampleToken)).2.trace = [] ∧
    (IPA_PKCS11_generate_master_key SoftToken.p11 labelL2 [5] 32 noOverrides
      (softWorld exampleToken)).1 = some (PyObject.pyInt 4) :=
  ⟨((generate_master_key_key_length SoftToken.p11 labelL2 [5] 20 noOverrides
      (softWorld exampleToken)).1 (by decide)).1,
   ((generate_master_key_key_length SoftToken.p11 labelL2 [5] 20 noOverrides
      (softWorld exampleToken)).1 (by decide)).2.2.1,
   ((generate_master_key_key_length SoftToken.p11 labelL2 [5] 32 noOverrides
      (softWorld exampleToken)).2 (by decide) rfl rfl).1⟩

theorem generate_master_key_bad_length (p : P11 σ) (label_unicode : PyUnicodeObject)
    (id : List CK_BYTE) (key_length : CK_ULONG) (kw : Nat → Option PyObject) (w : World σ)
    (hk : key_length ≠ 16 ∧ key_length ≠ 24 ∧ key_length ≠ 32) :
    IPA_PKCS11_generate_master_key p label_unicode id key_length kw w =
      (none, (unicode_to_char_array label_unicode 0 w).2.2.PyErr_SetString
        PyExc.IPA_PKCS11Error (ErrMsg.text
          "generate_master_key: key length allowed values are: 16, 24 and 32")) := by
  unfold IPA_PKCS11_generate_master_key
  dsimp only
  rw [if_pos hk]

theorem generate_master_key_found (p : P11 σ) (label_unicode : PyUnicodeObject)
    (id : List CK_BYTE) (key_length : CK_ULONG) (kw : Nat → Option PyObject) (w : World σ)
    (hk : ¬ (key_length ≠ 16 ∧ key_length ≠ 24 ∧ key_length ≠ 32))
    (he : (_id_label_exists p (some id) id.length (unicode_to_char_array label_unicode 0 w).1
      (unicode_to_char_array label_unicode 0 w).2.1 CKO_SECRET_KEY
      (unicode_to_char_array label_unicode 0 w).2.2).1 = 1) :
    IPA_PKCS11_generate_master_key p label_unicode id key_length kw w =
      (none, (_id_label_exists p (some id) id.length (unicode_to_char_array label_unicode 0 w).1
        (unicode_to_char_array label_unicode 0 w).2.1 CKO_SECRET_KEY
        (unicode_to_char_array label_unicode 0 w).2.2).2.PyErr_SetString
          PyExc.IPA_PKCS11DuplicationError
          (ErrMsg.text "Master key with same ID and LABEL already exists")) := by
  unfold IPA_PKCS11_generate_master_key
  dsimp only
  rw [if_neg hk, if_pos he]

theorem generate_master_key_failed (p : P11 σ) (label_unicode : PyUnicodeObject)
    (id : List CK_BYTE) (key_length : CK_ULONG) (kw : Nat → Option PyObject) (w : World σ)
    (hk : ¬ (key_length ≠ 16 ∧ key_length ≠ 24 ∧ key_length ≠ 32))
    (he : (_id_label_exists p (some id) id.length (unicode_to_char_array label_unicode 0 w).1
      (unicode_to_char_array label_unicode 0 w).2.1 CKO_SECRET_KEY
      (unicode_to_char_array label_unicode 0 w).2.2).1 = -1) :
    IPA_PKCS11_generate_master_key p label_unicode id key_length kw w =
      (none, (_id_label_exists p (some id) id.length (unicode_to_char_array label_unicode 0 w).1
        (unicode_to_char_array label_unicode 0 w).2.1 CKO_SECRET_KEY
        (unicode_to_char_array label_unicode 0 w).2.2).2) := by
  unfold IPA_PKCS11_generate_master_key
  dsimp only
  have h1 : ¬ ((_id_label_exists p (some id) id.length (unicode_to_char_array label_unicode 0 w).1
      (unicode_to_char_array label_unicode 0 w).2.1 CKO_SECRET_KEY
      (unicode_to_char_array label_unicode 0 w).2.2).1 = 1) := by rw [he]; decide
  rw [if_neg hk, if_neg h1, if_pos he]

theorem generate_replica_key_pair_private_found (p : P11 σ) (label_unicode : PyUnicodeObject)
    (id : List CK_BYTE) (modulus_bits : CK_ULONG) (kw_pub kw_priv : Nat → Option PyObject)
    (w : World σ)
    (he : (_id_label_exists p (some id) id.length (unicode_to_char_array label_unicode 0 w).1
      (unicode_to_char_array label_unicode 0 w).2.1 CKO_PRIVATE_KEY
      (unicode_to_char_array label_unicode 0 w).2.2).1 = 1) :
    IPA_PKCS11_generate_replica_key_pair p label_unicode id modulus_bits kw_pub kw_priv w =
      (none, (_id_label_exists p (some id) id.length (unicode_to_char_array label_unicode 0 w).1
        (unicode_to_char_array label_unicode 0 w).2.1 CKO_PRIVATE_KEY
        (unicode_to_char_array label_unicode 0 w).2.2).2.PyErr_SetString
          PyExc.IPA_PKCS11DuplicationError
          (ErrMsg.text "Private key with same ID and LABEL already exists")) := by
  unfold IPA_PKCS11_generate_replica_key_pair
  dsimp only
  rw [if_pos he]

theorem generate_replica_key_pair_private_failed (p : P11 σ)
    (label_unicode : PyUnicodeObject) (id : List CK_BYTE) (modulus_bits : CK_ULONG)
    (kw_pub kw_priv : Nat → Option PyObject) (w : World σ)
    (he : (_id_label_exists p (some id) id.length (unicode_to_char_array label_unicode 0 w).1
      (unicode_to_char_array label_unicode 0 w).2.1 CKO_PRIVATE_KEY
      (unicode_to_char_array label_unicode 0 w).2.2).1 = -1) :
    IPA_PKCS11_generate_replica_key_pair p label_unicode id modulus_bits kw_pub kw_priv w =
      (none, (_id_label_exists p (some id) id.length (unicode_to_char_array label_unicode 0 w).1
        (unicode_to_char_array label_unicode 0 w).2.1 CKO_PRIVATE_KEY
        (unicode_to_char_array label_unicode 0 w).2.2).2) := by
  unfold IPA_PKCS11_generate_replica_key_pair
  dsimp only
  have h1 : ¬ ((_id_label_exists p (some id) id.length (unicode_to_char_array label_unicode 0 w).1
      (unicode_to_char_array label_unicode 0 w).2.1 CKO_PRIVATE_KEY
      (unicode_to_char_array label_unicode 0 w).2.2).1 = 1) := by rw [he]; decide
  rw [if_neg h1, if_pos he]

theorem generate_replica_key_pair_public_found (p : P11 σ) (label_unicode : PyUnicodeObject)
    (id : List CK_BYTE) (modulus_bits : CK_ULONG) (kw_pub kw_priv : Nat → Option PyObject)
    (w : World σ)
    (he1 : (_id_label_exists p (some id) id.length (unicode_to_char_array label_unicode 0 w).1
      (unicode_to_char_array label_unicode 0 w).2.1 CKO_PRIVATE_KEY
      (unicode_to_char_array label_unicode 0 w).2.2).1 = 0)
    (he2 : (_id_label_exists p (some id) id.length (unicode_to_char_array label_unicode 0 w).1
      (unicode_to_char_array label_unicode 0 w).2.1 CKO_PUBLIC_KEY
      (_id_label_exists p (some id) id.length (unicode_to_char_array label_unicode 0 w).1
        (unicode_to_char_array label_unicode 0 w).2.1 CKO_PRIVATE_KEY
        (unicode_to_char_array label_unicode 0 w).2.2).2).1 = 1) :
    IPA_PKCS11_generate_replica_key_pair p label_unicode id modulus_bits kw_pub kw_priv w =
      (none, (_id_label_exists p (some id) id.length (unicode_to_char_array label_unicode 0 w).1
        (unicode_to_char_array label_unicode 0 w).2.1 CKO_PUBLIC_KEY
        (_id_label_exists p (some id) id.length (unicode_to_char_array label_unicode 0 w).1
          (unicode_to_char_array label_unicode 0 w).2.1 CKO_PRIVATE_KEY
          (unicode_to_char_array label_unicode 0 w).2.2).2).2.PyErr_SetString
          PyExc.IPA_PKCS11DuplicationError
          (ErrMsg.text "Public key with same ID and LABEL already exists")) := by
  unfold IPA_PKCS11_generate_replica_key_pair
  dsimp only
  have h1 : ¬ ((_id_label_exists p (some id) id.length (unicode_to_char_array label_unicode 0 w).1
      (unicode_to_char_array label_unicode 0 w).2.1 CKO_PRIVATE_KEY
      (unicode_to_char_array label_unicode 0 w).2.2).1 = 1) := by rw [he1]; decide
  have h2 : ¬ ((_id_label_exists p (some id) id.length (unicode_to_char_array label_unicode 0 w).1
      (unicode_to_char_array label_unicode 0 w).2.1 CKO_PRIVATE_KEY
      (unicode_to_char_array label_unicode 0 w).2.2).1 = -1) := by rw [he1]; decide
  rw [if_neg h1, if_neg h2, if_pos he2]

theorem generate_replica_key_pair_public_failed (p : P11 σ)
    (label_unicode : PyUnicodeObject) (id : List CK_BYTE) (modulus_bits : CK_ULONG)
    (kw_pub kw_priv : Nat → Option PyObject) (w : World σ)
    (he1 : (_id_label_exists p (some id) id.length (unicode_to_char_array label_unicode 0 w).1
      (unicode_to_char_array label_unicode 0 w).2.1 CKO_PRIVATE_KEY
      (unicode_to_char_array label_unicode 0 w).2.2).1 = 0)
    (he2 : (_id_label_exists p (some id) id.length (unicode_to_char_array label_unicode 0 w).1
      (unicode_to_char_array label_unicode 0 w).2.1 CKO_PUBLIC_KEY
      (_id_label_exists p (some id) id.length (unicode_to_char_array label_unicode 0 w).1
        (unicode_to_char_array label_unicode 0 w).2.1 CKO_PRIVATE_KEY
        (unicode_to_char_array label_unicode 0 w).2.2).2).1 = -1) :
    IPA_PKCS11_generate_replica_key_pair p label_unicode id modulus_bits kw_pub kw_priv w =
      (none, (_id_label_exists p (some id) id.length (unicode_to_char_array label_unicode 0 w).1
        (unicode_to_char_array label_unicode 0 w).2.1 CKO_PUBLIC_KEY
        (_id_label_exists p (some id) id.length (unicode_to_char_array label_unicode 0 w).1
          (unicode_to_char_array label_unicode 0 w).2.1 CKO_PRIVATE_KEY
          (unicode_to_char_array label_unicode 0 w).2.2).2).2) := by
  unfold IPA_PKCS11_generate_replica_key_pair
  dsimp only
  have h1 : ¬ ((_id_label_exists p (some id) id.length (unicode_to_char_array label_unicode 0 w).1
      (unicode_to_char_array label_unicode 0 w).2.1 CKO_PRIVATE_KEY
      (unicode_to_char_array label_unicode 0 w).2.2).1 = 1) := by rw [he1]; decide
  have h2 : ¬ ((_id_label_exists p (some id) id.length (unicode_to_char_array label_unicode 0 w).1
      (unicode_to_char_array label_unicode 0 w).2.1 CKO_PRIVATE_KEY
      (unicode_to_char_array label_unicode 0 w).2.2).1 = -1) := by rw [he1]; decide
  have h3 : ¬ ((_id_label_exists p (some id) id.length (unicode_to_char_array label_unicode 0 w).1
      (unicode_to_char_array label_unicode 0 w).2.1 CKO_PUBLIC_KEY
      (_id_label_exists p (some id) id.length (unicode_to_char_array label_unicode 0 w).1
        (unicode_to_char_array label_unicode 0 w).2.1 CKO_PRIVATE_KEY
        (unicode_to_char_array label_unicode 0 w).2.2).2).1 = 1) := by rw [he2]; decide
  rw [if_neg h1, if_neg h2, if_neg h3, if_pos he2]

theorem generationCalls_unicode (u : PyUnicodeObject) (l0 : Nat) (w : World σ) :
    generationCalls (unicode_to_char_array u l0 w).2.2.trace = generationCalls w.trace := by
  rw [unicode_to_char_array_trace]

/-- C6. Generation only after negative existence checks.
`generate_master_key`: if the log gains a generation call, the key length
was admissible and the secret-key existence check returned `0`; with an
admissible key length, a check that returns `1` gives `NULL` with
`IPA_PKCS11DuplicationError` and a check that returns `-1` gives `NULL` with
the error the check has set, both without a generation call.  `generate_replica_key_pair`: if the log gains a generation
call, the private-key check and the public-key check both returned `0`; a
`1` from either check gives `IPA_PKCS11DuplicationError`, a `-1` the error
that check has set, without a generation call. -/
theorem generation_only_after_negative_checks (p : P11 σ)
    (label_unicode : PyUnicodeObject) (id : List CK_BYTE) (key_length modulus_bits : CK_ULONG)
    (kw kw_pub kw_priv : Nat → Option PyObject) (w : World σ) :
    let u := unicode_to_char_array label_unicode 0 w
    let e := _id_label_exists p (some id) id.length u.1 u.2.1 CKO_SECRET_KEY u.2.2
    let m := IPA_PKCS11_generate_master_key p label_unicode id key_length kw w
    let e1 := _id_label_exists p (some id) id.length u.1 u.2.1 CKO_PRIVATE_KEY u.2.2
    let e2 := _id_label_exists p (some id) id.length u.1 u.2.1 CKO_PUBLIC_KEY e1.2
    let r := IPA_PKCS11_generate_replica_key_pair p label_unicode id modulus_bits kw_pub
      kw_priv w
    (generationCalls m.2.trace ≠ generationCalls w.trace →
      (key_length = 16 ∨ key_length = 24 ∨ key_length = 32) ∧ e.1 = 0) ∧
    (key_length = 16 ∨ key_length = 24 ∨ key_length = 32 →
      (e.1 = 1 → m.1 = none ∧
        m.2.pyerr = some ⟨PyExc.IPA_PKCS11DuplicationError,
          ErrMsg.text "Master key with same ID and LABEL already exists"⟩ ∧
        generationCalls m.2.trace = generationCalls w.trace) ∧
      (e.1 = -1 → m = (none, e.2) ∧
        (∃ msg, m.2.pyerr = some ⟨PyExc.IPA_PKCS11Error, msg⟩) ∧
        generationCalls m.2.trace = generationCalls w.trace)) ∧
    (generationCalls r.2.trace ≠ generationCalls w.trace → e1.1 = 0 ∧ e2.1 = 0) ∧
    (e1.1 = 1 → r.1 = none ∧
      r.2.pyerr = some ⟨PyExc.IPA_PKCS11DuplicationError,
        ErrMsg.text "Private key with same ID and LABEL already exists"⟩ ∧
      generationCalls r.2.trace = generationCalls w.trace) ∧
    (e1.1 = -1 → r = (none, e1.2) ∧
      (∃ msg, r.2.pyerr = some ⟨PyExc.IPA_PKCS11Error, msg⟩) ∧
      generationCalls r.2.trace = generationCalls w.trace) ∧
    (e1.1 = 0 → e2.1 = 1 → r.1 = none ∧
      r.2.pyerr = some ⟨PyExc.IPA_PKCS11DuplicationError,
        ErrMsg.text "Public key with same ID and LABEL already exists"⟩ ∧
      generationCalls r.2.trace = generationCalls w.trace) ∧
    (e1.1 = 0 → e2.1 = -1 → r = (none, e2.2) ∧
      (∃ msg, r.2.pyerr = some ⟨PyExc.IPA_PKCS11Error, msg⟩) ∧
      generationCalls r.2.trace = generationCalls w.trace) := by
  intro u e m e1 e2 r
  have hge : generationCalls e.2.trace = generationCalls w.trace := by
    rw [_id_label_exists_generationCalls]
    exact generationCalls_unicode _ _ _
  have hge1 : generationCalls e1.2.trace = generationCalls w.trace := by
    rw [_id_label_exists_generationCalls]
    exact generationCalls_unicode _ _ _
  have hge2 : generationCalls e2.2.trace = generationCalls w.trace := by
    rw [_id_label_exists_generationCalls]
    exact hge1
  -- the master key
  have hm1 : (key_length = 16 ∨ key_length = 24 ∨ key_length = 32) → e.1 = 1 → m.1 = none ∧
      m.2.pyerr = some ⟨PyExc.IPA_PKCS11DuplicationError,
        ErrMsg.text "Master key with same ID and LABEL already exists"⟩ ∧
      generationCalls m.2.trace = generationCalls w.trace := by
    intro hk he
    have hk2 : ¬ (key_length ≠ 16 ∧ key_length ≠ 24 ∧ key_length ≠ 32) := by
      rintro ⟨a, b, c⟩
      rcases hk with h | h | h
      · exact a h
      · exact b h
      · exact c h
    have := generate_master_key_found p label_unicode id key_length kw w hk2 he
    have hm : m = _ := this
    rw [hm]
    exact ⟨rfl, rfl, hge⟩
  have hm2 : (key_length = 16 ∨ key_length = 24 ∨ key_length = 32) → e.1 = -1 →
      m = (none, e.2) ∧ (∃ msg, m.2.pyerr = some ⟨PyExc.IPA_PKCS11Error, msg⟩) ∧
      generationCalls m.2.trace = generationCalls w.trace := by
    intro hk he
    have hk2 : ¬ (key_length ≠ 16 ∧ key_length ≠ 24 ∧ key_length ≠ 32) := by
      rintro ⟨a, b, c⟩
      rcases hk with h | h | h
      · exact a h
      · exact b h
      · exact c h
    have hm : m = (none, e.2) := generate_master_key_failed p label_unicode id key_length kw w hk2 he
    rw [hm]
    exact ⟨rfl, _id_label_exists_error _ _ _ _ _ _ _ he, hge⟩
  -- the key pair
  have hr1 : e1.1 = 1 → r.1 = none ∧
      r.2.pyerr = some ⟨PyExc.IPA_PKCS11DuplicationError,
        ErrMsg.text "Private key with same ID and LABEL already exists"⟩ ∧
      generationCalls r.2.trace = generationCalls w.trace := by
    intro he
    have hr : r = _ :=
      generate_replica_key_pair_private_found p label_unicode id modulus_bits kw_pub kw_priv w he
    rw [hr]
    exact ⟨rfl, rfl, hge1⟩
  have hr2 : e1.1 = -1 → r = (none, e1.2) ∧
      (∃ msg, r.2.pyerr = some ⟨PyExc.IPA_PKCS11Error, msg⟩) ∧
      generationCalls r.2.trace = generationCalls w.trace := by
    intro he
    have hr : r = (none, e1.2) :=
      generate_replica_key_pair_private_failed p label_unicode id modulus_bits kw_pub kw_priv w
        he
    rw [hr]
    exact ⟨rfl, _id_label_exists_error _ _ _ _ _ _ _ he, hge1⟩
  have hr3 : e1.1 = 0 → e2.1 = 1 → r.1 = none ∧
      r.2.pyerr = some ⟨PyExc.IPA_PKCS11DuplicationError,
        ErrMsg.text "Public key with same ID and LABEL already exists"⟩ ∧
      generationCalls r.2.trace = generationCalls w.trace := by
    intro he he'
    have hr : r = _ :=
      generate_replica_key_pair_public_found p label_unicode id modulus_bits kw_pub kw_priv w
        he he'
    rw [hr]
    exact ⟨rfl, rfl, hge2⟩
  have hr4 : e1.1 = 0 → e2.1 = -1 → r = (none, e2.2) ∧
      (∃ msg, r.2.pyerr = some ⟨PyExc.IPA_PKCS11Error, msg⟩) ∧
      generationCalls r.2.trace = generationCalls w.trace := by
    intro he he'
    have hr : r = (none, e2.2) :=
      generate_replica_key_pair_public_failed p label_unicode id modulus_bits kw_pub kw_priv w
        he he'
    rw [hr]
    exact ⟨rfl, _id_label_exists_error _ _ _ _ _ _ _ he', hge2⟩
  refine ⟨?_, fun hk => ⟨hm1 hk, hm2 hk⟩, ?_, hr1, hr2, hr3, hr4⟩
  · intro hne
    by_cases hk : key_length = 16 ∨ key_length = 24 ∨ key_length = 32
    · refine ⟨hk, ?_⟩
      rcases _id_label_exists_values p (some id) id.length u.1 u.2.1 CKO_SECRET_KEY u.2.2 with
        h | h | h
      · exact absurd (hm1 hk h).2.2 hne
      · exact h
      · exact absurd (hm2 hk h).2.2 hne
    · exfalso
      apply hne
      have hk2 : key_length ≠ 16 ∧ key_length ≠ 24 ∧ key_length ≠ 32 :=
        ⟨fun h => hk (Or.inl h), fun h => hk (Or.inr (Or.inl h)),
          fun h => hk (Or.inr (Or.inr h))⟩
      have hm : m = _ := generate_master_key_bad_length p label_unicode id key_length kw w hk2
      rw [hm]
      exact generationCalls_unicode _ _ _
  · intro hne
    rcases _id_label_exists_values p (some id) id.length u.1 u.2.1 CKO_PRIVATE_KEY u.2.2 with
      h | h | h
    · exact absurd (hr1 h).2.2 hne
    · refine ⟨h, ?_⟩
      rcases _id_label_exists_values p (some id) id.length u.1 u.2.1 CKO_PUBLIC_KEY e1.2 with
        h' | h' | h'
      · exact absurd (hr3 h h').2.2 hne
      · exact h'
      · exact absurd (hr4 h h').2.2 hne
    · exact absurd (hr2 h).2.2 hne

/-- Witness of C6 on the reference provider: the token already holds the
private key `L1`/`01`, the private-key check returns `1`, and the second
generation ends with the duplication error and no generation call. -/
theorem generation_only_after_negative_checks_witness :
    (IPA_PKCS11_generate_replica_key_pair SoftToken.p11 labelL1 [1] 2048 noOverrides
      noOverrides (softWorld exampleToken)).1 = none ∧
    (IPA_PKCS11_generate_replica_key_pair SoftToken.p11 labelL1 [1] 2048 noOverrides
      noOverrides (softWorld exampleToken)).2.pyerr =
        some ⟨PyExc.IPA_PKCS11DuplicationError,
          ErrMsg.text "Private key with same ID and LABEL already exists"⟩ ∧
    generationCalls (IPA_PKCS11_generate_replica_key_pair SoftToken.p11 labelL1 [1] 2048
      noOverrides noOverrides (softWorld exampleToken)).2.trace = [] :=
  (generation_only_after_negative_checks SoftToken.p11 labelL1 [1] 16 2048 noOverrides
    noOverrides noOverrides (softWorld exampleToken)).2.2.2.1 rfl

/-! ## The reference provider: proofs -/

theorem SoftToken.matching_ne_nil (s : SoftToken) (template : List CK_ATTRIBUTE)
    (h : ∃ o ∈ s.objects, SoftToken.matchesTemplate template o = true) :
    s.matching template ≠ [] := by
  obtain ⟨o, ho, hm⟩ := h
  unfold SoftToken.matching
  intro hnil
  rw [List.map_eq_nil_iff, List.filter_eq_nil_iff] at hnil
  exact hnil o ho hm

/-- On the reference provider `_id_label_exists` returns `1` as soon as one
stored object carries the three entries of its template. -/
theorem SoftToken.id_label_exists_found (id : Option (List CK_BYTE)) (id_len : CK_ULONG)
    (label : Option (List CK_BYTE)) (label_len : CK_ULONG) (cls : CK_OBJECT_CLASS)
    (w : World SoftToken)
    (h : ∃ o ∈ w.tok.objects, SoftToken.matchesTemplate
      (_id_label_exists_template id id_len label label_len cls) o = true) :
    (_id_label_exists SoftToken.p11 id id_len label label_len cls w).1 = 1 ∧
    (_id_label_exists SoftToken.p11 id id_len label label_len cls w).2.trace =
      w.trace ++ [P11Call.C_FindObjectsInit
        (_id_label_exists_template id id_len label label_len cls),
        P11Call.C_FindObjects, P11Call.C_FindObjectsFinal] ∧
    (_id_label_exists SoftToken.p11 id id_len label label_len cls w).2.tok.objects =
      w.tok.objects := by
  have hne := SoftToken.matching_ne_nil w.tok _ h
  obtain ⟨a, rest, hm⟩ := List.exists_cons_of_ne_nil hne
  have h2 : ((SoftToken.p11).C_FindObjects ((SoftToken.p11).C_FindObjectsInit w.tok
      (_id_label_exists_template id id_len label label_len cls)).2) =
      (CKR_OK, a, 1, { w.tok with search := some rest }) := by
    simp [SoftToken.p11, hm]
  have hok := _id_label_exists_ok SoftToken.p11 id id_len label label_len cls w rfl
    (by rw [h2]) (by rw [h2]; rfl)
  rw [hok, h2]
  refine ⟨by simp, rfl, ?_⟩
  simp [SoftToken.p11]

/-- C5, amended. On a token that already holds the key pair of an identity
(a private and a public object carrying its id and label), a further
`generate_replica_key_pair` call with that label and id returns `NULL` with
the `IPA_PKCS11DuplicationError` raised by the private-key existence check,
which runs first: the three search calls of that check are all that is
logged, so the public-key check is not reached and `C_GenerateKeyPair` is not
called, and the stored objects are unchanged. -/
theorem second_generation_fails_at_private_check (label id : List CK_BYTE)
    (modulus_bits : CK_ULONG) (kw_pub kw_priv : Nat → Option PyObject) (w : World SoftToken)
    (hpriv : ∃ o ∈ w.tok.objects, SoftToken.matchesTemplate
      (_id_label_exists_template (some id) id.length (some label) label.length
        CKO_PRIVATE_KEY) o = true)
    (_hpub : ∃ o ∈ w.tok.objects, SoftToken.matchesTemplate
      (_id_label_exists_template (some id) id.length (some label) label.length
        CKO_PUBLIC_KEY) o = true) :
    (IPA_PKCS11_generate_replica_key_pair SoftToken.p11 ⟨some label⟩ id modulus_bits kw_pub
      kw_priv w).1 = none ∧
    (IPA_PKCS11_generate_replica_key_pair SoftToken.p11 ⟨some label⟩ id modulus_bits kw_pub
      kw_priv w).2.pyerr = some ⟨PyExc.IPA_PKCS11DuplicationError,
        ErrMsg.text "Private key with same ID and LABEL already exists"⟩ ∧
    (IPA_PKCS11_generate_replica_key_pair SoftToken.p11 ⟨some label⟩ id modulus_bits kw_pub
      kw_priv w).2.trace = w.trace ++ [P11Call.C_FindObjectsInit
        (_id_label_exists_template (some id) id.length (some label) label.length
          CKO_PRIVATE_KEY),
        P11Call.C_FindObjects, P11Call.C_FindObjectsFinal] ∧
    (IPA_PKCS11_generate_replica_key_pair SoftToken.p11 ⟨some label⟩ id modulus_bits kw_pub
      kw_priv w).2.tok.objects = w.tok.objects := by
  obtain ⟨h1, h2, h3⟩ := SoftToken.id_label_exists_found (some id) id.length (some label)
    label.length CKO_PRIVATE_KEY w hpriv
  have hr := generate_replica_key_pair_private_found SoftToken.p11 ⟨some label⟩ id modulus_bits
    kw_pub kw_priv w h1
  rw [hr]
  exact ⟨rfl, rfl, h2, h3⟩

/-- Witness of C5 (amended): the second generation with label `L1` and id
`01`, after a first one on an empty token. -/
theorem second_generation_fails_at_private_check_witness :
    (IPA_PKCS11_generate_replica_key_pair SoftToken.p11 labelL1 [1] 2048 noOverrides
      noOverrides afterFirstGeneration).1 = none ∧
    (IPA_PKCS11_generate_replica_key_pair SoftToken.p11 labelL1 [1] 2048 noOverrides
      noOverrides afterFirstGeneration).2.pyerr = some ⟨PyExc.IPA_PKCS11DuplicationError,
        ErrMsg.text "Private key with same ID and LABEL already exists"⟩ :=
  ⟨(second_generation_fails_at_private_check [76, 49] [1] 2048 noOverrides noOverrides
      afterFirstGeneration (by decide) (by decide)).1,
   (second_generation_fails_at_private_check [76, 49] [1] 2048 noOverrides noOverrides
      afterFirstGeneration (by decide) (by decide)).2.1⟩

/-- Counterexample to C5: generate a key pair with label `L1` and id `01` on
an empty token, then call `generate_replica_key_pair` again with the same
label and id.  The second call does not fail with the error of the
public-key check, and no search for a public key is logged by it: it fails
at the private-key check. -/
theorem second_generation_not_at_public_check :
    (IPA_PKCS11_generate_replica_key_pair SoftToken.p11 labelL1 [1] 2048 noOverrides
      noOverrides afterFirstGeneration).2.pyerr ≠ some ⟨PyExc.IPA_PKCS11DuplicationError,
        ErrMsg.text "Public key with same ID and LABEL already exists"⟩ ∧
    P11Call.C_FindObjectsInit
      (_id_label_exists_template (some [1]) 1 (some [76, 49]) 2 CKO_PUBLIC_KEY) ∉
    ((IPA_PKCS11_generate_replica_key_pair SoftToken.p11 labelL1 [1] 2048 noOverrides
      noOverrides afterFirstGeneration).2.trace.drop afterFirstGeneration.trace.length) := by
  decide

/-! ## Public key import and wrapped key import: proofs -/

/-- C4 (what the code does). Whatever the decoded key is,
`import_RSA_public_key` either makes no provider call or makes the single
call `C_CreateObject`, and the template of that call has, in the places of
`CKA_MODULUS` and `CKA_PUBLIC_EXPONENT`, a `NULL` value of length `0`: the
byte strings computed from the key are not in it. -/
theorem import_RSA_public_key_template_has_no_key_material (p : P11 σ) (ssl : OpenSSL)
    (label : Option (List CK_BYTE)) (label_length : CK_ULONG)
    (id : Option (List CK_BYTE)) (id_length : CK_ULONG) (pkey : EVP_PKEY)
    (cka_copyable cka_derive cka_encrypt cka_modifiable cka_private cka_trusted
      cka_verify cka_verify_recover cka_wrap : Option Bool) (w : World σ) :
    (IPA_PKCS11_import_RSA_public_key p ssl label label_length id id_length pkey
      cka_copyable cka_derive cka_encrypt cka_modifiable cka_private cka_trusted cka_verify
      cka_verify_recover cka_wrap w).2.trace = w.trace ∨
    ∃ t, (IPA_PKCS11_import_RSA_public_key p ssl label label_length id id_length pkey
        cka_copyable cka_derive cka_encrypt cka_modifiable cka_private cka_trusted cka_verify
        cka_verify_recover cka_wrap w).2.trace = w.trace ++ [P11Call.C_CreateObject t] ∧
      t[5]? = some ⟨CKA_MODULUS, PValue.null, 0⟩ ∧
      t[6]? = some ⟨CKA_PUBLIC_EXPONENT, PValue.null, 0⟩ := by
  unfold IPA_PKCS11_import_RSA_public_key
  dsimp only
  by_cases ht : pkey.type ≠ EVP_PKEY_RSA
  · rw [if_pos ht]
    left; rfl
  · rw [if_neg ht]
    cases hr : ssl.EVP_PKEY_get1_RSA pkey with
    | none => left; rfl
    | some rsa =>
      dsimp only
      by_cases ha1 : (w.alloc).1 = true
      · by_cases ha2 : ((w.alloc).2.alloc).1 = true
        · right
          refine ⟨import_RSA_public_key_template label label_length id id_length none 0 none 0
            cka_derive cka_encrypt cka_modifiable cka_private cka_trusted cka_verify
            cka_verify_recover cka_wrap, ?_, rfl, rfl⟩
          simp only [ha1, ha2, if_true]
          rw [if_neg (by simp), if_neg (by simp)]
          split <;> simp [check_return_value_trace, World.createObject, alloc_trace]
        · left
          simp only [ha1, ha2, if_true]
          rw [if_neg (by simp)]
          simp [World.PyErr_SetString, alloc_trace]
      · left
        simp only [ha1]
        simp [World.PyErr_SetString, alloc_trace]

/-- C8 (what the code does). `import_wrapped_private_key` opens its existence
check with the class `CKO_SECRET_KEY`, and every `C_UnwrapKey` call it makes
carries `CKO_SECRET_KEY` in the `CKA_CLASS` entry of its template. -/
theorem import_wrapped_private_key_uses_secret_class (p : P11 σ)
    (label_unicode : PyUnicodeObject) (id : List CK_BYTE) (wrapped_key : List CK_BYTE)
    (unwrapping_key_object : CK_ULONG) (wrapping_mech_type : CK_MECHANISM_TYPE)
    (key_type : CK_KEY_TYPE) (kw : Nat → Option PyObject) (w : World σ) :
    ∃ rest, (IPA_PKCS11_import_wrapped_private_key p label_unicode id wrapped_key
        unwrapping_key_object wrapping_mech_type key_type kw w).2.trace =
        w.trace ++ P11Call.C_FindObjectsInit
          (_id_label_exists_template (some id) id.length
            (unicode_to_char_array label_unicode 0 w).1
            (unicode_to_char_array label_unicode 0 w).2.1 CKO_SECRET_KEY) :: rest ∧
      ∀ c ∈ rest, isSearchCall c = true ∨
        ∃ m k wr len t, c = P11Call.C_UnwrapKey m k wr len t ∧
          t[0]? = some ⟨CKA_CLASS, PValue.ulong CKO_SECRET_KEY, sizeof_CK_ULONG⟩ := by
  obtain ⟨l, hl, hs⟩ := _id_label_exists_trace p (some id) id.length
    (unicode_to_char_array label_unicode 0 w).1 (unicode_to_char_array label_unicode 0 w).2.1
    CKO_SECRET_KEY (unicode_to_char_array label_unicode 0 w).2.2
  rw [unicode_to_char_array_trace] at hl
  unfold IPA_PKCS11_import_wrapped_private_key
  dsimp only
  split
  · exact ⟨l, by simpa [World.PyErr_SetString] using hl, fun c hc => Or.inl (hs c hc)⟩
  · split
    · exact ⟨l, hl, fun c hc => Or.inl (hs c hc)⟩
    · refine ⟨l ++ [P11Call.C_UnwrapKey ⟨wrapping_mech_type, PValue.null, 0⟩
        unwrapping_key_object wrapped_key wrapped_key.length
        (import_wrapped_private_key_template CKO_SECRET_KEY key_type (some id) id.length
          (unicode_to_char_array label_unicode 0 w).1
          (unicode_to_char_array label_unicode 0 w).2.1
          (convert_py2bool (import_wrapped_private_key_attrs_priv kw) 12))], ?_, ?_⟩
      · split <;> simp [check_return_value_trace, World.unwrapKey, hl]
      · intro c hc
        rw [List.mem_append] at hc
        rcases hc with hc | hc
        · exact Or.inl (hs c hc)
        · right
          rw [List.mem_singleton] at hc
          exact ⟨_, _, _, _, _, hc, rfl⟩

/-- C3 (what the code does), on the reference provider and codec.  The
public key with handle `1` has modulus `c7 3b` and exponent `01 00 01`.
`export_public_key` returns its DER encoding, which decodes to that key;
`import_public_key` of these bytes under the fresh identity `L2`/`09` creates
the object `4`, whose `CKA_MODULUS` and `CKA_PUBLIC_EXPONENT` are `NULL` of
length `0`, not the bytes of the exported key. -/
theorem export_import_loses_key_material :
    SoftToken.attributeOf exampleToken 1 CKA_MODULUS =
      some ⟨CKA_MODULUS, PValue.bytes [0xc7, 0x3b], 2⟩ ∧
    SoftToken.attributeOf exampleToken 1 CKA_PUBLIC_EXPONENT =
      some ⟨CKA_PUBLIC_EXPONENT, PValue.bytes [1, 0, 1], 3⟩ ∧
    exportedExample.1 = some (PyObject.pyStr (derSubjectPublicKeyInfo ⟨0xc73b, 65537⟩)) ∧
    derDecode (derSubjectPublicKeyInfo ⟨0xc73b, 65537⟩) =
      some ⟨EVP_PKEY_RSA, some ⟨0xc73b, 65537⟩⟩ ∧
    roundTripExample.1 = some (PyObject.pyInt 4) ∧
    SoftToken.attributeOf roundTripExample.2.tok 4 CKA_MODULUS =
      some ⟨CKA_MODULUS, PValue.null, 0⟩ ∧
    SoftToken.attributeOf roundTripExample.2.tok 4 CKA_PUBLIC_EXPONENT =
      some ⟨CKA_PUBLIC_EXPONENT, PValue.null, 0⟩ := by
  refine ⟨by decide, by decide, by decide, by decide, by decide, by decide, by decide⟩

/-! ## Default values and the private-key template -/

/-- Counterexample to C11: with no overrides, the private-key vector of
`generate_replica_key_pair` has extractable = false, and the public-key
vector of `import_public_key` has verify = true and wrap = false. -/
theorem default_vectors_not_uniform :
    ¬ (attrBoolPtr (convert_py2bool (generate_replica_key_pair_attrs_priv noOverrides) 12)
        priv_en_cka_extractable = some true) ∧
    ¬ (attrBoolPtr (convert_py2bool (import_public_key_attrs_pub noOverrides) 9)
        pub_en_cka_verify = some false) ∧
    ¬ (attrBoolPtr (convert_py2bool (import_public_key_attrs_pub noOverrides) 9)
        pub_en_cka_wrap = some true) := by
  decide

/-- C11, amended. With no overrides: both private-key vectors the program
builds (`generate_replica_key_pair`, `import_wrapped_private_key`) have
sensitive = true and modifiable = true, while extractable is false in
`generate_replica_key_pair` and true in `import_wrapped_private_key`; both
public-key vectors (`generate_replica_key_pair`, `import_public_key`) have
encrypt = false, while verify = false and wrap = true hold in
`generate_replica_key_pair`, and verify = true and wrap = false in
`import_public_key`. -/
theorem default_vectors :
    (attrBoolPtr (convert_py2bool (generate_replica_key_pair_attrs_priv noOverrides) 12)
        priv_en_cka_sensitive = some true ∧
      attrBoolPtr (convert_py2bool (generate_replica_key_pair_attrs_priv noOverrides) 12)
        priv_en_cka_modifiable = some true ∧
      attrBoolPtr (convert_py2bool (generate_replica_key_pair_attrs_priv noOverrides) 12)
        priv_en_cka_extractable = some false) ∧
    (attrBoolPtr (convert_py2bool (import_wrapped_private_key_attrs_priv noOverrides) 12)
        priv_en_cka_sensitive = some true ∧
      attrBoolPtr (convert_py2bool (import_wrapped_private_key_attrs_priv noOverrides) 12)
        priv_en_cka_modifiable = some true ∧
      attrBoolPtr (convert_py2bool (import_wrapped_private_key_attrs_priv noOverrides) 12)
        priv_en_cka_extractable = some true) ∧
    (attrBoolPtr (convert_py2bool (generate_replica_key_pair_attrs_pub noOverrides) 9)
        pub_en_cka_encrypt = some false ∧
      attrBoolPtr (convert_py2bool (generate_replica_key_pair_attrs_pub noOverrides) 9)
        pub_en_cka_verify = some false ∧
      attrBoolPtr (convert_py2bool (generate_replica_key_pair_attrs_pub noOverrides) 9)
        pub_en_cka_wrap = some true) ∧
    (attrBoolPtr (convert_py2bool (import_public_key_attrs_pub noOverrides) 9)
        pub_en_cka_encrypt = some false ∧
      attrBoolPtr (convert_py2bool (import_public_key_attrs_pub noOverrides) 9)
        pub_en_cka_verify = some true ∧
      attrBoolPtr (convert_py2bool (import_public_key_attrs_pub noOverrides) 9)
        pub_en_cka_wrap = some false) := by
  decide

/-- C12 (what the code does). In both private-key templates the
`CKA_SIGN_RECOVER` entry is filled from position `priv_en_cka_sign` of the
vector, for every vector.  With the single override `priv_cka_sign_recover =
True` the vector of `generate_replica_key_pair` has sign_recover = true, and
the call on the reference provider hands `C_GenerateKeyPair` a private-key
template whose `CKA_SIGN_RECOVER` entry is false. -/
theorem sign_recover_entry_follows_sign :
    (∀ id id_length label label_length attrs_priv,
      (generate_replica_key_pair_privateKeyTemplate id id_length label label_length
        attrs_priv)[11]? =
        some ⟨CKA_SIGN_RECOVER, attrBool attrs_priv priv_en_cka_sign, sizeof_CK_BBOOL⟩) ∧
    (∀ key_class key_type id id_length label label_length attrs_priv,
      (import_wrapped_private_key_template key_class key_type id id_length label label_length
        attrs_priv)[13]? =
        some ⟨CKA_SIGN_RECOVER, attrBool attrs_priv priv_en_cka_sign, sizeof_CK_BBOOL⟩) ∧
    attrBoolPtr (convert_py2bool (generate_replica_key_pair_attrs_priv onlySignRecover) 12)
      priv_en_cka_sign_recover = some true ∧
    (IPA_PKCS11_generate_replica_key_pair SoftToken.p11 labelL2 [7] 2048 noOverrides
      onlySignRecover (softWorld exampleToken)).2.trace.getLast? =
      some (P11Call.C_GenerateKeyPair ⟨CKM_RSA_PKCS_KEY_PAIR_GEN, PValue.null, 0⟩
        (generate_replica_key_pair_publicKeyTemplate (some [7]) 1 (some [76, 50]) 2 2048
          (convert_py2bool (generate_replica_key_pair_attrs_pub noOverrides) 9))
        (generate_replica_key_pair_privateKeyTemplate (some [7]) 1 (some [76, 50]) 2
          (convert_py2bool (generate_replica_key_pair_attrs_priv onlySignRecover) 12))) ∧
    (⟨CKA_SIGN_RECOVER, PValue.bbool false, sizeof_CK_BBOOL⟩ : CK_ATTRIBUTE) ∈
      generate_replica_key_pair_privateKeyTemplate (some [7]) 1 (some [76, 50]) 2
        (convert_py2bool (generate_replica_key_pair_attrs_priv onlySignRecover) 12) := by
  refine ⟨fun _ _ _ _ _ => rfl, fun _ _ _ _ _ _ _ => rfl, by decide, by decide, by decide⟩

/-! ## The existence check: its three outcomes -/

/-- The return value of `_id_label_exists` in terms of the three statuses. -/
theorem _id_label_exists_fst (p : P11 σ) (id : Option (List CK_BYTE)) (id_len : CK_ULONG)
    (label : Option (List CK_BYTE)) (label_len : CK_ULONG) (cls : CK_OBJECT_CLASS)
    (w : World σ) :
    (_id_label_exists p id id_len label label_len cls w).1 =
      if (p.C_FindObjectsInit w.tok
          (_id_label_exists_template id id_len label label_len cls)).1 = CKR_OK ∧
        (p.C_FindObjects (p.C_FindObjectsInit w.tok
          (_id_label_exists_template id id_len label label_len cls)).2).1 = CKR_OK ∧
        (p.C_FindObjectsFinal (p.C_FindObjects (p.C_FindObjectsInit w.tok
          (_id_label_exists_template id id_len label label_len cls)).2).2.2.2).1 = CKR_OK
      then
        (if (p.C_FindObjects (p.C_FindObjectsInit w.tok
          (_id_label_exists_template id id_len label label_len cls)).2).2.2.1 = 0
          then 0 else 1)
      else -1 := by
  by_cases h1 : (p.C_FindObjectsInit w.tok
      (_id_label_exists_template id id_len label label_len cls)).1 = CKR_OK
  · by_cases h2 : (p.C_FindObjects (p.C_FindObjectsInit w.tok
        (_id_label_exists_template id id_len label label_len cls)).2).1 = CKR_OK
    · by_cases h3 : (p.C_FindObjectsFinal (p.C_FindObjects (p.C_FindObjectsInit w.tok
          (_id_label_exists_template id id_len label label_len cls)).2).2.2.2).1 = CKR_OK
      · rw [_id_label_exists_ok p id id_len label label_len cls w h1 h2 h3]
        simp only [h1, h2, h3, and_self, if_true]
      · simp only [h1, h2, h3, and_false, if_false]
        unfold _id_label_exists
        simp only [World.findObjectsInit, World.findObjects, World.findObjectsFinal]
        rw [h1]
        simp only [check_return_value_ok]
        rw [h2]
        simp only [check_return_value_ok]
        simp [check_return_value_fst, h3]
    · simp only [h1, h2, false_and, and_false, if_false]
      unfold _id_label_exists
      simp only [World.findObjectsInit, World.findObjects, World.findObjectsFinal]
      rw [h1]
      simp only [check_return_value_ok]
      simp [check_return_value_fst, h2]
  · simp only [h1, false_and, if_false]
    unfold _id_label_exists
    simp only [World.findObjectsInit, World.findObjects, World.findObjectsFinal]
    simp [check_return_value_fst, h1]

/-- C13. `_id_label_exists` is tri-state.  It returns `-1` exactly when one
of the provider calls it makes returns a status other than `CKR_OK` (the
search init; after it the find; after both the search final), and then an
`IPA_PKCS11Error` is set.  When the three calls succeed it returns `1` if
the provider delivered an object and `0` if it delivered none, with the
error indicator untouched.  A `0` is returned only when all three calls
succeeded and nothing was delivered. -/
theorem id_label_exists_tri_state (p : P11 σ) (id : Option (List CK_BYTE))
    (id_len : CK_ULONG) (label : Option (List CK_BYTE)) (label_len : CK_ULONG)
    (cls : CK_OBJECT_CLASS) (w : World σ) :
    let i := p.C_FindObjectsInit w.tok (_id_label_exists_template id id_len label label_len cls)
    let f := p.C_FindObjects i.2
    let e := p.C_FindObjectsFinal f.2.2.2
    let r := _id_label_exists p id id_len label label_len cls w
    (r.1 = -1 ↔ (i.1 ≠ CKR_OK ∨ (i.1 = CKR_OK ∧ f.1 ≠ CKR_OK) ∨
      (i.1 = CKR_OK ∧ f.1 = CKR_OK ∧ e.1 ≠ CKR_OK))) ∧
    (r.1 = -1 → ∃ msg, r.2.pyerr = some ⟨PyExc.IPA_PKCS11Error, msg⟩) ∧
    (i.1 = CKR_OK ∧ f.1 = CKR_OK ∧ e.1 = CKR_OK →
      r.1 = (if f.2.2.1 = 0 then 0 else 1) ∧ r.2.pyerr = w.pyerr) ∧
    (r.1 = 0 → i.1 = CKR_OK ∧ f.1 = CKR_OK ∧ e.1 = CKR_OK ∧ f.2.2.1 = 0) := by
  intro i f e r
  have hr : r.1 = if i.1 = CKR_OK ∧ f.1 = CKR_OK ∧ e.1 = CKR_OK then
      (if f.2.2.1 = 0 then 0 else 1) else -1 :=
    _id_label_exists_fst p id id_len label label_len cls w
  refine ⟨?_, ?_, ?_, ?_⟩
  · rw [hr]
    by_cases h : i.1 = CKR_OK ∧ f.1 = CKR_OK ∧ e.1 = CKR_OK
    · rw [if_pos h]
      constructor
      · intro h0
        split at h0 <;> simp at h0
      · rintro (h1 | h1 | h1)
        · exact absurd h.1 h1
        · exact absurd h.2.1 h1.2
        · exact absurd h.2.2 h1.2.2
    · rw [if_neg h]
      refine ⟨fun _ => ?_, fun _ => rfl⟩
      by_cases h1 : i.1 = CKR_OK
      · by_cases h2 : f.1 = CKR_OK
        · exact Or.inr (Or.inr ⟨h1, h2, fun h3 => h ⟨h1, h2, h3⟩⟩)
        · exact Or.inr (Or.inl ⟨h1, h2⟩)
      · exact Or.inl h1
  · exact _id_label_exists_error p id id_len label label_len cls w
  · intro h
    refine ⟨by rw [hr, if_pos h], ?_⟩
    have := _id_label_exists_ok p id id_len label label_len cls w h.1 h.2.1 h.2.2
    show (_id_label_exists p id id_len label label_len cls w).2.pyerr = w.pyerr
    rw [this]
  · intro h0
    rw [hr] at h0
    by_cases h : i.1 = CKR_OK ∧ f.1 = CKR_OK ∧ e.1 = CKR_OK
    · rw [if_pos h] at h0
      refine ⟨h.1, h.2.1, h.2.2, ?_⟩
      by_contra hc
      rw [if_neg hc] at h0
      simp at h0
    · rw [if_neg h] at h0
      simp at h0

/-- On the reference provider `_id_label_exists` returns `1` when some stored
object carries the three entries of its template, and `0` otherwise. -/
theorem SoftToken.id_label_exists_fst (id : Option (List CK_BYTE)) (id_len : CK_ULONG)
    (label : Option (List CK_BYTE)) (label_len : CK_ULONG) (cls : CK_OBJECT_CLASS)
    (w : World SoftToken) :
    (_id_label_exists SoftToken.p11 id id_len label label_len cls w).1 =
      if w.tok.matching (_id_label_exists_template id id_len label label_len cls) = []
      then 0 else 1 := by
  rw [_id_label_exists_fst]
  cases hm : w.tok.matching (_id_label_exists_template id id_len label label_len cls) with
  | nil => simp [SoftToken.p11, hm]
  | cons a rest => simp [SoftToken.p11, hm]

theorem SoftToken.matching_eq_nil_iff (s : SoftToken) (template : List CK_ATTRIBUTE) :
    s.matching template = [] ↔
      ∀ o ∈ s.objects, SoftToken.matchesTemplate template o = false := by
  unfold SoftToken.matching
  rw [List.map_eq_nil_iff, List.filter_eq_nil_iff]
  constructor
  · intro h o ho
    simpa using h o ho
  · intro h o ho
    simp [h o ho]

/-- C14. On the reference provider (a search yields only objects that carry
every entry of the search template), `_id_label_exists` returns `1` exactly
when a stored object carries the three entries of its template; so a `1`
means that the token holds an object with the queried class, id and label,
and when no stored object has the queried class the result is `0`, whatever
ids and labels the stored objects have. -/
theorem id_label_exists_respects_class (id : Option (List CK_BYTE)) (id_len : CK_ULONG)
    (label : Option (List CK_BYTE)) (label_len : CK_ULONG) (cls : CK_OBJECT_CLASS)
    (w : World SoftToken) :
    ((_id_label_exists SoftToken.p11 id id_len label label_len cls w).1 = 1 ↔
      ∃ o ∈ w.tok.objects, SoftToken.matchesTemplate
        (_id_label_exists_template id id_len label label_len cls) o = true) ∧
    ((_id_label_exists SoftToken.p11 id id_len label label_len cls w).1 = 1 →
      ∃ o ∈ w.tok.objects,
        (⟨CKA_CLASS, PValue.ulong cls, sizeof_CK_ULONG⟩ : CK_ATTRIBUTE) ∈ o.attrs ∧
        (⟨CKA_ID, bytePtr id, id_len⟩ : CK_ATTRIBUTE) ∈ o.attrs ∧
        (⟨CKA_LABEL, bytePtr label, label_len⟩ : CK_ATTRIBUTE) ∈ o.attrs) ∧
    ((∀ o ∈ w.tok.objects,
        (⟨CKA_CLASS, PValue.ulong cls, sizeof_CK_ULONG⟩ : CK_ATTRIBUTE) ∉ o.attrs) →
      (_id_label_exists SoftToken.p11 id id_len label label_len cls w).1 = 0) := by
  have hiff : (_id_label_exists SoftToken.p11 id id_len label label_len cls w).1 = 1 ↔
      ∃ o ∈ w.tok.objects, SoftToken.matchesTemplate
        (_id_label_exists_template id id_len label label_len cls) o = true := by
    rw [SoftToken.id_label_exists_fst]
    constructor
    · intro h
      by_contra hne
      have hnil : w.tok.matching
          (_id_label_exists_template id id_len label label_len cls) = [] := by
        rw [SoftToken.matching_eq_nil_iff]
        intro o ho
        by_contra hc
        exact hne ⟨o, ho, by simpa using hc⟩
      rw [if_pos hnil] at h
      simp at h
    · intro h
      rw [if_neg (SoftToken.matching_ne_nil _ _ h)]
  have hattrs : ∀ o : TokenObject, SoftToken.matchesTemplate
      (_id_label_exists_template id id_len label label_len cls) o = true →
      (⟨CKA_CLASS, PValue.ulong cls, sizeof_CK_ULONG⟩ : CK_ATTRIBUTE) ∈ o.attrs ∧
      (⟨CKA_ID, bytePtr id, id_len⟩ : CK_ATTRIBUTE) ∈ o.attrs ∧
      (⟨CKA_LABEL, bytePtr label, label_len⟩ : CK_ATTRIBUTE) ∈ o.attrs := by
    intro o ho
    simp only [SoftToken.matchesTemplate, _id_label_exists_template, List.all_cons,
      List.all_nil, Bool.and_true, Bool.and_eq_true, decide_eq_true_eq] at ho
    exact ⟨ho.2.2, ho.1, ho.2.1⟩
  refine ⟨hiff, ?_, ?_⟩
  · intro h
    obtain ⟨o, ho, hm⟩ := hiff.mp h
    exact ⟨o, ho, hattrs o hm⟩
  · intro hno
    rw [SoftToken.id_label_exists_fst]
    rw [if_pos]
    rw [SoftToken.matching_eq_nil_iff]
    intro o ho
    by_contra hc
    have hm : SoftToken.matchesTemplate
        (_id_label_exists_template id id_len label label_len cls) o = true := by
      simpa using hc
    exact hno o ho (hattrs o hm).1

/-- Witness of C14: the example token holds a public key with id `02` and
label `L1` and no private key with that id; the query for the private key
`02`/`L1` does not return `1`. -/
theorem id_label_exists_respects_class_witness :
    ¬ ((_id_label_exists SoftToken.p11 (some [2]) 1 (some [76, 49]) 2 CKO_PRIVATE_KEY
      (softWorld exampleToken)).1 = 1) := by
  intro h
  have := (id_label_exists_respects_class (some [2]) 1 (some [76, 49]) 2 CKO_PRIVATE_KEY
    (softWorld exampleToken)).1.mp h
  revert this
  decide

/-! ## The search of `_find_key`: template and calls -/

theorem _find_key_grow_trace (result_objects : Option (List CK_OBJECT_HANDLE))
    (count allocated : Nat) (w : World σ) (buf : Option (List CK_OBJECT_HANDLE))
    (allocated1 : Nat) (w1 : World σ)
    (h : _find_key_grow result_objects count allocated w = some (buf, allocated1, w1)) :
    w1.trace = w.trace ∧ w1.tok = w.tok ∧ w1.pyerr = w.pyerr := by
  unfold _find_key_grow at h
  split at h
  · dsimp only at h
    split at h
    · simp at h
    · simp only [Option.some.injEq, Prod.mk.injEq] at h
      obtain ⟨_, _, h3⟩ := h
      subst h3
      exact ⟨alloc_trace w, alloc_tok w, alloc_pyerr w⟩
  · simp only [Option.some.injEq, Prod.mk.injEq] at h
    obtain ⟨_, _, h3⟩ := h
    subst h3
    exact ⟨rfl, rfl, rfl⟩

theorem _find_key_finish_trace (p : P11 σ) (objects0 : Option (List CK_OBJECT_HANDLE))
    (objects_count0 : Nat) (result_objects : Option (List CK_OBJECT_HANDLE))
    (count : Nat) (w : World σ) :
    (_find_key_finish p objects0 objects_count0 result_objects count w).2.trace =
      w.trace ++ [P11Call.C_FindObjectsFinal] := by
  unfold _find_key_finish
  dsimp only
  split <;> simp [check_return_value_trace, World.findObjectsFinal]

/-- Whatever the provider does, the loop of `_find_key` logs only
`C_FindObjects` and `C_FindObjectsFinal` calls. -/
theorem _find_key_loop_trace (p : P11 σ) (objects0 : Option (List CK_OBJECT_HANDLE))
    (objects_count0 : Nat) :
    ∀ (fuel : Nat) (result_object : CK_OBJECT_HANDLE) (objectCount : CK_ULONG)
      (result_objects : Option (List CK_OBJECT_HANDLE)) (count allocated : Nat)
      (w : World σ) (r : FindKeyRet) (w1 : World σ),
      _find_key_loop p objects0 objects_count0 fuel result_object objectCount result_objects
        count allocated w = some (r, w1) →
      ∃ rest, w1.trace = w.trace ++ rest ∧
        ∀ c ∈ rest, c = P11Call.C_FindObjects ∨ c = P11Call.C_FindObjectsFinal := by
  intro fuel
  induction fuel with
  | zero =>
    intro result_object objectCount result_objects count allocated w r w1 h
    unfold _find_key_loop at h
    split at h
    · simp at h
    · simp only [Option.some.injEq] at h
      refine ⟨[P11Call.C_FindObjectsFinal], ?_, by simp⟩
      have h2 : (_find_key_finish p objects0 objects_count0 result_objects count w).2 = w1 := by
        rw [h]
      rw [← h2]
      exact _find_key_finish_trace _ _ _ _ _ _
  | succ fuel ih =>
    intro result_object objectCount result_objects count allocated w r w1 h
    unfold _find_key_loop at h
    split at h
    · split at h
      · simp only [Option.some.injEq, Prod.mk.injEq] at h
        refine ⟨[], ?_, by simp⟩
        rw [← h.2]
        simp [World.PyErr_SetString, alloc_trace]
      · next buf allocated1 wg hg =>
        obtain ⟨hgt, _, _⟩ := _find_key_grow_trace _ _ _ _ _ _ _ hg
        dsimp only at h
        split at h
        · simp only [Option.some.injEq, Prod.mk.injEq] at h
          refine ⟨[P11Call.C_FindObjects], ?_, by simp⟩
          rw [← h.2]
          simp [check_return_value_trace, World.findObjects, hgt]
        · obtain ⟨rest, hrest, hall⟩ := ih _ _ _ _ _ _ _ _ h
          refine ⟨P11Call.C_FindObjects :: rest, ?_, ?_⟩
          · rw [hrest]
            simp [check_return_value_trace, World.findObjects, hgt]
          · intro c hc
            rw [List.mem_cons] at hc
            rcases hc with hc | hc
            · exact Or.inl hc
            · exact hall c hc
    · simp only [Option.some.injEq] at h
      refine ⟨[P11Call.C_FindObjectsFinal], ?_, by simp⟩
      have h2 : (_find_key_finish p objects0 objects_count0 result_objects count w).2 = w1 := by
        rw [h]
      rw [← h2]
      exact _find_key_finish_trace _ _ _ _ _ _

/-- Whenever `_find_key` returns, its log is the old one, then
`C_FindObjectsInit` with the template, then enumeration and final calls. -/
theorem _find_key_trace (p : P11 σ) (id : Option (List CK_BYTE)) (id_len : CK_ULONG)
    (label : Option (List CK_BYTE)) (label_len : CK_ULONG) (cls : CK_OBJECT_CLASS)
    (cka_wrap cka_unwrap : Option Bool) (objects0 : Option (List CK_OBJECT_HANDLE))
    (objects_count0 : Nat) (fuel : Nat) (w : World σ) (r : FindKeyRet) (w1 : World σ)
    (h : _find_key p id id_len label label_len cls cka_wrap cka_unwrap objects0
      objects_count0 fuel w = some (r, w1)) :
    ∃ rest, w1.trace = w.trace ++ P11Call.C_FindObjectsInit
        (_find_key_template id id_len label label_len cls cka_wrap cka_unwrap) :: rest ∧
      ∀ c ∈ rest, c = P11Call.C_FindObjects ∨ c = P11Call.C_FindObjectsFinal := by
  unfold _find_key at h
  dsimp only at h
  split at h
  · simp only [Option.some.injEq, Prod.mk.injEq] at h
    refine ⟨[], ?_, by simp⟩
    rw [← h.2]
    simp [check_return_value_trace, World.findObjectsInit]
  · split at h
    · simp only [Option.some.injEq, Prod.mk.injEq] at h
      refine ⟨[P11Call.C_FindObjects], ?_, by simp⟩
      rw [← h.2]
      simp [check_return_value_trace, World.findObjectsInit, World.findObjects]
    · obtain ⟨rest, hrest, hall⟩ := _find_key_loop_trace _ _ _ _ _ _ _ _ _ _ _ _ h
      refine ⟨P11Call.C_FindObjects :: rest, ?_, ?_⟩
      · rw [hrest]
        simp [check_return_value_trace, World.findObjectsInit, World.findObjects]
      · intro c hc
        rw [List.mem_cons] at hc
        rcases hc with hc | hc
        · exact Or.inl hc
        · exact hall c hc

/-! ## The object locator: failing calls -/

theorem check_return_value_fail (rv : CK_RV) (message : String) (w : World σ)
    (h : rv ≠ CKR_OK) (ha : AllocOK w) :
    check_return_value rv message w =
      (0, (w.alloc).2.PyErr_SetString PyExc.IPA_PKCS11Error
        (ErrMsg.errorAt message (rv % 2 ^ 32))) := by
  unfold check_return_value
  rw [if_pos h]
  simp [alloc_ok_fst w ha]

theorem _find_key_grow_ok (result_objects : Option (List CK_OBJECT_HANDLE))
    (count allocated : Nat) (w : World σ) (acc : List CK_OBJECT_HANDLE)
    (hacc : result_objects.getD [] = acc) (ha : AllocOK w) :
    ∃ buf allocated1 w1,
      _find_key_grow result_objects count allocated w = some (buf, allocated1, w1) ∧
      buf.getD [] = acc ∧ w1.tok = w.tok ∧ w1.trace = w.trace ∧ w1.pyerr = w.pyerr ∧
      AllocOK w1 := by
  unfold _find_key_grow
  by_cases hle : allocated ≤ count
  · refine ⟨some (result_objects.getD []), (allocated + 32) % 2 ^ 32, (w.alloc).2, ?_,
      by simpa using hacc, alloc_tok w, alloc_trace w, alloc_pyerr w, alloc_ok_snd w ha⟩
    simp [hle, alloc_ok_fst w ha]
  · exact ⟨result_objects, allocated, w, by simp [hle], hacc, rfl, rfl, rfl, ha⟩

/-- The loop of `_find_key`, holding the answer to the last `C_FindObjects`
call, when the provider delivers the handles `rest` next and then fails: it
returns `0`, leaves the caller's variables alone, logs the `C_FindObjects`
calls up to the failing one and nothing after it. -/
theorem _find_key_loop_find_fails (p : P11 σ) (objects0 : Option (List CK_OBJECT_HANDLE))
    (objects_count0 : Nat) (s1 : σ) (rest : List CK_OBJECT_HANDLE) :
    ∀ (fuel : Nat) (result_object : CK_OBJECT_HANDLE) (objectCount : CK_ULONG)
      (result_objects : Option (List CK_OBJECT_HANDLE)) (acc : List CK_OBJECT_HANDLE)
      (allocated : Nat) (w : World σ),
      result_objects.getD [] = acc →
      0 < objectCount →
      Delivers p w.tok rest s1 →
      (p.C_FindObjects s1).1 ≠ CKR_OK →
      AllocOK w →
      acc.length + rest.length + 1 < 2 ^ 32 →
      rest.length + 1 ≤ fuel →
      ∃ w1, _find_key_loop p objects0 objects_count0 fuel result_object objectCount
            result_objects acc.length allocated w =
          some (⟨0, objects0, objects_count0⟩, w1) ∧
        w1.tok = (p.C_FindObjects s1).2.2.2 ∧
        w1.trace = w.trace ++ List.replicate (rest.length + 1) P11Call.C_FindObjects ∧
        w1.pyerr = some ⟨PyExc.IPA_PKCS11Error,
          ErrMsg.errorAt "Check for duplicated key" ((p.C_FindObjects s1).1 % 2 ^ 32)⟩ := by
  induction rest with
  | nil =>
    intro fuel result_object objectCount result_objects acc allocated w hacc hc hd hf ha _ hfuel
    have hs : w.tok = s1 := hd
    subst hs
    cases fuel with
    | zero => simp at hfuel
    | succ fuel =>
      obtain ⟨buf, allocated1, w1, hg, hbuf, hw1tok, hw1trace, hw1err, hw1ok⟩ :=
        _find_key_grow_ok result_objects acc.length allocated w acc hacc ha
      have hok2 : AllocOK (w1.findObjects p).2.2.2 := hw1ok
      have hf2 : (w1.findObjects p).1 ≠ CKR_OK := by
        simp only [World.findObjects, hw1tok]
        exact hf
      have hv : (w1.findObjects p).1 = (p.C_FindObjects w.tok).1 := by
        simp only [World.findObjects, hw1tok]
      refine ⟨((w1.findObjects p).2.2.2.alloc).2.PyErr_SetString PyExc.IPA_PKCS11Error
        (ErrMsg.errorAt "Check for duplicated key" ((p.C_FindObjects w.tok).1 % 2 ^ 32)),
        ?_, ?_, ?_, ?_⟩
      · simp only [_find_key_loop, hc, if_true, hg]
        rw [check_return_value_fail _ _ _ hf2 hok2, hv]
        simp only [if_true]
      · simp [World.PyErr_SetString, alloc_tok, World.findObjects, hw1tok]
      · simp [World.PyErr_SetString, alloc_trace, World.findObjects, hw1trace]
      · simp [World.PyErr_SetString]
  | cons h2 rest2 ih =>
    intro fuel result_object objectCount result_objects acc allocated w hacc hc hd hf ha hlen
      hfuel
    obtain ⟨hd1, _, hd3, hd4⟩ := hd
    cases fuel with
    | zero => simp at hfuel
    | succ fuel =>
      obtain ⟨buf, allocated1, w1, hg, hbuf, hw1tok, hw1trace, hw1err, hw1ok⟩ :=
        _find_key_grow_ok result_objects acc.length allocated w acc hacc ha
      have hlen1 : (acc.length + 1) % 2 ^ 32 = (acc ++ [result_object]).length := by
        simp only [List.length_append, List.length_singleton]
        apply Nat.mod_eq_of_lt
        simp only [List.length_cons] at hlen
        omega
      obtain ⟨w2, h2, h2tok, h2trace, h2err⟩ :=
        ih fuel (p.C_FindObjects w1.tok).2.1 (p.C_FindObjects w1.tok).2.2.1
          (some (acc ++ [result_object])) (acc ++ [result_object]) allocated1
          { w1 with tok := (p.C_FindObjects w1.tok).2.2.2,
                    trace := w1.trace ++ [P11Call.C_FindObjects] }
          rfl (by rw [hw1tok]; exact hd3) (by rw [hw1tok]; exact hd4) hf hw1ok
          (by simp only [List.length_append, List.length_cons, List.length_nil]
              simp only [List.length_cons] at hlen
              omega)
          (by simp only [List.length_cons] at hfuel ⊢; omega)
      refine ⟨w2, ?_, h2tok, ?_, h2err⟩
      · simp only [_find_key_loop, hc, if_true, hg, hbuf, storeAt_length, World.findObjects,
          hw1tok, hd1, check_return_value_ok, hlen1]
        simp only [hw1tok] at h2
        simpa using h2
      · rw [h2trace]
        simp [hw1trace, List.replicate_succ]

/-- The loop of `_find_key` under a provider that delivers the handles
`pending` (the one held included) and then an empty answer: the loop is left
through its condition, with `acc ++ pending` stored, and what is returned is
what the tail of the function makes of it. -/
theorem _find_key_loop_reaches_finish (p : P11 σ)
    (objects0 : Option (List CK_OBJECT_HANDLE)) (objects_count0 : Nat) (s1 : σ)
    (pending : List CK_OBJECT_HANDLE) :
    ∀ (fuel : Nat) (result_object : CK_OBJECT_HANDLE) (objectCount : CK_ULONG)
      (result_objects : Option (List CK_OBJECT_HANDLE)) (acc : List CK_OBJECT_HANDLE)
      (allocated : Nat) (w : World σ),
      result_objects.getD [] = acc →
      (match pending with
        | [] => objectCount = 0 ∧ w.tok = s1
        | h :: rest => 0 < objectCount ∧ result_object = h ∧ Yields p w.tok rest s1) →
      AllocOK w →
      acc.length + pending.length < 2 ^ 32 →
      pending.length ≤ fuel →
      ∃ wf, _find_key_loop p objects0 objects_count0 fuel result_object objectCount
            result_objects acc.length allocated w =
          some (_find_key_finish p objects0 objects_count0
            (if pending = [] then result_objects else some (acc ++ pending))
            (acc.length + pending.length) wf) ∧
        wf.tok = s1 ∧
        wf.trace = w.trace ++ List.replicate pending.length P11Call.C_FindObjects ∧
        wf.pyerr = w.pyerr ∧ AllocOK wf := by
  induction pending with
  | nil =>
    intro fuel result_object objectCount result_objects acc allocated w hacc hp ha _ _
    obtain ⟨hc, ht⟩ := hp
    subst hc
    refine ⟨w, ?_, ht, by simp, rfl, ha⟩
    cases fuel <;> simp [_find_key_loop]
  | cons h rest ih =>
    intro fuel result_object objectCount result_objects acc allocated w hacc hp ha hlen hfuel
    obtain ⟨hc, hr, hy⟩ := hp
    subst hr
    cases fuel with
    | zero => simp at hfuel
    | succ fuel =>
      obtain ⟨buf, allocated1, w1, hg, hbuf, hw1tok, hw1trace, hw1err, hw1ok⟩ :=
        _find_key_grow_ok result_objects acc.length allocated w acc hacc ha
      have hlen1 : (acc.length + 1) % 2 ^ 32 = (acc ++ [result_object]).length := by
        simp only [List.length_append, List.length_singleton]
        apply Nat.mod_eq_of_lt
        simp only [List.length_cons] at hlen
        omega
      have hy1 : (p.C_FindObjects w.tok).1 = CKR_OK := by
        cases rest with
        | nil => exact hy.1
        | cons h2 rest2 => exact hy.1
      obtain ⟨w2, h2, h2tok, h2trace, h2err, h2ok⟩ :=
        ih fuel (p.C_FindObjects w1.tok).2.1 (p.C_FindObjects w1.tok).2.2.1
          (some (acc ++ [result_object])) (acc ++ [result_object]) allocated1
          { w1 with tok := (p.C_FindObjects w1.tok).2.2.2,
                    trace := w1.trace ++ [P11Call.C_FindObjects] }
          rfl
          (by
            rw [hw1tok]
            cases rest with
            | nil => exact ⟨hy.2.1, hy.2.2⟩
            | cons h2 rest2 => exact ⟨hy.2.2.1, hy.2.1, hy.2.2.2⟩)
          hw1ok
          (by simp only [List.length_append, List.length_cons, List.length_nil]
              simp only [List.length_cons] at hlen
              omega)
          (by simp only [List.length_cons] at hfuel; omega)
      refine ⟨w2, ?_, h2tok, ?_, ?_, h2ok⟩
      · simp only [_find_key_loop, hc, if_true, hg, hbuf, storeAt_length, World.findObjects,
          hw1tok, hy1, check_return_value_ok, hlen1]
        simp only [hw1tok] at h2
        rw [h2]
        cases rest with
        | nil => simp
        | cons h2 rest2 => simp [Nat.add_assoc, Nat.add_comm]
      · rw [h2trace]
        simp [hw1trace, List.replicate_succ]
      · rw [h2err]
        exact hw1err

/-- A failing `C_FindObjectsInit`: `_find_key` returns `0` after that one
call and leaves the caller's variables alone. -/
theorem _find_key_init_fails (p : P11 σ) (id : Option (List CK_BYTE)) (id_len : CK_ULONG)
    (label : Option (List CK_BYTE)) (label_len : CK_ULONG) (cls : CK_OBJECT_CLASS)
    (cka_wrap cka_unwrap : Option Bool) (objects0 : Option (List CK_OBJECT_HANDLE))
    (objects_count0 : Nat) (fuel : Nat) (w : World σ)
    (hinit : (p.C_FindObjectsInit w.tok
      (_find_key_template id id_len label label_len cls cka_wrap cka_unwrap)).1 ≠ CKR_OK)
    (halloc : AllocOK w) :
    ∃ w1, _find_key p id id_len label label_len cls cka_wrap cka_unwrap objects0
          objects_count0 fuel w = some (⟨0, objects0, objects_count0⟩, w1) ∧
      w1.trace = w.trace ++
        [P11Call.C_FindObjectsInit
          (_find_key_template id id_len label label_len cls cka_wrap cka_unwrap)] ∧
      w1.pyerr = some ⟨PyExc.IPA_PKCS11Error, ErrMsg.errorAt "Find key init"
        ((p.C_FindObjectsInit w.tok
          (_find_key_template id id_len label label_len cls cka_wrap cka_unwrap)).1
            % 2 ^ 32)⟩ := by
  have hok : AllocOK (w.findObjectsInit p
      (_find_key_template id id_len label label_len cls cka_wrap cka_unwrap)).2 := halloc
  have hf : (w.findObjectsInit p
      (_find_key_template id id_len label label_len cls cka_wrap cka_unwrap)).1 ≠ CKR_OK :=
    hinit
  refine ⟨((w.findObjectsInit p
      (_find_key_template id id_len label label_len cls cka_wrap cka_unwrap)).2.alloc).2.PyErr_SetString
    PyExc.IPA_PKCS11Error (ErrMsg.errorAt "Find key init" ((w.findObjectsInit p
      (_find_key_template id id_len label label_len cls cka_wrap cka_unwrap)).1 % 2 ^ 32)),
    ?_, ?_, ?_⟩
  · unfold _find_key
    dsimp only
    rw [check_return_value_fail _ _ _ hf hok]
    simp only [if_true]
  · simp [World.PyErr_SetString, alloc_trace, World.findObjectsInit]
  · simp [World.PyErr_SetString, World.findObjectsInit]

/-- A failing `C_FindObjects`, after the handles `hs` were delivered:
`_find_key` returns `0`, leaves the caller's variables alone, and has logged
the search start and the `C_FindObjects` calls up to the failing one. -/
theorem _find_key_find_fails (p : P11 σ) (id : Option (List CK_BYTE)) (id_len : CK_ULONG)
    (label : Option (List CK_BYTE)) (label_len : CK_ULONG) (cls : CK_OBJECT_CLASS)
    (cka_wrap cka_unwrap : Option Bool) (objects0 : Option (List CK_OBJECT_HANDLE))
    (objects_count0 : Nat) (fuel : Nat) (w : World σ) (hs : List CK_OBJECT_HANDLE)
    (s1 : σ)
    (hinit : (p.C_FindObjectsInit w.tok
      (_find_key_template id id_len label label_len cls cka_wrap cka_unwrap)).1 = CKR_OK)
    (hd : Delivers p (p.C_FindObjectsInit w.tok
      (_find_key_template id id_len label label_len cls cka_wrap cka_unwrap)).2 hs s1)
    (hfail : (p.C_FindObjects s1).1 ≠ CKR_OK)
    (halloc : AllocOK w) (hlen : hs.length < 2 ^ 32) (hfuel : hs.length ≤ fuel) :
    ∃ w1, _find_key p id id_len label label_len cls cka_wrap cka_unwrap objects0
          objects_count0 fuel w = some (⟨0, objects0, objects_count0⟩, w1) ∧
      w1.tok = (p.C_FindObjects s1).2.2.2 ∧
      w1.trace = w.trace ++
        [P11Call.C_FindObjectsInit
          (_find_key_template id id_len label label_len cls cka_wrap cka_unwrap)] ++
        List.replicate (hs.length + 1) P11Call.C_FindObjects ∧
      w1.pyerr = some ⟨PyExc.IPA_PKCS11Error,
        ErrMsg.errorAt (if hs = [] then "Find key" else "Check for duplicated key")
          ((p.C_FindObjects s1).1 % 2 ^ 32)⟩ := by
  cases hs with
  | nil =>
    have hs1 : (p.C_FindObjectsInit w.tok
      (_find_key_template id id_len label label_len cls cka_wrap cka_unwrap)).2 = s1 := hd
    subst hs1
    have hok : AllocOK ((w.findObjectsInit p
      (_find_key_template id id_len label label_len cls cka_wrap cka_unwrap)).2.findObjects
        p).2.2.2 := halloc
    have hf : ((w.findObjectsInit p
      (_find_key_template id id_len label label_len cls cka_wrap cka_unwrap)).2.findObjects
        p).1 ≠ CKR_OK := hfail
    have hi : (w.findObjectsInit p
      (_find_key_template id id_len label label_len cls cka_wrap cka_unwrap)).1 = CKR_OK :=
      hinit
    refine ⟨(((w.findObjectsInit p
      (_find_key_template id id_len label label_len cls cka_wrap cka_unwrap)).2.findObjects
        p).2.2.2.alloc).2.PyErr_SetString PyExc.IPA_PKCS11Error
      (ErrMsg.errorAt "Find key" (((w.findObjectsInit p
        (_find_key_template id id_len label label_len cls cka_wrap cka_unwrap)).2.findObjects
          p).1 % 2 ^ 32)), ?_, ?_, ?_, ?_⟩
    · unfold _find_key
      dsimp only
      rw [hi, check_return_value_ok]
      dsimp only
      rw [if_neg (by decide), check_return_value_fail _ _ _ hf hok]
      simp only [if_true]
    · simp [World.PyErr_SetString, alloc_tok, World.findObjects, World.findObjectsInit]
    · simp [World.PyErr_SetString, alloc_trace, World.findObjects, World.findObjectsInit]
    · simp [World.PyErr_SetString, World.findObjects, World.findObjectsInit]
  | cons h rest =>
    obtain ⟨hd1, _, hd3, hd4⟩ := hd
    obtain ⟨w1, h1, h1tok, h1trace, h1err⟩ :=
      _find_key_loop_find_fails p objects0 objects_count0 s1 rest fuel
        (p.C_FindObjects (p.C_FindObjectsInit w.tok
          (_find_key_template id id_len label label_len cls cka_wrap cka_unwrap)).2).2.1
        (p.C_FindObjects (p.C_FindObjectsInit w.tok
          (_find_key_template id id_len label label_len cls cka_wrap cka_unwrap)).2).2.2.1
        none [] 0
        { w with
          tok := (p.C_FindObjects (p.C_FindObjectsInit w.tok
            (_find_key_template id id_len label label_len cls cka_wrap cka_unwrap)).2).2.2.2,
          trace := w.trace ++
            [P11Call.C_FindObjectsInit
              (_find_key_template id id_len label label_len cls cka_wrap cka_unwrap)] ++
            [P11Call.C_FindObjects] }
        rfl hd3 hd4 hfail halloc
        (by simp only [List.length_cons, List.length_nil] at hlen ⊢; omega)
        (by simp only [List.length_cons] at hfuel ⊢; omega)
    refine ⟨w1, ?_, h1tok, ?_, ?_⟩
    · simp only [_find_key, World.findObjectsInit, hinit, check_return_value_ok,
        World.findObjects, hd1]
      simpa using h1
    · rw [h1trace]
      simp [List.replicate_succ]
    · rw [h1err]
      simp

/-- A failing `C_FindObjectsFinal`, after the handles `hs` and the empty
answer were delivered: `_find_key` returns `0` and leaves the caller's
variables alone. -/
theorem _find_key_final_fails (p : P11 σ) (id : Option (List CK_BYTE)) (id_len : CK_ULONG)
    (label : Option (List CK_BYTE)) (label_len : CK_ULONG) (cls : CK_OBJECT_CLASS)
    (cka_wrap cka_unwrap : Option Bool) (objects0 : Option (List CK_OBJECT_HANDLE))
    (objects_count0 : Nat) (fuel : Nat) (w : World σ) (hs : List CK_OBJECT_HANDLE)
    (s1 : σ)
    (hinit : (p.C_FindObjectsInit w.tok
      (_find_key_template id id_len label label_len cls cka_wrap cka_unwrap)).1 = CKR_OK)
    (hy : Yields p (p.C_FindObjectsInit w.tok
      (_find_key_template id id_len label label_len cls cka_wrap cka_unwrap)).2 hs s1)
    (hfail : (p.C_FindObjectsFinal s1).1 ≠ CKR_OK)
    (halloc : AllocOK w) (hlen : hs.length < 2 ^ 32) (hfuel : hs.length ≤ fuel) :
    ∃ w1, _find_key p id id_len label label_len cls cka_wrap cka_unwrap objects0
          objects_count0 fuel w = some (⟨0, objects0, objects_count0⟩, w1) ∧
      w1.tok = (p.C_FindObjectsFinal s1).2 ∧
      w1.trace = w.trace ++
        [P11Call.C_FindObjectsInit
          (_find_key_template id id_len label label_len cls cka_wrap cka_unwrap)] ++
        List.replicate (hs.length + 1) P11Call.C_FindObjects ++
        [P11Call.C_FindObjectsFinal] ∧
      w1.pyerr = some ⟨PyExc.IPA_PKCS11Error,
        ErrMsg.errorAt "Find objects final" ((p.C_FindObjectsFinal s1).1 % 2 ^ 32)⟩ := by
  have hy1 : (p.C_FindObjects (p.C_FindObjectsInit w.tok
      (_find_key_template id id_len label label_len cls cka_wrap cka_unwrap)).2).1 = CKR_OK := by
    cases hs with
    | nil => exact hy.1
    | cons h rest => exact hy.1
  obtain ⟨wf, h1, h1tok, h1trace, h1err, h1ok⟩ :=
    _find_key_loop_reaches_finish p objects0 objects_count0 s1 hs fuel
      (p.C_FindObjects (p.C_FindObjectsInit w.tok
        (_find_key_template id id_len label label_len cls cka_wrap cka_unwrap)).2).2.1
      (p.C_FindObjects (p.C_FindObjectsInit w.tok
        (_find_key_template id id_len label label_len cls cka_wrap cka_unwrap)).2).2.2.1
      none [] 0
      { w with
        tok := (p.C_FindObjects (p.C_FindObjectsInit w.tok
          (_find_key_template id id_len label label_len cls cka_wrap cka_unwrap)).2).2.2.2,
        trace := w.trace ++
          [P11Call.C_FindObjectsInit
            (_find_key_template id id_len label label_len cls cka_wrap cka_unwrap)] ++
          [P11Call.C_FindObjects] }
      rfl
      (by
        cases hs with
        | nil => exact ⟨hy.2.1, hy.2.2⟩
        | cons h rest => exact ⟨hy.2.2.1, hy.2.1, hy.2.2.2⟩)
      halloc (by simpa using hlen) hfuel
  have hok : AllocOK (wf.findObjectsFinal p).2 := h1ok
  have hf : (wf.findObjectsFinal p).1 ≠ CKR_OK := by
    simp only [World.findObjectsFinal, h1tok]
    exact hfail
  have hfin : _find_key_finish p objects0 objects_count0
      (if hs = [] then none else some ([] ++ hs)) (([] : List CK_OBJECT_HANDLE).length + hs.length)
      wf =
      (⟨0, objects0, objects_count0⟩,
        ((wf.findObjectsFinal p).2.alloc).2.PyErr_SetString PyExc.IPA_PKCS11Error
          (ErrMsg.errorAt "Find objects final" ((wf.findObjectsFinal p).1 % 2 ^ 32))) := by
    unfold _find_key_finish
    dsimp only
    rw [check_return_value_fail _ _ _ hf hok]
    simp only [if_true]
  refine ⟨((wf.findObjectsFinal p).2.alloc).2.PyErr_SetString PyExc.IPA_PKCS11Error
    (ErrMsg.errorAt "Find objects final" ((wf.findObjectsFinal p).1 % 2 ^ 32)),
    ?_, ?_, ?_, ?_⟩
  · simp only [_find_key, World.findObjectsInit, hinit, check_return_value_ok,
      World.findObjects, hy1]
    rw [← hfin]
    simpa using h1
  · simp [World.PyErr_SetString, alloc_tok, World.findObjectsFinal, h1tok]
  · simp [World.PyErr_SetString, alloc_trace, World.findObjectsFinal, h1trace,
      List.replicate_succ]
  · simp [World.PyErr_SetString, World.findObjectsFinal, h1tok]

theorem listP11_yields (hs0 : List CK_OBJECT_HANDLE) :
    ∀ hs : List CK_OBJECT_HANDLE, Yields (listP11 hs0) hs hs [] := by
  intro hs
  induction hs with
  | nil => exact ⟨rfl, rfl, rfl⟩
  | cons h rest ih => exact ⟨rfl, rfl, Nat.one_pos, ih⟩

/-- C16. When the provider accepts the search, answers the `C_FindObjects`
calls with the handles `hs`, one per call, and then with an empty answer, and
accepts the end of the search, and every allocation is granted, `_find_key`
returns `1` and publishes exactly `hs`: the same handles in the same order,
none lost and none repeated, with `objects_count` the length of `hs`; the
published array is `NULL` exactly when `hs` is empty.  This holds for every
number of matches for which the capacity, a multiple of 32 held in an
`unsigned int`, does not wrap (`hs.length + 32 ≤ 2 ^ 32`), so for 0, 32, 33
and more. -/
theorem find_key_returns_all_matches (p : P11 σ) (id : Option (List CK_BYTE))
    (id_len : CK_ULONG) (label : Option (List CK_BYTE)) (label_len : CK_ULONG)
    (cls : CK_OBJECT_CLASS) (cka_wrap cka_unwrap : Option Bool)
    (objects0 : Option (List CK_OBJECT_HANDLE)) (objects_count0 : Nat) (fuel : Nat)
    (w : World σ) (hs : List CK_OBJECT_HANDLE) (s1 : σ)
    (hinit : (p.C_FindObjectsInit w.tok
      (_find_key_template id id_len label label_len cls cka_wrap cka_unwrap)).1 = CKR_OK)
    (hy : Yields p (p.C_FindObjectsInit w.tok
      (_find_key_template id id_len label label_len cls cka_wrap cka_unwrap)).2 hs s1)
    (hfin : (p.C_FindObjectsFinal s1).1 = CKR_OK)
    (halloc : AllocOK w) (hlen : hs.length + 32 ≤ 2 ^ 32) (hfuel : hs.length ≤ fuel) :
    ∃ r w1, _find_key p id id_len label label_len cls cka_wrap cka_unwrap objects0
          objects_count0 fuel w = some (r, w1) ∧
      r.ret = 1 ∧ r.objects.getD [] = hs ∧ r.objects_count = hs.length ∧
      (r.objects = none ↔ hs = []) ∧ w1.pyerr = w.pyerr := by
  obtain ⟨w1, h1, _, _, h1err⟩ :=
    _find_key_yields p id id_len label label_len cls cka_wrap cka_unwrap objects0
      objects_count0 fuel w hs s1 hinit hy hfin halloc (by omega) hfuel
  refine ⟨_, w1, h1, rfl, ?_, rfl, ?_, h1err⟩
  · cases hs <;> simp
  · cases hs <;> simp

/-- Witness of C16: a search that yields the 33 handles 1, ..., 33. -/
theorem find_key_returns_all_matches_witness :
    ∃ r w1, _find_key (listP11 (List.range' 1 33)) none 0 (some [76, 49]) 2 CKO_PUBLIC_KEY
        none none none 0 33 (⟨[], [], [], none⟩ : World (List CK_OBJECT_HANDLE)) =
        some (r, w1) ∧
      r.ret = 1 ∧ r.objects.getD [] = List.range' 1 33 ∧
      r.objects_count = (List.range' 1 33).length ∧
      (r.objects = none ↔ List.range' 1 33 = []) ∧ w1.pyerr = none :=
  find_key_returns_all_matches (listP11 (List.range' 1 33)) none 0 (some [76, 49]) 2
    CKO_PUBLIC_KEY none none none 0 33 ⟨[], [], [], none⟩ (List.range' 1 33) [] rfl
    (listP11_yields _ _) rfl (by intro b hb; simp at hb) (by simp) (by simp)

/-- C17. A search that was started is not always closed.  When
`C_FindObjectsInit` returned `CKR_OK` and the first `C_FindObjects` call
returns another status, `_find_key` returns `0` and `_id_label_exists`
returns `-1`, each having called `C_FindObjectsInit` and `C_FindObjects` and
nothing else: `C_FindObjectsFinal` is not called, and the provider is left in
the state the failing `C_FindObjects` call put it in. -/
theorem find_key_leaves_search_open (p : P11 σ) (id : Option (List CK_BYTE))
    (id_len : CK_ULONG) (label : Option (List CK_BYTE)) (label_len : CK_ULONG)
    (cls : CK_OBJECT_CLASS) (cka_wrap cka_unwrap : Option Bool)
    (objects0 : Option (List CK_OBJECT_HANDLE)) (objects_count0 : Nat) (fuel : Nat)
    (w : World σ)
    (hinit : (p.C_FindObjectsInit w.tok
      (_find_key_template id id_len label label_len cls cka_wrap cka_unwrap)).1 = CKR_OK)
    (hfind : (p.C_FindObjects (p.C_FindObjectsInit w.tok
      (_find_key_template id id_len label label_len cls cka_wrap cka_unwrap)).2).1 ≠ CKR_OK)
    (hinit2 : (p.C_FindObjectsInit w.tok
      (_id_label_exists_template id id_len label label_len cls)).1 = CKR_OK)
    (hfind2 : (p.C_FindObjects (p.C_FindObjectsInit w.tok
      (_id_label_exists_template id id_len label label_len cls)).2).1 ≠ CKR_OK) :
    (∃ w1, _find_key p id id_len label label_len cls cka_wrap cka_unwrap objects0
          objects_count0 fuel w = some (⟨0, objects0, objects_count0⟩, w1) ∧
      w1.trace = w.trace ++
        [P11Call.C_FindObjectsInit
          (_find_key_template id id_len label label_len cls cka_wrap cka_unwrap),
         P11Call.C_FindObjects] ∧
      P11Call.C_FindObjectsFinal ∉ (w1.trace.drop w.trace.length) ∧
      w1.tok = (p.C_FindObjects (p.C_FindObjectsInit w.tok
        (_find_key_template id id_len label label_len cls cka_wrap cka_unwrap)).2).2.2.2) ∧
    (_id_label_exists p id id_len label label_len cls w).1 = -1 ∧
    (_id_label_exists p id id_len label label_len cls w).2.trace = w.trace ++
      [P11Call.C_FindObjectsInit (_id_label_exists_template id id_len label label_len cls),
       P11Call.C_FindObjects] ∧
    P11Call.C_FindObjectsFinal ∉
      ((_id_label_exists p id id_len label label_len cls w).2.trace.drop w.trace.length) ∧
    (_id_label_exists p id id_len label label_len cls w).2.tok =
      (p.C_FindObjects (p.C_FindObjectsInit w.tok
        (_id_label_exists_template id id_len label label_len cls)).2).2.2.2 := by
  have hi : (w.findObjectsInit p
      (_find_key_template id id_len label label_len cls cka_wrap cka_unwrap)).1 = CKR_OK :=
    hinit
  have hf : ((w.findObjectsInit p
      (_find_key_template id id_len label label_len cls cka_wrap cka_unwrap)).2.findObjects
        p).1 ≠ CKR_OK := hfind
  have hi2 : (w.findObjectsInit p
      (_id_label_exists_template id id_len label label_len cls)).1 = CKR_OK := hinit2
  have hf2 : ((w.findObjectsInit p
      (_id_label_exists_template id id_len label label_len cls)).2.findObjects p).1 ≠ CKR_OK :=
    hfind2
  have e1 : _find_key p id id_len label label_len cls cka_wrap cka_unwrap objects0
      objects_count0 fuel w = some (⟨0, objects0, objects_count0⟩,
        (check_return_value ((w.findObjectsInit p
          (_find_key_template id id_len label label_len cls cka_wrap
            cka_unwrap)).2.findObjects p).1 "Find key"
          ((w.findObjectsInit p
            (_find_key_template id id_len label label_len cls cka_wrap
              cka_unwrap)).2.findObjects p).2.2.2).2) := by
    unfold _find_key
    dsimp only
    rw [hi, check_return_value_ok]
    dsimp only
    rw [if_neg (by decide), if_pos (by rw [check_return_value_fst, if_neg hf])]
  have e2 : _id_label_exists p id id_len label label_len cls w = (-1,
        (check_return_value ((w.findObjectsInit p
          (_id_label_exists_template id id_len label label_len cls)).2.findObjects p).1
          "id, label exists"
          ((w.findObjectsInit p
            (_id_label_exists_template id id_len label label_len cls)).2.findObjects
              p).2.2.2).2) := by
    unfold _id_label_exists
    dsimp only
    rw [hi2, check_return_value_ok]
    dsimp only
    rw [if_neg (by decide), if_pos (by rw [check_return_value_fst, if_neg hf2])]
  refine ⟨⟨_, e1, ?_, ?_, ?_⟩, ?_, ?_, ?_, ?_⟩
  · rw [check_return_value_trace]; simp [World.findObjects, World.findObjectsInit]
  · rw [check_return_value_trace]; simp [World.findObjects, World.findObjectsInit]
  · rw [check_return_value_tok]; rfl
  · rw [e2]
  · rw [e2]; dsimp only; rw [check_return_value_trace]
    simp [World.findObjects, World.findObjectsInit]
  · rw [e2]; dsimp only; rw [check_return_value_trace]
    simp [World.findObjects, World.findObjectsInit]
  · rw [e2]; dsimp only; rw [check_return_value_tok]; rfl

/-- Witness of C17, on the example token under a provider whose first
`C_FindObjects` call fails: both functions return with the search of the
provider still active. -/
theorem find_key_leaves_search_open_witness :
    (∃ w1, _find_key (failingFind 0) (some [1]) 1 (some [76, 49]) 2 CKO_PUBLIC_KEY none none
        none 0 5 (softWorld exampleToken) = some (⟨0, none, 0⟩, w1) ∧
      w1.trace =
        [P11Call.C_FindObjectsInit
          [⟨CKA_LABEL, PValue.bytes [76, 49], 2⟩, ⟨CKA_ID, PValue.bytes [1], 1⟩,
           ⟨CKA_CLASS, PValue.ulong CKO_PUBLIC_KEY, 8⟩],
         P11Call.C_FindObjects] ∧
      w1.tok.search = some [1]) ∧
    (_id_label_exists (failingFind 0) (some [1]) 1 (some [76, 49]) 2 CKO_PUBLIC_KEY
      (softWorld exampleToken)).1 = -1 ∧
    (_id_label_exists (failingFind 0) (some [1]) 1 (some [76, 49]) 2 CKO_PUBLIC_KEY
      (softWorld exampleToken)).2.tok.search = some [1] := by
  obtain ⟨⟨w1, h1, h2, _, h4⟩, h5, _, _, h8⟩ :=
    find_key_leaves_search_open (failingFind 0) (some [1]) 1 (some [76, 49]) 2 CKO_PUBLIC_KEY
      none none none 0 5 (softWorld exampleToken) (by decide) (by decide) (by decide)
      (by decide)
  refine ⟨⟨w1, h1, ?_, ?_⟩, h5, ?_⟩
  · rw [h2]; rfl
  · rw [h4]; decide
  · rw [h8]; decide

/-- A refused `realloc` in `_find_key`, on the example token: the function
returns `0` with `*objects_count` set to `0`, after `C_FindObjectsInit` and
one `C_FindObjects` call; `C_FindObjectsFinal` is not called and the search
of the provider is still active. -/
theorem find_key_realloc_failure_leaves_search_open :
    (_find_key SoftToken.p11 none 0 (some [76, 49]) 2 CKO_PUBLIC_KEY none none none 7 5
      { softWorld exampleToken with heap := [false] }).map
        (fun r => (r.1, r.2.trace, r.2.tok.search, r.2.pyerr)) =
      some (⟨0, none, 0⟩,
        [P11Call.C_FindObjectsInit
          [⟨CKA_LABEL, PValue.bytes [76, 49], 2⟩, ⟨CKA_CLASS, PValue.ulong CKO_PUBLIC_KEY, 8⟩],
         P11Call.C_FindObjects],
        some [2],
        some ⟨PyExc.IPA_PKCS11Error, ErrMsg.text "_find_key realloc failed"⟩) := by
  decide

/-- C18. A failing call of the provider aborts `_find_key`, when the
allocation of the error text is granted.  Whichever of `C_FindObjectsInit`,
a `C_FindObjects` call (the first one, or one made after the handles `hs`
were delivered) or `C_FindObjectsFinal` returns a status other than `CKR_OK`:
the function returns `0`, the log ends with the failing call (no further
`C_FindObjects` call is made), the caller's `objects` and `objects_count`
keep the values they had on entry, and the error set is `IPA_PKCS11Error`
with the text of the failing stage (`Find key init`, `Find key` for the
first enumeration call, `Check for duplicated key` for a later one,
`Find objects final`) and the status as printed through `(unsigned int) rv`,
which is the status itself for every status below `2 ^ 32`. -/
theorem find_key_aborts_on_token_error (p : P11 σ) (id : Option (List CK_BYTE))
    (id_len : CK_ULONG) (label : Option (List CK_BYTE)) (label_len : CK_ULONG)
    (cls : CK_OBJECT_CLASS) (cka_wrap cka_unwrap : Option Bool)
    (objects0 : Option (List CK_OBJECT_HANDLE)) (objects_count0 : Nat) (fuel : Nat)
    (w : World σ) (halloc : AllocOK w) :
    ((p.C_FindObjectsInit w.tok
        (_find_key_template id id_len label label_len cls cka_wrap cka_unwrap)).1 ≠ CKR_OK →
      ∃ w1, _find_key p id id_len label label_len cls cka_wrap cka_unwrap objects0
            objects_count0 fuel w = some (⟨0, objects0, objects_count0⟩, w1) ∧
        w1.trace = w.trace ++
          [P11Call.C_FindObjectsInit
            (_find_key_template id id_len label label_len cls cka_wrap cka_unwrap)] ∧
        w1.pyerr = some ⟨PyExc.IPA_PKCS11Error, ErrMsg.errorAt "Find key init"
          ((p.C_FindObjectsInit w.tok
            (_find_key_template id id_len label label_len cls cka_wrap cka_unwrap)).1
              % 2 ^ 32)⟩) ∧
    (∀ (hs : List CK_OBJECT_HANDLE) (s1 : σ),
      (p.C_FindObjectsInit w.tok
        (_find_key_template id id_len label label_len cls cka_wrap cka_unwrap)).1 = CKR_OK →
      Delivers p (p.C_FindObjectsInit w.tok
        (_find_key_template id id_len label label_len cls cka_wrap cka_unwrap)).2 hs s1 →
      (p.C_FindObjects s1).1 ≠ CKR_OK →
      hs.length < 2 ^ 32 → hs.length ≤ fuel →
      ∃ w1, _find_key p id id_len label label_len cls cka_wrap cka_unwrap objects0
            objects_count0 fuel w = some (⟨0, objects0, objects_count0⟩, w1) ∧
        w1.trace = w.trace ++
          [P11Call.C_FindObjectsInit
            (_find_key_template id id_len label label_len cls cka_wrap cka_unwrap)] ++
          List.replicate (hs.length + 1) P11Call.C_FindObjects ∧
        w1.pyerr = some ⟨PyExc.IPA_PKCS11Error,
          ErrMsg.errorAt (if hs = [] then "Find key" else "Check for duplicated key")
            ((p.C_FindObjects s1).1 % 2 ^ 32)⟩) ∧
    (∀ (hs : List CK_OBJECT_HANDLE) (s1 : σ),
      (p.C_FindObjectsInit w.tok
        (_find_key_template id id_len label label_len cls cka_wrap cka_unwrap)).1 = CKR_OK →
      Yields p (p.C_FindObjectsInit w.tok
        (_find_key_template id id_len label label_len cls cka_wrap cka_unwrap)).2 hs s1 →
      (p.C_FindObjectsFinal s1).1 ≠ CKR_OK →
      hs.length < 2 ^ 32 → hs.length ≤ fuel →
      ∃ w1, _find_key p id id_len label label_len cls cka_wrap cka_unwrap objects0
            objects_count0 fuel w = some (⟨0, objects0, objects_count0⟩, w1) ∧
        w1.trace = w.trace ++
          [P11Call.C_FindObjectsInit
            (_find_key_template id id_len label label_len cls cka_wrap cka_unwrap)] ++
          List.replicate (hs.length + 1) P11Call.C_FindObjects ++
          [P11Call.C_FindObjectsFinal] ∧
        w1.pyerr = some ⟨PyExc.IPA_PKCS11Error,
          ErrMsg.errorAt "Find objects final" ((p.C_FindObjectsFinal s1).1 % 2 ^ 32)⟩) := by
  refine ⟨?_, ?_, ?_⟩
  · intro hinit
    exact _find_key_init_fails p id id_len label label_len cls cka_wrap cka_unwrap objects0
      objects_count0 fuel w hinit halloc
  · intro hs s1 hinit hd hfail hlen hfuel
    obtain ⟨w1, h1, _, h3, h4⟩ :=
      _find_key_find_fails p id id_len label label_len cls cka_wrap cka_unwrap objects0
        objects_count0 fuel w hs s1 hinit hd hfail halloc hlen hfuel
    exact ⟨w1, h1, h3, h4⟩
  · intro hs s1 hinit hy hfail hlen hfuel
    obtain ⟨w1, h1, _, h3, h4⟩ :=
      _find_key_final_fails p id id_len label label_len cls cka_wrap cka_unwrap objects0
        objects_count0 fuel w hs s1 hinit hy hfail halloc hlen hfuel
    exact ⟨w1, h1, h3, h4⟩

/-- Witness of C18, on the example token under a provider whose
`C_FindObjects` fails with `CKR_DEVICE_ERROR` once handle `1` was delivered:
the caller's variables (`some [9]`, `4`) are kept, two `C_FindObjects` calls
are logged, and the error names the stage and the status `0x30`. -/
theorem find_key_aborts_on_token_error_witness :
    ∃ w1, _find_key (failingFind 1) none 0 (some [76, 49]) 2 CKO_PUBLIC_KEY none none
        (some [9]) 4 5 (softWorld exampleToken) = some (⟨0, some [9], 4⟩, w1) ∧
      w1.trace =
        [P11Call.C_FindObjectsInit
          [⟨CKA_LABEL, PValue.bytes [76, 49], 2⟩, ⟨CKA_CLASS, PValue.ulong CKO_PUBLIC_KEY, 8⟩],
         P11Call.C_FindObjects, P11Call.C_FindObjects] ∧
      w1.pyerr = some ⟨PyExc.IPA_PKCS11Error,
        ErrMsg.errorAt "Check for duplicated key" 0x30⟩ := by
  obtain ⟨w1, h1, h2, h3⟩ :=
    (find_key_aborts_on_token_error (failingFind 1) none 0 (some [76, 49]) 2 CKO_PUBLIC_KEY
      none none (some [9]) 4 5 (softWorld exampleToken)
      (by intro b hb; simp [softWorld] at hb)).2.1 [1]
      { exampleToken with search := some [2] } (by decide)
      (by unfold Delivers; unfold Delivers; decide) (by decide) (by simp) (by simp)
  refine ⟨w1, h1, ?_, ?_⟩
  · rw [h2]; rfl
  · rw [h3]; rfl

/-! ## Public key export and import: dispatch on the key type -/

theorem isCreateObject_of_isSearchCall (c : P11Call) (h : isSearchCall c = true) :
    isCreateObject c = false := by
  cases c <;> simp_all [isSearchCall, isCreateObject]

/-- C19. `export_public_key`, when `C_GetAttributeValue` returns `CKR_OK`
and reports the class `cls` and the key type `key_type` for the handle: the
function goes on to `export_RSA_public_key` exactly when `cls` is
`CKO_PUBLIC_KEY` and `key_type` is `CKK_RSA`.  When `cls` is not
`CKO_PUBLIC_KEY` it fails with `export_public_key: required public key class`
whatever `key_type` is; when `cls` is `CKO_PUBLIC_KEY` and `key_type` is not
`CKK_RSA` it fails with `export_public_key: unsupported key type`.  In both
failures nothing is returned and no further call is made. -/
theorem export_public_key_dispatch (p : P11 σ) (ssl : OpenSSL) (object : CK_OBJECT_HANDLE)
    (w : World σ) (cls : CK_OBJECT_CLASS) (key_type : CK_KEY_TYPE)
    (hrv : (p.C_GetAttributeValue w.tok object exportQuery).1 = CKR_OK)
    (hcls : ulongOf ((p.C_GetAttributeValue w.tok object exportQuery).2.1.getD 0
      default).pValue = cls)
    (hkt : ulongOf ((p.C_GetAttributeValue w.tok object exportQuery).2.1.getD 1
      default).pValue = key_type) :
    (cls = CKO_PUBLIC_KEY ∧ key_type = CKK_RSA →
      IPA_PKCS11_export_public_key p ssl object w =
        IPA_PKCS11_export_RSA_public_key p ssl object
          (w.getAttributeValue p object exportQuery).2.2) ∧
    (cls ≠ CKO_PUBLIC_KEY →
      IPA_PKCS11_export_public_key p ssl object w =
        (none, (w.getAttributeValue p object exportQuery).2.2.PyErr_SetString
          PyExc.IPA_PKCS11Error (ErrMsg.text "export_public_key: required public key class"))) ∧
    (cls = CKO_PUBLIC_KEY ∧ key_type ≠ CKK_RSA →
      IPA_PKCS11_export_public_key p ssl object w =
        (none, (w.getAttributeValue p object exportQuery).2.2.PyErr_SetString
          PyExc.IPA_PKCS11Error (ErrMsg.text "export_public_key: unsupported key type"))) ∧
    (¬ (cls = CKO_PUBLIC_KEY ∧ key_type = CKK_RSA) →
      (IPA_PKCS11_export_public_key p ssl object w).1 = none ∧
      (IPA_PKCS11_export_public_key p ssl object w).2.trace =
        w.trace ++ [P11Call.C_GetAttributeValue object exportQuery]) := by
  have hg : (w.getAttributeValue p object exportQuery).1 = CKR_OK := hrv
  have e : IPA_PKCS11_export_public_key p ssl object w =
      if cls ≠ CKO_PUBLIC_KEY then
        (none, (w.getAttributeValue p object exportQuery).2.2.PyErr_SetString
          PyExc.IPA_PKCS11Error (ErrMsg.text "export_public_key: required public key class"))
      else if key_type = CKK_RSA then
        IPA_PKCS11_export_RSA_public_key p ssl object
          (w.getAttributeValue p object exportQuery).2.2
      else
        (none, (w.getAttributeValue p object exportQuery).2.2.PyErr_SetString
          PyExc.IPA_PKCS11Error (ErrMsg.text "export_public_key: unsupported key type")) := by
    have h0 : ulongOf ((w.getAttributeValue p object exportQuery).2.1.getD 0 default).pValue
        = cls := hcls
    have h1 : ulongOf ((w.getAttributeValue p object exportQuery).2.1.getD 1 default).pValue
        = key_type := hkt
    unfold exportQuery at hg h0 h1 ⊢
    unfold IPA_PKCS11_export_public_key
    dsimp only
    rw [hg, check_return_value_ok]
    dsimp only
    rw [if_neg (by decide), h0, h1]
  refine ⟨?_, ?_, ?_, ?_⟩
  · rintro ⟨h1, h2⟩
    rw [e, if_neg (by simp [h1]), if_pos h2]
  · intro h1
    rw [e, if_pos h1]
  · rintro ⟨h1, h2⟩
    rw [e, if_neg (by simp [h1]), if_neg h2]
  · intro h
    by_cases h1 : cls = CKO_PUBLIC_KEY
    · have h2 : key_type ≠ CKK_RSA := fun h2 => h ⟨h1, h2⟩
      rw [e, if_neg (by simp [h1]), if_neg h2]
      exact ⟨rfl, rfl⟩
    · rw [e, if_pos h1]
      exact ⟨rfl, rfl⟩

/-- Witness of C19: handle `3` of the example token is an RSA private key. -/
theorem export_public_key_dispatch_witness :
    IPA_PKCS11_export_public_key SoftToken.p11 derCodec 3 (softWorld exampleToken) =
      (none, ((softWorld exampleToken).getAttributeValue SoftToken.p11 3
        exportQuery).2.2.PyErr_SetString
          PyExc.IPA_PKCS11Error (ErrMsg.text "export_public_key: required public key class")) :=
  (export_public_key_dispatch SoftToken.p11 derCodec 3 (softWorld exampleToken)
    CKO_PRIVATE_KEY CKK_RSA (by decide) (by decide) (by decide)).2.1 (by decide)

/-- What `import_public_key` does with a decoded key that is not an RSA key:
nothing is returned, an error is set, and the log is the one of the
existence check. -/
theorem import_public_key_not_rsa (p : P11 σ) (ssl : OpenSSL)
    (label_unicode : PyUnicodeObject) (id : List CK_BYTE) (data : List CK_BYTE)
    (kw : Nat → Option PyObject) (w : World σ) (pkey : EVP_PKEY)
    (hdec : ssl.d2i_PUBKEY data data.length = some pkey)
    (hne : pkey.type ≠ EVP_PKEY_RSA) :
    (IPA_PKCS11_import_public_key p ssl label_unicode id data kw w).1 = none ∧
    (∃ e, (IPA_PKCS11_import_public_key p ssl label_unicode id data kw w).2.pyerr = some e) ∧
    (IPA_PKCS11_import_public_key p ssl label_unicode id data kw w).2.trace =
      (_id_label_exists p (some id) id.length (unicode_to_char_array label_unicode 0 w).1
        (unicode_to_char_array label_unicode 0 w).2.1 CKO_PUBLIC_KEY
        (unicode_to_char_array label_unicode 0 w).2.2).2.trace := by
  unfold IPA_PKCS11_import_public_key
  dsimp only
  by_cases h1 : (_id_label_exists p (some id) id.length
      (unicode_to_char_array label_unicode 0 w).1
      (unicode_to_char_array label_unicode 0 w).2.1 CKO_PUBLIC_KEY
      (unicode_to_char_array label_unicode 0 w).2.2).1 = 1
  · rw [if_pos h1]
    exact ⟨rfl, ⟨_, rfl⟩, rfl⟩
  · rw [if_neg h1]
    by_cases h2 : (_id_label_exists p (some id) id.length
        (unicode_to_char_array label_unicode 0 w).1
        (unicode_to_char_array label_unicode 0 w).2.1 CKO_PUBLIC_KEY
        (unicode_to_char_array label_unicode 0 w).2.2).1 = -1
    · rw [if_pos h2]
      obtain ⟨msg, hmsg⟩ := _id_label_exists_error p (some id) id.length
        (unicode_to_char_array label_unicode 0 w).1
        (unicode_to_char_array label_unicode 0 w).2.1 CKO_PUBLIC_KEY
        (unicode_to_char_array label_unicode 0 w).2.2 h2
      exact ⟨rfl, ⟨_, hmsg⟩, rfl⟩
    · rw [if_neg h2, hdec]
      dsimp only
      rw [if_neg hne]
      by_cases h3 : pkey.type = EVP_PKEY_DSA
      · rw [if_pos h3]
        exact ⟨rfl, ⟨_, rfl⟩, rfl⟩
      · rw [if_neg h3]
        by_cases h4 : pkey.type = EVP_PKEY_EC
        · rw [if_pos h4]
          exact ⟨rfl, ⟨_, rfl⟩, rfl⟩
        · rw [if_neg h4]
          exact ⟨rfl, ⟨_, rfl⟩, rfl⟩

/-- C20. `import_public_key` on data that `d2i_PUBKEY` decodes to a key
`pkey`.  When the type of `pkey` is not RSA (DSA, EC or any other type), the
function returns nothing, an error is set, and no `C_CreateObject` call is
among the calls it made.  So a run in which `C_CreateObject` was called is a
run on an RSA key. -/
theorem import_public_key_only_rsa (p : P11 σ) (ssl : OpenSSL)
    (label_unicode : PyUnicodeObject) (id : List CK_BYTE) (data : List CK_BYTE)
    (kw : Nat → Option PyObject) (w : World σ) (pkey : EVP_PKEY)
    (hdec : ssl.d2i_PUBKEY data data.length = some pkey) :
    (pkey.type ≠ EVP_PKEY_RSA →
      (IPA_PKCS11_import_public_key p ssl label_unicode id data kw w).1 = none ∧
      (∃ e, (IPA_PKCS11_import_public_key p ssl label_unicode id data kw w).2.pyerr =
        some e) ∧
      ∀ c ∈ (IPA_PKCS11_import_public_key p ssl label_unicode id data kw w).2.trace.drop
          w.trace.length, isCreateObject c = false) ∧
    ((∃ c ∈ (IPA_PKCS11_import_public_key p ssl label_unicode id data kw w).2.trace.drop
          w.trace.length, isCreateObject c = true) →
      pkey.type = EVP_PKEY_RSA) := by
  have main : pkey.type ≠ EVP_PKEY_RSA →
      (IPA_PKCS11_import_public_key p ssl label_unicode id data kw w).1 = none ∧
      (∃ e, (IPA_PKCS11_import_public_key p ssl label_unicode id data kw w).2.pyerr =
        some e) ∧
      ∀ c ∈ (IPA_PKCS11_import_public_key p ssl label_unicode id data kw w).2.trace.drop
          w.trace.length, isCreateObject c = false := by
    intro hne
    obtain ⟨h1, h2, h3⟩ := import_public_key_not_rsa p ssl label_unicode id data kw w pkey
      hdec hne
    refine ⟨h1, h2, ?_⟩
    obtain ⟨l, hl, hsearch⟩ := _id_label_exists_trace p (some id) id.length
      (unicode_to_char_array label_unicode 0 w).1
      (unicode_to_char_array label_unicode 0 w).2.1 CKO_PUBLIC_KEY
      (unicode_to_char_array label_unicode 0 w).2.2
    rw [h3, hl, unicode_to_char_array_trace]
    intro c hc
    simp only [List.drop_left, List.mem_cons] at hc
    rcases hc with hc | hc
    · subst hc
      rfl
    · exact isCreateObject_of_isSearchCall c (hsearch c hc)
  refine ⟨main, ?_⟩
  rintro ⟨c, hc, hcreate⟩
  by_contra hne
  have := (main hne).2.2 c hc
  rw [this] at hcreate
  exact Bool.noConfusion hcreate

/-- Witness of C20: an EC key, imported on the example token. -/
theorem import_public_key_only_rsa_witness :
    (IPA_PKCS11_import_public_key SoftToken.p11 derCodec labelL2 [9] ecKeyExample noOverrides
      (softWorld exampleToken)).1 = none ∧
    (∃ e, (IPA_PKCS11_import_public_key SoftToken.p11 derCodec labelL2 [9] ecKeyExample
      noOverrides (softWorld exampleToken)).2.pyerr = some e) ∧
    ∀ c ∈ (IPA_PKCS11_import_public_key SoftToken.p11 derCodec labelL2 [9] ecKeyExample
        noOverrides (softWorld exampleToken)).2.trace.drop
          (softWorld exampleToken).trace.length, isCreateObject c = false :=
  (import_public_key_only_rsa SoftToken.p11 derCodec labelL2 [9] ecKeyExample noOverrides
    (softWorld exampleToken) ⟨EVP_PKEY_EC, none⟩ (by decide)).1 (by decide)

/-! ## Export of a wrapped key: proofs -/

theorem alloc_fst_of_heap (w1 w2 : World σ) (h : w1.heap = w2.heap) :
    (w1.alloc).1 = (w2.alloc).1 := by
  unfold World.alloc
  rw [h]
  split <;> rfl

theorem alloc_heap_of_heap (w1 w2 : World σ) (h : w1.heap = w2.heap) :
    (w1.alloc).2.heap = (w2.alloc).2.heap := by
  unfold World.alloc
  rw [h]
  split <;> simp_all

theorem mallocBytes_eq_null (ok : Bool) (n : Nat) : mallocBytes ok n = PValue.null ↔ ok = false := by
  cases ok <;> simp [mallocBytes]

/-- C21. `export_wrapped_key` after a first `C_WrapKey` call that returned
`CKR_OK` and reported a length (`0` or any other): the length is not tested.
When `malloc` returns a block, the second `C_WrapKey` call is made with that
block and the reported length, also for the length `0`, and the outcome is
the one of the second call.  When `malloc` returns `NULL`, the function
returns nothing, the first call is the only `C_WrapKey` call, and the error
is the one of the stage `key wrapping: buffer allocation` with the status
`CKR_HOST_MEMORY` (when the text of the error can be allocated). -/
theorem export_wrapped_key_allocation (p : P11 σ) (object_key : CK_OBJECT_HANDLE)
    (object_wrapping_key : CK_OBJECT_HANDLE) (wrapping_mech_type : CK_MECHANISM_TYPE)
    (w : World σ) (len : CK_ULONG)
    (hfirst : (p.C_WrapKey w.tok ⟨wrapping_mech_type, PValue.null, 0⟩ object_wrapping_key
      object_key PValue.null 0).1 = CKR_OK)
    (hlen : (p.C_WrapKey w.tok ⟨wrapping_mech_type, PValue.null, 0⟩ object_wrapping_key
      object_key PValue.null 0).2.2.1 = len) :
    ((w.alloc).1 = true →
      (IPA_PKCS11_export_wrapped_key p object_key object_wrapping_key wrapping_mech_type
        w).2.trace = w.trace ++
          [P11Call.C_WrapKey ⟨wrapping_mech_type, PValue.null, 0⟩ object_wrapping_key
            object_key PValue.null 0,
           P11Call.C_WrapKey ⟨wrapping_mech_type, PValue.null, 0⟩ object_wrapping_key
            object_key (PValue.bytes (List.replicate len 0)) len] ∧
      ((IPA_PKCS11_export_wrapped_key p object_key object_wrapping_key wrapping_mech_type
        w).1 ≠ none ↔
        (p.C_WrapKey (p.C_WrapKey w.tok ⟨wrapping_mech_type, PValue.null, 0⟩
          object_wrapping_key object_key PValue.null 0).2.2.2
          ⟨wrapping_mech_type, PValue.null, 0⟩ object_wrapping_key object_key
          (PValue.bytes (List.replicate len 0)) len).1 = CKR_OK)) ∧
    ((w.alloc).1 = false →
      (IPA_PKCS11_export_wrapped_key p object_key object_wrapping_key wrapping_mech_type
        w).1 = none ∧
      (IPA_PKCS11_export_wrapped_key p object_key object_wrapping_key wrapping_mech_type
        w).2.trace = w.trace ++
          [P11Call.C_WrapKey ⟨wrapping_mech_type, PValue.null, 0⟩ object_wrapping_key
            object_key PValue.null 0] ∧
      (((w.alloc).2.alloc).1 = true →
        (IPA_PKCS11_export_wrapped_key p object_key object_wrapping_key wrapping_mech_type
          w).2.pyerr = some ⟨PyExc.IPA_PKCS11Error,
            ErrMsg.errorAt "key wrapping: buffer allocation" CKR_HOST_MEMORY⟩)) := by
  have h1 : (w.wrapKey p ⟨wrapping_mech_type, PValue.null, 0⟩ object_wrapping_key object_key
      PValue.null 0).1 = CKR_OK := hfirst
  have h2 : (w.wrapKey p ⟨wrapping_mech_type, PValue.null, 0⟩ object_wrapping_key object_key
      PValue.null 0).2.2.1 = len := hlen
  have ha : ((w.wrapKey p ⟨wrapping_mech_type, PValue.null, 0⟩ object_wrapping_key object_key
      PValue.null 0).2.2.2.alloc).1 = (w.alloc).1 := alloc_fst_of_heap _ _ rfl
  have hh : ((w.wrapKey p ⟨wrapping_mech_type, PValue.null, 0⟩ object_wrapping_key object_key
      PValue.null 0).2.2.2.alloc).2.heap = (w.alloc).2.heap := alloc_heap_of_heap _ _ rfl
  constructor
  · intro hok
    unfold IPA_PKCS11_export_wrapped_key
    dsimp only
    rw [h1, check_return_value_ok]
    dsimp only
    rw [if_neg (by decide), h2, ha, hok]
    rw [if_neg (by simp [mallocBytes])]
    constructor
    · by_cases hc : (check_return_value
          (((w.wrapKey p ⟨wrapping_mech_type, PValue.null, 0⟩ object_wrapping_key object_key
            PValue.null 0).2.2.2.alloc).2.wrapKey p ⟨wrapping_mech_type, PValue.null, 0⟩
            object_wrapping_key object_key (mallocBytes true len) len).1
          "key wrapping: wrapping"
          (((w.wrapKey p ⟨wrapping_mech_type, PValue.null, 0⟩ object_wrapping_key object_key
            PValue.null 0).2.2.2.alloc).2.wrapKey p ⟨wrapping_mech_type, PValue.null, 0⟩
            object_wrapping_key object_key (mallocBytes true len) len).2.2.2).1 = 0
      · rw [if_pos hc, check_return_value_trace]
        simp [World.wrapKey, alloc_trace, mallocBytes]
      · rw [if_neg hc, check_return_value_trace]
        simp [World.wrapKey, alloc_trace, mallocBytes]
    · rw [check_return_value_fst]
      have hs : (((w.wrapKey p ⟨wrapping_mech_type, PValue.null, 0⟩ object_wrapping_key
          object_key PValue.null 0).2.2.2.alloc).2.wrapKey p
          ⟨wrapping_mech_type, PValue.null, 0⟩ object_wrapping_key object_key
          (mallocBytes true len) len).1 =
          (p.C_WrapKey (p.C_WrapKey w.tok ⟨wrapping_mech_type, PValue.null, 0⟩
            object_wrapping_key object_key PValue.null 0).2.2.2
            ⟨wrapping_mech_type, PValue.null, 0⟩ object_wrapping_key object_key
            (PValue.bytes (List.replicate len 0)) len).1 := by
        simp [World.wrapKey, alloc_tok, mallocBytes]
      rw [hs]
      by_cases hrv : (p.C_WrapKey (p.C_WrapKey w.tok ⟨wrapping_mech_type, PValue.null, 0⟩
            object_wrapping_key object_key PValue.null 0).2.2.2
            ⟨wrapping_mech_type, PValue.null, 0⟩ object_wrapping_key object_key
            (PValue.bytes (List.replicate len 0)) len).1 = CKR_OK
      · simp [hrv]
      · simp [hrv]
  · intro hno
    unfold IPA_PKCS11_export_wrapped_key
    dsimp only
    rw [h1, check_return_value_ok]
    dsimp only
    rw [if_neg (by decide), h2, ha, hno]
    rw [if_pos (by simp [mallocBytes])]
    refine ⟨rfl, ?_, ?_⟩
    · rw [check_return_value_trace, alloc_trace]
      rfl
    · intro hok2
      have hok3 : ((((w.wrapKey p ⟨wrapping_mech_type, PValue.null, 0⟩ object_wrapping_key
          object_key PValue.null 0).2.2.2.alloc).2).alloc).1 = true := by
        rw [alloc_fst_of_heap _ _ hh]
        exact hok2
      unfold check_return_value
      rw [if_pos (by decide)]
      dsimp only
      rw [hok3]
      simp [World.PyErr_SetString]
      decide

/-- Witness of C21, on the example token: the public key `1` has no value,
the first `C_WrapKey` call reports the length `0`, the second call is made
and the empty string is returned. -/
theorem export_wrapped_key_allocation_witness :
    (IPA_PKCS11_export_wrapped_key SoftToken.p11 1 3 CKM_RSA_PKCS
      (softWorld exampleToken)).2.trace = (softWorld exampleToken).trace ++
        [P11Call.C_WrapKey ⟨CKM_RSA_PKCS, PValue.null, 0⟩ 3 1 PValue.null 0,
         P11Call.C_WrapKey ⟨CKM_RSA_PKCS, PValue.null, 0⟩ 3 1
          (PValue.bytes (List.replicate 0 0)) 0] ∧
    (IPA_PKCS11_export_wrapped_key SoftToken.p11 1 3 CKM_RSA_PKCS
      (softWorld exampleToken)).1 = some (PyObject.pyStr []) :=
  ⟨((export_wrapped_key_allocation SoftToken.p11 1 3 CKM_RSA_PKCS (softWorld exampleToken) 0
      (by decide) (by decide)).1 (by decide)).1, by decide⟩

/-- A refused allocation in `export_wrapped_key`, on the token with the AES
key `7` (reported length `2`): nothing is returned, one `C_WrapKey` call is
logged, and the error is the one of the allocation stage. -/
theorem export_wrapped_key_refused_allocation :
    (IPA_PKCS11_export_wrapped_key SoftToken.p11 7 3 CKM_RSA_PKCS
      { softWorld aesToken with heap := [false] }).1 = none ∧
    (IPA_PKCS11_export_wrapped_key SoftToken.p11 7 3 CKM_RSA_PKCS
      { softWorld aesToken with heap := [false] }).2.trace =
        [P11Call.C_WrapKey ⟨CKM_RSA_PKCS, PValue.null, 0⟩ 3 7 PValue.null 0] ∧
    (IPA_PKCS11_export_wrapped_key SoftToken.p11 7 3 CKM_RSA_PKCS
      { softWorld aesToken with heap := [false] }).2.pyerr =
        some ⟨PyExc.IPA_PKCS11Error, ErrMsg.errorAt "key wrapping: buffer allocation" 2⟩ := by
  decide

/-! ## Attributes of an object: proofs -/

theorem check_return_value_error (rv : CK_RV) (message : String) (w : World σ)
    (h : rv ≠ CKR_OK) :
    (check_return_value rv message w).2.pyerr = some ⟨PyExc.IPA_PKCS11Error,
      ErrMsg.text "DOUBLE ERROR: Creating the error message caused an error"⟩ ∨
    (check_return_value rv message w).2.pyerr = some ⟨PyExc.IPA_PKCS11Error,
      ErrMsg.errorAt message (rv % 2 ^ 32)⟩ := by
  unfold check_return_value
  rw [if_pos h]
  dsimp only
  by_cases ha : (w.alloc).1 = false
  · rw [if_pos ha]
    exact Or.inl rfl
  · rw [if_neg ha]
    exact Or.inr rfl

theorem get_attribute_absent (p : P11 σ) (host : PyHost) (object : CK_ULONG) (attr : Nat)
    (value_addr : Nat) (w : World σ) (h : AttributeAbsent p object attr w) :
    IPA_PKCS11_get_attribute p host object attr value_addr w =
      some (none, (get_attribute_query p object attr w).2.2.PyErr_SetString
        PyExc.IPA_PKCS11NotFound (ErrMsg.text "attribute does not exist")) := by
  have h' := h
  unfold AttributeAbsent at h'
  unfold IPA_PKCS11_get_attribute
  dsimp only
  rw [if_pos h']

theorem get_attribute_query_fails (p : P11 σ) (host : PyHost) (object : CK_ULONG)
    (attr : Nat) (value_addr : Nat) (w : World σ) (h : ¬ AttributeAbsent p object attr w)
    (hq : (get_attribute_query p object attr w).1 ≠ CKR_OK) :
    IPA_PKCS11_get_attribute p host object attr value_addr w =
      some (none, (check_return_value (get_attribute_query p object attr w).1
        "get_attribute init" (get_attribute_query p object attr w).2.2).2) := by
  have h' := h
  unfold AttributeAbsent at h'
  unfold IPA_PKCS11_get_attribute
  dsimp only
  rw [if_neg h', if_pos (by rw [check_return_value_fst, if_neg hq])]

theorem get_attribute_fill_fails (p : P11 σ) (host : PyHost) (object : CK_ULONG)
    (attr : Nat) (value_addr : Nat) (w : World σ) (h : ¬ AttributeAbsent p object attr w)
    (hq : (get_attribute_query p object attr w).1 = CKR_OK)
    (hf : (get_attribute_fill p object (get_attribute_query p object attr w).2.1
      (get_attribute_query p object attr w).2.2).1 ≠ CKR_OK) :
    IPA_PKCS11_get_attribute p host object attr value_addr w =
      some (none, (check_return_value
        (get_attribute_fill p object (get_attribute_query p object attr w).2.1
          (get_attribute_query p object attr w).2.2).1
        "get_attribute"
        (get_attribute_fill p object (get_attribute_query p object attr w).2.1
          (get_attribute_query p object attr w).2.2).2.2.2).2) := by
  have h' := h
  unfold AttributeAbsent at h'
  unfold IPA_PKCS11_get_attribute
  dsimp only
  rw [if_neg h', hq, check_return_value_ok]
  dsimp only
  rw [if_neg (by decide), if_pos (by rw [check_return_value_fst, if_neg hf])]

theorem get_attribute_unknown_filled (p : P11 σ) (host : PyHost) (object : CK_ULONG)
    (attr : Nat) (value_addr : Nat) (w : World σ) (h : ¬ AttributeAbsent p object attr w)
    (hq : (get_attribute_query p object attr w).1 = CKR_OK)
    (hf : (get_attribute_fill p object (get_attribute_query p object attr w).2.1
      (get_attribute_query p object attr w).2.2).1 = CKR_OK)
    (hu : get_attribute_case attr = AttrKind.unknown) :
    IPA_PKCS11_get_attribute p host object attr value_addr w =
      some (none,
        (get_attribute_fill p object (get_attribute_query p object attr w).2.1
          (get_attribute_query p object attr w).2.2).2.2.2.PyErr_SetString
            PyExc.IPA_PKCS11Error (ErrMsg.text "Unknown attribute")) := by
  have h' := h
  unfold AttributeAbsent at h'
  unfold IPA_PKCS11_get_attribute
  dsimp only
  rw [if_neg h', hq, check_return_value_ok]
  dsimp only
  rw [if_neg (by decide), hf, check_return_value_ok]
  dsimp only
  rw [if_neg (by decide), hu]

/-- Counterexample to C22: `CKA_MODULUS` is outside the set of codes that
`get_attribute` knows, and on a token whose key `7` has no such attribute the
error is `IPA_PKCS11NotFound` with the text `attribute does not exist`, not
`Unknown attribute`. -/
theorem get_attribute_unknown_code_not_found :
    get_attribute_case CKA_MODULUS = AttrKind.unknown ∧
    (IPA_PKCS11_get_attribute SoftToken.p11 utf8Host 7 CKA_MODULUS 4096
      (softWorld aesToken)).map (fun r => (r.1, r.2.pyerr)) =
      some (none, some ⟨PyExc.IPA_PKCS11NotFound, ErrMsg.text "attribute does not exist"⟩) := by
  decide

/-- The outcomes of `get_attribute` for a code its `switch` does not list:
nothing is returned and an error is set; `IPA_PKCS11NotFound` when the
length query reports the attribute missing; `Unknown attribute` exactly when
both calls returned `CKR_OK` and the attribute was not reported missing. -/
theorem get_attribute_unknown_code_outcomes (p : P11 σ) (host : PyHost) (object : CK_ULONG)
    (attr : Nat) (value_addr : Nat) (w : World σ)
    (hu : get_attribute_case attr = AttrKind.unknown) :
    (∃ w1 e, IPA_PKCS11_get_attribute p host object attr value_addr w = some (none, w1) ∧
      w1.pyerr = some e) ∧
    (AttributeAbsent p object attr w →
      Raises (IPA_PKCS11_get_attribute p host object attr value_addr w)
        PyExc.IPA_PKCS11NotFound) ∧
    ((∃ w1, IPA_PKCS11_get_attribute p host object attr value_addr w = some (none, w1) ∧
        w1.pyerr = some ⟨PyExc.IPA_PKCS11Error, ErrMsg.text "Unknown attribute"⟩) ↔
      (¬ AttributeAbsent p object attr w ∧
        (get_attribute_query p object attr w).1 = CKR_OK ∧
        (get_attribute_fill p object (get_attribute_query p object attr w).2.1
          (get_attribute_query p object attr w).2.2).1 = CKR_OK)) := by
  by_cases h : AttributeAbsent p object attr w
  · have e := get_attribute_absent p host object attr value_addr w h
    refine ⟨⟨_, _, e, rfl⟩, fun _ => ⟨_, _, e, rfl⟩, ?_⟩
    constructor
    · rintro ⟨w1, h1, h2⟩
      rw [e] at h1
      injection h1 with h1
      injection h1 with _ h1
      rw [← h1] at h2
      simp [World.PyErr_SetString] at h2
    · rintro ⟨h1, _⟩
      exact absurd h h1
  · by_cases hq : (get_attribute_query p object attr w).1 = CKR_OK
    · by_cases hf : (get_attribute_fill p object (get_attribute_query p object attr w).2.1
          (get_attribute_query p object attr w).2.2).1 = CKR_OK
      · have e := get_attribute_unknown_filled p host object attr value_addr w h hq hf hu
        exact ⟨⟨_, _, e, rfl⟩, fun h' => absurd h' h, fun _ => ⟨h, hq, hf⟩,
          fun _ => ⟨_, e, rfl⟩⟩
      · have e := get_attribute_fill_fails p host object attr value_addr w h hq hf
        have hc := check_return_value_error
          (get_attribute_fill p object (get_attribute_query p object attr w).2.1
            (get_attribute_query p object attr w).2.2).1 "get_attribute"
          (get_attribute_fill p object (get_attribute_query p object attr w).2.1
            (get_attribute_query p object attr w).2.2).2.2.2 hf
        refine ⟨?_, fun h' => absurd h' h, ?_, fun h' => absurd h'.2.2 hf⟩
        · rcases hc with hc | hc
          · exact ⟨_, _, e, hc⟩
          · exact ⟨_, _, e, hc⟩
        · rintro ⟨w1, h1, h2⟩
          rw [e] at h1
          injection h1 with h1
          injection h1 with _ h1
          rw [← h1] at h2
          rcases hc with hc | hc
          · rw [hc] at h2
            exact absurd h2 (by decide)
          · rw [hc] at h2
            simp at h2
    · have e := get_attribute_query_fails p host object attr value_addr w h hq
      have hc := check_return_value_error (get_attribute_query p object attr w).1
        "get_attribute init" (get_attribute_query p object attr w).2.2 hq
      refine ⟨?_, fun h' => absurd h' h, ?_, fun h' => absurd h'.2.1 hq⟩
      · rcases hc with hc | hc
        · exact ⟨_, _, e, hc⟩
        · exact ⟨_, _, e, hc⟩
      · rintro ⟨w1, h1, h2⟩
        rw [e] at h1
        injection h1 with h1
        injection h1 with _ h1
        rw [← h1] at h2
        rcases hc with hc | hc
        · rw [hc] at h2
          exact absurd h2 (by decide)
        · rw [hc] at h2
          simp at h2

/-- C22, amended. For every attribute code outside the set of codes that
`get_attribute` knows and every provider, `get_attribute` returns nothing
and sets an error.  The error is `Unknown attribute` exactly when both
`C_GetAttributeValue` calls returned `CKR_OK` and the attribute was not
reported missing; when the length query reports it missing the error is
`IPA_PKCS11NotFound`; when one of the two calls returns another status the
error is the one `check_return_value` sets for that call. -/
theorem get_attribute_unknown_code (p : P11 σ) (host : PyHost) (object : CK_ULONG)
    (attr : Nat) (value_addr : Nat) (w : World σ)
    (hu : get_attribute_case attr = AttrKind.unknown) :
    (∃ w1 e, IPA_PKCS11_get_attribute p host object attr value_addr w = some (none, w1) ∧
      w1.pyerr = some e) ∧
    (AttributeAbsent p object attr w →
      Raises (IPA_PKCS11_get_attribute p host object attr value_addr w)
        PyExc.IPA_PKCS11NotFound) ∧
    ((∃ w1, IPA_PKCS11_get_attribute p host object attr value_addr w = some (none, w1) ∧
        w1.pyerr = some ⟨PyExc.IPA_PKCS11Error, ErrMsg.text "Unknown attribute"⟩) ↔
      (¬ AttributeAbsent p object attr w ∧
        (get_attribute_query p object attr w).1 = CKR_OK ∧
        (get_attribute_fill p object (get_attribute_query p object attr w).2.1
          (get_attribute_query p object attr w).2.2).1 = CKR_OK)) ∧
    (¬ AttributeAbsent p object attr w →
      (get_attribute_query p object attr w).1 ≠ CKR_OK →
      ∃ w1, IPA_PKCS11_get_attribute p host object attr value_addr w = some (none, w1) ∧
        (w1.pyerr = some ⟨PyExc.IPA_PKCS11Error,
            ErrMsg.errorAt "get_attribute init"
              ((get_attribute_query p object attr w).1 % 2 ^ 32)⟩ ∨
          w1.pyerr = some ⟨PyExc.IPA_PKCS11Error,
            ErrMsg.text "DOUBLE ERROR: Creating the error message caused an error"⟩)) ∧
    (¬ AttributeAbsent p object attr w →
      (get_attribute_query p object attr w).1 = CKR_OK →
      (get_attribute_fill p object (get_attribute_query p object attr w).2.1
        (get_attribute_query p object attr w).2.2).1 ≠ CKR_OK →
      ∃ w1, IPA_PKCS11_get_attribute p host object attr value_addr w = some (none, w1) ∧
        (w1.pyerr = some ⟨PyExc.IPA_PKCS11Error,
            ErrMsg.errorAt "get_attribute"
              ((get_attribute_fill p object (get_attribute_query p object attr w).2.1
                (get_attribute_query p object attr w).2.2).1 % 2 ^ 32)⟩ ∨
          w1.pyerr = some ⟨PyExc.IPA_PKCS11Error,
            ErrMsg.text "DOUBLE ERROR: Creating the error message caused an error"⟩)) := by
  obtain ⟨a, b, c⟩ := get_attribute_unknown_code_outcomes p host object attr value_addr w hu
  refine ⟨a, b, c, ?_, ?_⟩
  · intro h hq
    have e := get_attribute_query_fails p host object attr value_addr w h hq
    rcases check_return_value_error (get_attribute_query p object attr w).1
      "get_attribute init" (get_attribute_query p object attr w).2.2 hq with hc | hc
    · exact ⟨_, e, Or.inr hc⟩
    · exact ⟨_, e, Or.inl hc⟩
  · intro h hq hf
    have e := get_attribute_fill_fails p host object attr value_addr w h hq hf
    rcases check_return_value_error
      (get_attribute_fill p object (get_attribute_query p object attr w).2.1
        (get_attribute_query p object attr w).2.2).1 "get_attribute"
      (get_attribute_fill p object (get_attribute_query p object attr w).2.1
        (get_attribute_query p object attr w).2.2).2.2.2 hf with hc | hc
    · exact ⟨_, e, Or.inr hc⟩
    · exact ⟨_, e, Or.inl hc⟩

/-- Witness of C22, amended: `CKA_VALUE` on the token with the AES key `7`. -/
theorem get_attribute_unknown_code_witness :
    ∃ w1 e, IPA_PKCS11_get_attribute SoftToken.p11 utf8Host 7 CKA_VALUE 4096
        (softWorld aesToken) = some (none, w1) ∧
      w1.pyerr = some e :=
  (get_attribute_unknown_code SoftToken.p11 utf8Host 7 CKA_VALUE 4096 (softWorld aesToken)
    (by decide)).1

theorem get_attribute_filled_not_absent (p : P11 σ) (host : PyHost) (object : CK_ULONG)
    (attr : Nat) (value_addr : Nat) (w : World σ) (h : ¬ AttributeAbsent p object attr w)
    (hq : (get_attribute_query p object attr w).1 = CKR_OK)
    (hf : (get_attribute_fill p object (get_attribute_query p object attr w).2.1
      (get_attribute_query p object attr w).2.2).1 = CKR_OK) :
    ¬ Raises (IPA_PKCS11_get_attribute p host object attr value_addr w)
      PyExc.IPA_PKCS11NotFound := by
  have h' := h
  unfold AttributeAbsent at h'
  rintro ⟨w1, msg, h1, h2⟩
  revert h1
  unfold IPA_PKCS11_get_attribute
  dsimp only
  rw [if_neg h', hq, check_return_value_ok]
  dsimp only
  rw [if_neg (by decide), hf, check_return_value_ok]
  dsimp only
  rw [if_neg (by decide)]
  intro h1
  cases hk : get_attribute_case attr <;> rw [hk] at h1 <;> dsimp only at h1
  all_goals (repeat' split at h1)
  all_goals first
    | (cases h1; done)
    | (cases h1; simp [World.PyErr_SetString] at h2)

/-- C23. `get_attribute` raises `IPA_PKCS11NotFound` exactly when the length
query returned `CKR_ATTRIBUTE_TYPE_INVALID` or left the length
`(unsigned long) -1`.  When it did neither and returned a status other than
`CKR_OK`, or the second call returned a status other than `CKR_OK`, the
function raises `IPA_PKCS11Error`, the error `check_return_value` sets. -/
theorem get_attribute_not_found_iff (p : P11 σ) (host : PyHost) (object : CK_ULONG)
    (attr : Nat) (value_addr : Nat) (w : World σ) :
    (Raises (IPA_PKCS11_get_attribute p host object attr value_addr w)
        PyExc.IPA_PKCS11NotFound ↔ AttributeAbsent p object attr w) ∧
    (¬ AttributeAbsent p object attr w →
      (get_attribute_query p object attr w).1 ≠ CKR_OK →
      Raises (IPA_PKCS11_get_attribute p host object attr value_addr w)
        PyExc.IPA_PKCS11Error) ∧
    (¬ AttributeAbsent p object attr w →
      (get_attribute_query p object attr w).1 = CKR_OK →
      (get_attribute_fill p object (get_attribute_query p object attr w).2.1
        (get_attribute_query p object attr w).2.2).1 ≠ CKR_OK →
      Raises (IPA_PKCS11_get_attribute p host object attr value_addr w)
        PyExc.IPA_PKCS11Error) := by
  have r1 : ¬ AttributeAbsent p object attr w →
      (get_attribute_query p object attr w).1 ≠ CKR_OK →
      Raises (IPA_PKCS11_get_attribute p host object attr value_addr w)
        PyExc.IPA_PKCS11Error := by
    intro h hq
    have e := get_attribute_query_fails p host object attr value_addr w h hq
    rcases check_return_value_error (get_attribute_query p object attr w).1
      "get_attribute init" (get_attribute_query p object attr w).2.2 hq with hc | hc
    · exact ⟨_, _, e, hc⟩
    · exact ⟨_, _, e, hc⟩
  have r2 : ¬ AttributeAbsent p object attr w →
      (get_attribute_query p object attr w).1 = CKR_OK →
      (get_attribute_fill p object (get_attribute_query p object attr w).2.1
        (get_attribute_query p object attr w).2.2).1 ≠ CKR_OK →
      Raises (IPA_PKCS11_get_attribute p host object attr value_addr w)
        PyExc.IPA_PKCS11Error := by
    intro h hq hf
    have e := get_attribute_fill_fails p host object attr value_addr w h hq hf
    rcases check_return_value_error
      (get_attribute_fill p object (get_attribute_query p object attr w).2.1
        (get_attribute_query p object attr w).2.2).1 "get_attribute"
      (get_attribute_fill p object (get_attribute_query p object attr w).2.1
        (get_attribute_query p object attr w).2.2).2.2.2 hf with hc | hc
    · exact ⟨_, _, e, hc⟩
    · exact ⟨_, _, e, hc⟩
  have distinct : ∀ r : Option (Option PyObject × World σ),
      Raises r PyExc.IPA_PKCS11Error → ¬ Raises r PyExc.IPA_PKCS11NotFound := by
    rintro r ⟨w1, m1, h1, h2⟩ ⟨w2, m2, h3, h4⟩
    rw [h1] at h3
    injection h3 with h3
    injection h3 with _ h3
    rw [h3, h4] at h2
    simp at h2
  refine ⟨⟨?_, ?_⟩, r1, r2⟩
  · intro hr
    by_contra h
    by_cases hq : (get_attribute_query p object attr w).1 = CKR_OK
    · by_cases hf : (get_attribute_fill p object (get_attribute_query p object attr w).2.1
          (get_attribute_query p object attr w).2.2).1 = CKR_OK
      · exact get_attribute_filled_not_absent p host object attr value_addr w h hq hf hr
      · exact distinct _ (r2 h hq hf) hr
    · exact distinct _ (r1 h hq) hr
  · intro h
    exact ⟨_, _, get_attribute_absent p host object attr value_addr w h, rfl⟩

/-- The `case` labels of the two `switch` statements agree: for every code
both name the branch of the same kind.  The boolean codes are the 21
capability flags, the byte string is `CKA_ID`, the text is `CKA_LABEL`, the
number is `CKA_KEY_TYPE`. -/
theorem attribute_case_agree (attr : Nat) :
    set_attribute_case attr = get_attribute_case attr ∧
    (∀ kind, set_attribute_case attr = kind ↔ get_attribute_case attr = kind) ∧
    (get_attribute_case attr = AttrKind.boolean ↔
      attr ∈ [CKA_ALWAYS_AUTHENTICATE, CKA_ALWAYS_SENSITIVE, CKA_COPYABLE, CKA_ENCRYPT,
        CKA_EXTRACTABLE, CKA_DECRYPT, CKA_DERIVE, CKA_LOCAL, CKA_MODIFIABLE,
        CKA_NEVER_EXTRACTABLE, CKA_PRIVATE, CKA_SENSITIVE, CKA_SIGN, CKA_SIGN_RECOVER,
        CKA_TOKEN, CKA_TRUSTED, CKA_UNWRAP, CKA_VERIFY, CKA_VERIFY_RECOVER, CKA_WRAP,
        CKA_WRAP_WITH_TRUSTED]) ∧
    (get_attribute_case attr = AttrKind.byteString ↔ attr = CKA_ID) ∧
    (get_attribute_case attr = AttrKind.text ↔ attr = CKA_LABEL) ∧
    (get_attribute_case attr = AttrKind.number ↔ attr = CKA_KEY_TYPE) := by
  have e : set_attribute_case attr = get_attribute_case attr := by
    unfold set_attribute_case get_attribute_case
    split
    · rfl
    · by_cases h1 : attr = CKA_ID <;> by_cases h2 : attr = CKA_LABEL <;> simp_all
  refine ⟨e, fun kind => by rw [e], ?_, ?_, ?_, ?_⟩
  · unfold get_attribute_case
    split
    · next h => simp only [List.mem_cons, List.mem_singleton, List.not_mem_nil, or_false]
                simp only [true_iff]
                exact h
    · next h =>
      constructor
      · intro h2
        split at h2 <;> (try split at h2) <;> (try split at h2) <;> simp at h2
      · intro h2
        simp only [List.mem_cons, List.mem_singleton, List.not_mem_nil, or_false] at h2
        exact absurd h2 h
  · unfold get_attribute_case
    constructor
    · intro h
      split at h
      · simp at h
      · split at h
        · simp at h
        · split at h
          · assumption
          · split at h <;> simp at h
    · intro h
      subst h
      decide
  · unfold get_attribute_case
    constructor
    · intro h
      split at h
      · simp at h
      · split at h
        · assumption
        · split at h
          · simp at h
          · split at h <;> simp at h
    · intro h
      subst h
      decide
  · unfold get_attribute_case
    constructor
    · intro h
      split at h
      · simp at h
      · split at h
        · simp at h
        · split at h
          · simp at h
          · split at h
            · assumption
            · simp at h
    · intro h
      subst h
      decide

theorem set_attribute_send_trace (p : P11 σ) (object : CK_ULONG) (a : CK_ATTRIBUTE)
    (w : World σ) :
    (set_attribute_send p object a w).2.trace =
      w.trace ++ [P11Call.C_SetAttributeValue object [a]] := by
  unfold set_attribute_send
  dsimp only
  split
  · rw [check_return_value_trace]; rfl
  · rw [check_return_value_trace]; rfl

/-- C25. `set_attribute` and its one call.  When the value has the wrong
shape for the attribute (not a string object for `CKA_ID`, not a unicode
object for `CKA_LABEL`, not an int object for `CKA_KEY_TYPE`) or the code is
not known, the function returns nothing, sets the error of that case and
calls nothing.  For a boolean code, for `CKA_ID` with a string, for
`CKA_LABEL` with a unicode object that the encoder converts, and for
`CKA_KEY_TYPE` with an int, it makes exactly one call, `C_SetAttributeValue`
with a template of one entry for that attribute: the truth value, the bytes
of the string, the UTF-8 bytes, or the number reduced modulo `2 ^ 64`.  A
unicode object that the encoder cannot convert gives the encoder's error and
no call. -/
theorem set_attribute_calls (p : P11 σ) (host : PyHost) (object : CK_ULONG) (attr : Nat)
    (value : PyObject) (w : World σ) :
    (set_attribute_case attr = AttrKind.byteString → PyString_Check value = false →
      IPA_PKCS11_set_attribute p host object attr value w =
        (none, w.PyErr_SetString PyExc.IPA_PKCS11Error
          (ErrMsg.text "String value expected"))) ∧
    (set_attribute_case attr = AttrKind.text → PyUnicode_Check value = false →
      IPA_PKCS11_set_attribute p host object attr value w =
        (none, w.PyErr_SetString PyExc.IPA_PKCS11Error
          (ErrMsg.text "Unicode value expected"))) ∧
    (set_attribute_case attr = AttrKind.number → PyInt_Check value = false →
      IPA_PKCS11_set_attribute p host object attr value w =
        (none, w.PyErr_SetString PyExc.IPA_PKCS11Error
          (ErrMsg.text "Integer value expected"))) ∧
    (set_attribute_case attr = AttrKind.unknown →
      IPA_PKCS11_set_attribute p host object attr value w =
        (none, w.PyErr_SetString PyExc.IPA_PKCS11Error (ErrMsg.text "Unknown attribute"))) ∧
    (set_attribute_case attr = AttrKind.boolean →
      (IPA_PKCS11_set_attribute p host object attr value w).2.trace = w.trace ++
        [P11Call.C_SetAttributeValue object
          [⟨attr, PValue.bbool (decide (PyObject_IsTrue value ≠ 0)), sizeof_CK_BBOOL⟩]]) ∧
    (set_attribute_case attr = AttrKind.byteString → ∀ s, value = PyObject.pyStr s →
      (IPA_PKCS11_set_attribute p host object attr value w).2.trace = w.trace ++
        [P11Call.C_SetAttributeValue object [⟨attr, PValue.bytes s, s.length⟩]]) ∧
    (set_attribute_case attr = AttrKind.text → ∀ u b, value = PyObject.pyUnicode u →
      host.PyUnicode_AsUTF8String u = some b →
      (IPA_PKCS11_set_attribute p host object attr value w).2.trace = w.trace ++
        [P11Call.C_SetAttributeValue object [⟨attr, PValue.bytes b, b.length⟩]]) ∧
    (set_attribute_case attr = AttrKind.text → ∀ u, value = PyObject.pyUnicode u →
      host.PyUnicode_AsUTF8String u = none →
      IPA_PKCS11_set_attribute p host object attr value w =
        (none, w.PyErr_SetString PyExc.IPA_PKCS11Error
          (ErrMsg.text "Unable to encode UTF-8"))) ∧
    (set_attribute_case attr = AttrKind.number → PyInt_Check value = true →
      (IPA_PKCS11_set_attribute p host object attr value w).2.trace = w.trace ++
        [P11Call.C_SetAttributeValue object
          [⟨attr, PValue.ulong (PyInt_AsUnsignedLongMask value), sizeof_CK_ULONG⟩]]) := by
  refine ⟨?_, ?_, ?_, ?_, ?_, ?_, ?_, ?_, ?_⟩
  · intro hk hv
    unfold IPA_PKCS11_set_attribute
    rw [hk]
    cases value <;> simp_all [PyString_Check]
  · intro hk hv
    unfold IPA_PKCS11_set_attribute
    rw [hk]
    cases value <;> simp_all [PyUnicode_Check]
  · intro hk hv
    unfold IPA_PKCS11_set_attribute
    rw [hk]
    simp [hv]
  · intro hk
    unfold IPA_PKCS11_set_attribute
    rw [hk]
  · intro hk
    unfold IPA_PKCS11_set_attribute
    rw [hk]
    dsimp only
    rw [set_attribute_send_trace]
    by_cases h : PyObject_IsTrue value = 0 <;> simp [h]
  · intro hk s hs
    subst hs
    unfold IPA_PKCS11_set_attribute
    rw [hk]
    dsimp only
    rw [set_attribute_send_trace]
  · intro hk u b hu hb
    subst hu
    unfold IPA_PKCS11_set_attribute
    rw [hk]
    simp only [unicode_to_char_array, hb]
    rw [set_attribute_send_trace]
  · intro hk u hu hb
    subst hu
    unfold IPA_PKCS11_set_attribute
    rw [hk]
    simp only [unicode_to_char_array, hb]
  · intro hk hv
    unfold IPA_PKCS11_set_attribute
    rw [hk]
    simp only [hv, if_true]
    rw [set_attribute_send_trace]

/-- C25 on the token with the AES key `7`: setting the label to `L2` makes
one call and the key then carries that label; a string in place of the
unicode object makes no call. -/
theorem set_attribute_example :
    (IPA_PKCS11_set_attribute SoftToken.p11 utf8Host 7 CKA_LABEL (PyObject.pyUnicode [76, 50])
      (softWorld aesToken)).1 = some PyObject.pyNone ∧
    (IPA_PKCS11_set_attribute SoftToken.p11 utf8Host 7 CKA_LABEL (PyObject.pyUnicode [76, 50])
      (softWorld aesToken)).2.trace =
        [P11Call.C_SetAttributeValue 7 [⟨CKA_LABEL, PValue.bytes [76, 50], 2⟩]] ∧
    SoftToken.attributeOf
      (IPA_PKCS11_set_attribute SoftToken.p11 utf8Host 7 CKA_LABEL (PyObject.pyUnicode [76, 50])
        (softWorld aesToken)).2.tok 7 CKA_LABEL = some ⟨CKA_LABEL, PValue.bytes [76, 50], 2⟩ ∧
    (IPA_PKCS11_set_attribute SoftToken.p11 utf8Host 7 CKA_LABEL (PyObject.pyStr [76, 50])
      (softWorld aesToken)).2.trace = [] := by
  decide

/-- C26. What a successful `get_attribute` returns for `CKA_KEY_TYPE`.  The
value is built by `Py_BuildValue("k", (unsigned long *) value)`: the argument
is the pointer, not the number it points to.  So whenever the attribute is
not reported missing and both `C_GetAttributeValue` calls return `CKR_OK`,
the function returns the address of the buffer (`value_addr`, or `0` when
`malloc` returned `NULL`), whatever key type the provider wrote into the
buffer. -/
theorem get_attribute_key_type_returns_address (p : P11 σ) (host : PyHost)
    (object : CK_ULONG) (value_addr : Nat) (w : World σ)
    (h : ¬ AttributeAbsent p object CKA_KEY_TYPE w)
    (hq : (get_attribute_query p object CKA_KEY_TYPE w).1 = CKR_OK)
    (hf : (get_attribute_fill p object (get_attribute_query p object CKA_KEY_TYPE w).2.1
      (get_attribute_query p object CKA_KEY_TYPE w).2.2).1 = CKR_OK) :
    IPA_PKCS11_get_attribute p host object CKA_KEY_TYPE value_addr w =
      some (some (PyObject.pyInt
        (if ((get_attribute_query p object CKA_KEY_TYPE w).2.2.alloc).1 = true
          then value_addr else 0)),
        (get_attribute_fill p object (get_attribute_query p object CKA_KEY_TYPE w).2.1
          (get_attribute_query p object CKA_KEY_TYPE w).2.2).2.2.2) := by
  have h' := h
  unfold AttributeAbsent at h'
  have hk : get_attribute_case CKA_KEY_TYPE = AttrKind.number := by decide
  have hv : (get_attribute_fill p object (get_attribute_query p object CKA_KEY_TYPE w).2.1
      (get_attribute_query p object CKA_KEY_TYPE w).2.2).2.2.1 = PValue.null ↔
      ((get_attribute_query p object CKA_KEY_TYPE w).2.2.alloc).1 = false := by
    unfold get_attribute_fill
    dsimp only
    exact mallocBytes_eq_null _ _
  unfold IPA_PKCS11_get_attribute
  dsimp only
  rw [if_neg h', hq, check_return_value_ok]
  dsimp only
  rw [if_neg (by decide), hf, check_return_value_ok]
  dsimp only
  rw [if_neg (by decide), hk]
  dsimp only
  by_cases ha : ((get_attribute_query p object CKA_KEY_TYPE w).2.2.alloc).1 = true
  · rw [if_neg (by rw [hv, ha]; decide), if_pos ha]
  · have ha' : ((get_attribute_query p object CKA_KEY_TYPE w).2.2.alloc).1 = false := by
      simpa using ha
    rw [if_pos (hv.mpr ha'), if_neg ha]

/-- Witness of C26: the key `7` is an AES key (`CKK_AES`, `0x1f`) and the
key `1` of the example token an RSA key (`CKK_RSA`, `0`); with the buffer at
address `4096` both calls return `4096`. -/
theorem get_attribute_key_type_returns_address_witness :
    SoftToken.attributeOf aesToken 7 CKA_KEY_TYPE =
      some ⟨CKA_KEY_TYPE, PValue.ulong CKK_AES, 8⟩ ∧
    (IPA_PKCS11_get_attribute SoftToken.p11 utf8Host 7 CKA_KEY_TYPE 4096
      (softWorld aesToken)).map (fun r => r.1) = some (some (PyObject.pyInt 4096)) ∧
    SoftToken.attributeOf exampleToken 1 CKA_KEY_TYPE =
      some ⟨CKA_KEY_TYPE, PValue.ulong CKK_RSA, 8⟩ ∧
    (IPA_PKCS11_get_attribute SoftToken.p11 utf8Host 1 CKA_KEY_TYPE 4096
      (softWorld exampleToken)).map (fun r => r.1) = some (some (PyObject.pyInt 4096)) := by
  refine ⟨by decide, ?_, by decide, ?_⟩
  · rw [get_attribute_key_type_returns_address SoftToken.p11 utf8Host 7 4096
      (softWorld aesToken) (by unfold AttributeAbsent; decide) (by decide) (by decide)]
    rfl
  · decide

/-! ## Import of a wrapped secret key: the template -/

/-- The calls `import_wrapped_secret_key` makes: those of the existence
check, followed, when the check found nothing, by one `C_UnwrapKey` call
with the template of the function. -/
theorem import_wrapped_secret_key_trace (p : P11 σ) (label_unicode : PyUnicodeObject)
    (id : List CK_BYTE) (wrapped_key : List CK_BYTE) (unwrapping_key_object : CK_ULONG)
    (wrapping_mech_type : CK_MECHANISM_TYPE) (key_type : CK_KEY_TYPE)
    (kw : Nat → Option PyObject) (w : World σ) :
    ∃ l, (∀ c ∈ l, isSearchCall c = true) ∧
      (((_id_label_exists p (some id) id.length (unicode_to_char_array label_unicode 0 w).1
            (unicode_to_char_array label_unicode 0 w).2.1 CKO_SECRET_KEY
            (unicode_to_char_array label_unicode 0 w).2.2).1 = 1 ∨
          (_id_label_exists p (some id) id.length (unicode_to_char_array label_unicode 0 w).1
            (unicode_to_char_array label_unicode 0 w).2.1 CKO_SECRET_KEY
            (unicode_to_char_array label_unicode 0 w).2.2).1 = -1) →
        (IPA_PKCS11_import_wrapped_secret_key p label_unicode id wrapped_key
          unwrapping_key_object wrapping_mech_type key_type kw w).2.trace = w.trace ++ l) ∧
      (¬ ((_id_label_exists p (some id) id.length (unicode_to_char_array label_unicode 0 w).1
            (unicode_to_char_array label_unicode 0 w).2.1 CKO_SECRET_KEY
            (unicode_to_char_array label_unicode 0 w).2.2).1 = 1 ∨
          (_id_label_exists p (some id) id.length (unicode_to_char_array label_unicode 0 w).1
            (unicode_to_char_array label_unicode 0 w).2.1 CKO_SECRET_KEY
            (unicode_to_char_array label_unicode 0 w).2.2).1 = -1) →
        (IPA_PKCS11_import_wrapped_secret_key p label_unicode id wrapped_key
          unwrapping_key_object wrapping_mech_type key_type kw w).2.trace = w.trace ++ l ++
          [P11Call.C_UnwrapKey ⟨wrapping_mech_type, PValue.null, 0⟩ unwrapping_key_object
            wrapped_key wrapped_key.length
            (import_wrapped_secret_key_template CKO_SECRET_KEY key_type (some id) id.length
              (unicode_to_char_array label_unicode 0 w).1
              (unicode_to_char_array label_unicode 0 w).2.1
              (convert_py2bool (import_wrapped_secret_key_attrs kw) 13))]) := by
  obtain ⟨l, hl, hsearch⟩ := _id_label_exists_trace p (some id) id.length
    (unicode_to_char_array label_unicode 0 w).1
    (unicode_to_char_array label_unicode 0 w).2.1 CKO_SECRET_KEY
    (unicode_to_char_array label_unicode 0 w).2.2
  rw [unicode_to_char_array_trace] at hl
  refine ⟨P11Call.C_FindObjectsInit (_id_label_exists_template (some id) id.length
      (unicode_to_char_array label_unicode 0 w).1
      (unicode_to_char_array label_unicode 0 w).2.1 CKO_SECRET_KEY) :: l, ?_, ?_, ?_⟩
  · intro c hc
    rcases List.mem_cons.mp hc with hc | hc
    · subst hc; rfl
    · exact hsearch c hc
  · intro h
    unfold IPA_PKCS11_import_wrapped_secret_key
    dsimp only
    by_cases h1 : (_id_label_exists p (some id) id.length
        (unicode_to_char_array label_unicode 0 w).1
        (unicode_to_char_array label_unicode 0 w).2.1 CKO_SECRET_KEY
        (unicode_to_char_array label_unicode 0 w).2.2).1 = 1
    · rw [if_pos h1]
      exact hl
    · rw [if_neg h1, if_pos (h.resolve_left h1)]
      exact hl
  · intro h
    unfold IPA_PKCS11_import_wrapped_secret_key
    dsimp only
    rw [if_neg (fun h1 => h (Or.inl h1)), if_neg (fun h1 => h (Or.inr h1))]
    split
    · rw [check_return_value_trace]
      simp only [World.unwrapKey]
      rw [hl]
    · rw [check_return_value_trace]
      simp only [World.unwrapKey]
      rw [hl]

/-- C27. The template `import_wrapped_secret_key` passes to `C_UnwrapKey`.
Every `C_UnwrapKey` call the function makes carries the caller's blob and a
template that is built from the caller's `key_type`, `label`, `id` and
keyword booleans only: it holds `CKA_KEY_TYPE` with the supplied key type,
`CKA_LABEL` with the bytes of the supplied label, `CKA_ID` with the supplied
id, `CKA_CLASS` with `CKO_SECRET_KEY` and `CKA_TOKEN` true.  The blob and the
unwrapping key do not enter the template.  The call is made whenever the
existence check found no key. -/
theorem import_wrapped_secret_key_template_identity (p : P11 σ)
    (label_unicode : PyUnicodeObject) (id : List CK_BYTE) (wrapped_key : List CK_BYTE)
    (unwrapping_key_object : CK_ULONG) (wrapping_mech_type : CK_MECHANISM_TYPE)
    (key_type : CK_KEY_TYPE) (kw : Nat → Option PyObject) (w : World σ) :
    (∀ m k blob len t,
      P11Call.C_UnwrapKey m k blob len t ∈
        (IPA_PKCS11_import_wrapped_secret_key p label_unicode id wrapped_key
          unwrapping_key_object wrapping_mech_type key_type kw w).2.trace.drop
            w.trace.length →
      blob = wrapped_key ∧
      t = import_wrapped_secret_key_template CKO_SECRET_KEY key_type (some id) id.length
        (unicode_to_char_array label_unicode 0 w).1
        (unicode_to_char_array label_unicode 0 w).2.1
        (convert_py2bool (import_wrapped_secret_key_attrs kw) 13) ∧
      (⟨CKA_KEY_TYPE, PValue.ulong key_type, sizeof_CK_ULONG⟩ : CK_ATTRIBUTE) ∈ t ∧
      (∀ label, label_unicode.utf8 = some label →
        (⟨CKA_LABEL, PValue.bytes label, label.length⟩ : CK_ATTRIBUTE) ∈ t) ∧
      (⟨CKA_ID, PValue.bytes id, id.length⟩ : CK_ATTRIBUTE) ∈ t ∧
      (⟨CKA_CLASS, PValue.ulong CKO_SECRET_KEY, sizeof_CK_ULONG⟩ : CK_ATTRIBUTE) ∈ t ∧
      (⟨CKA_TOKEN, PValue.bbool true, sizeof_CK_BBOOL⟩ : CK_ATTRIBUTE) ∈ t) ∧
    (¬ ((_id_label_exists p (some id) id.length (unicode_to_char_array label_unicode 0 w).1
          (unicode_to_char_array label_unicode 0 w).2.1 CKO_SECRET_KEY
          (unicode_to_char_array label_unicode 0 w).2.2).1 = 1 ∨
        (_id_label_exists p (some id) id.length (unicode_to_char_array label_unicode 0 w).1
          (unicode_to_char_array label_unicode 0 w).2.1 CKO_SECRET_KEY
          (unicode_to_char_array label_unicode 0 w).2.2).1 = -1) →
      ∃ m k blob len t, P11Call.C_UnwrapKey m k blob len t ∈
        (IPA_PKCS11_import_wrapped_secret_key p label_unicode id wrapped_key
          unwrapping_key_object wrapping_mech_type key_type kw w).2.trace.drop
            w.trace.length) := by
  obtain ⟨l, hsearch, hfail, hcall⟩ := import_wrapped_secret_key_trace p label_unicode id
    wrapped_key unwrapping_key_object wrapping_mech_type key_type kw w
  have hnot : ∀ m k blob len t, P11Call.C_UnwrapKey m k blob len t ∉ l := by
    intro m k blob len t hmem
    have := hsearch _ hmem
    simp [isSearchCall] at this
  constructor
  · intro m k blob len t hmem
    by_cases h : ((_id_label_exists p (some id) id.length
          (unicode_to_char_array label_unicode 0 w).1
          (unicode_to_char_array label_unicode 0 w).2.1 CKO_SECRET_KEY
          (unicode_to_char_array label_unicode 0 w).2.2).1 = 1 ∨
        (_id_label_exists p (some id) id.length (unicode_to_char_array label_unicode 0 w).1
          (unicode_to_char_array label_unicode 0 w).2.1 CKO_SECRET_KEY
          (unicode_to_char_array label_unicode 0 w).2.2).1 = -1)
    · rw [hfail h, List.drop_left] at hmem
      exact absurd hmem (hnot m k blob len t)
    · rw [hcall h, List.append_assoc, List.drop_left] at hmem
      rcases List.mem_append.mp hmem with hmem | hmem
      · exact absurd hmem (hnot m k blob len t)
      · simp only [List.mem_singleton] at hmem
        injection hmem with _ _ hb _ ht
        refine ⟨hb, ht, ?_, ?_, ?_, ?_, ?_⟩
        · rw [ht]; simp [import_wrapped_secret_key_template]
        · intro label hlabel
          rw [ht]
          simp [import_wrapped_secret_key_template, unicode_to_char_array, hlabel, bytePtr]
        · rw [ht]; simp [import_wrapped_secret_key_template, bytePtr]
        · rw [ht]; simp [import_wrapped_secret_key_template]
        · rw [ht]; simp [import_wrapped_secret_key_template]
  · intro h
    refine ⟨⟨wrapping_mech_type, PValue.null, 0⟩, unwrapping_key_object, wrapped_key,
      wrapped_key.length,
      import_wrapped_secret_key_template CKO_SECRET_KEY key_type (some id) id.length
        (unicode_to_char_array label_unicode 0 w).1
        (unicode_to_char_array label_unicode 0 w).2.1
        (convert_py2bool (import_wrapped_secret_key_attrs kw) 13), ?_⟩
    rw [hcall h, List.append_assoc, List.drop_left]
    exact List.mem_append_right _ (List.mem_singleton.mpr rfl)

/-- C27 on the token with the AES key `7`: two blobs imported under the
identities `L2`/`09` and `L2`/`0a` with key type `CKK_AES` give objects
that carry the supplied label, id and key type. -/
theorem import_wrapped_secret_key_example :
    SoftToken.attributeOf
      (IPA_PKCS11_import_wrapped_secret_key SoftToken.p11 labelL2 [9] [0xde, 0xad] 7
        CKM_AES_KEY_WRAP CKK_AES noOverrides (softWorld aesToken)).2.tok 8 CKA_KEY_TYPE =
      some ⟨CKA_KEY_TYPE, PValue.ulong CKK_AES, 8⟩ ∧
    SoftToken.attributeOf
      (IPA_PKCS11_import_wrapped_secret_key SoftToken.p11 labelL2 [9] [0xde, 0xad] 7
        CKM_AES_KEY_WRAP CKK_AES noOverrides (softWorld aesToken)).2.tok 8 CKA_LABEL =
      some ⟨CKA_LABEL, PValue.bytes [76, 50], 2⟩ ∧
    SoftToken.attributeOf
      (IPA_PKCS11_import_wrapped_secret_key SoftToken.p11 labelL2 [0xa] [0xbe, 0xef, 0x01] 7
        CKM_AES_KEY_WRAP CKK_AES noOverrides (softWorld aesToken)).2.tok 8 CKA_ID =
      some ⟨CKA_ID, PValue.bytes [0xa], 1⟩ := by
  decide

/-! ## The existence check: `NULL` filters -/

/-- C28. The search template of `_id_label_exists` always has its three
entries.  An `id` that is `NULL` is not left out: the entry
`CKA_ID` is submitted with a `NULL` value and the length `id_len`; the same
holds for a `NULL` `label`.  So an entry `CKA_ID` is in the template also
when `id` is `NULL`, and an entry `CKA_LABEL` also when `label` is `NULL`,
and this template is the one passed to `C_FindObjectsInit`. -/
theorem id_label_exists_keeps_null_filters (p : P11 σ) (id : Option (List CK_BYTE))
    (id_len : CK_ULONG) (label : Option (List CK_BYTE)) (label_len : CK_ULONG)
    (cls : CK_OBJECT_CLASS) (w : World σ) :
    _id_label_exists_template id id_len label label_len cls =
      [⟨CKA_ID, bytePtr id, id_len⟩, ⟨CKA_LABEL, bytePtr label, label_len⟩,
       ⟨CKA_CLASS, PValue.ulong cls, sizeof_CK_ULONG⟩] ∧
    (⟨CKA_ID, PValue.null, id_len⟩ : CK_ATTRIBUTE) ∈
      _id_label_exists_template none id_len label label_len cls ∧
    (⟨CKA_LABEL, PValue.null, label_len⟩ : CK_ATTRIBUTE) ∈
      _id_label_exists_template id id_len none label_len cls ∧
    (∃ l, (_id_label_exists p id id_len label label_len cls w).2.trace = w.trace ++
      P11Call.C_FindObjectsInit (_id_label_exists_template id id_len label label_len cls) ::
        l) := by
  refine ⟨rfl, ?_, ?_, ?_⟩
  · simp [_id_label_exists_template, bytePtr]
  · simp [_id_label_exists_template, bytePtr]
  · obtain ⟨l, hl, _⟩ := _id_label_exists_trace p id id_len label label_len cls w
    exact ⟨l, hl⟩

/-- C28 on the example token, which holds two public keys labelled `L1`:
with `id` `NULL`, `_find_key` leaves the id out and finds both, while
`_id_label_exists` submits the entry `CKA_ID` with a `NULL` value and finds
none. -/
theorem id_label_exists_null_id_example :
    (_find_key SoftToken.p11 none 0 (some [76, 49]) 2 CKO_PUBLIC_KEY none none none 0 5
      (softWorld exampleToken)).map (fun r => r.1) = some ⟨1, some [1, 2], 2⟩ ∧
    (_id_label_exists SoftToken.p11 none 0 (some [76, 49]) 2 CKO_PUBLIC_KEY
      (softWorld exampleToken)).1 = 0 ∧
    (_id_label_exists SoftToken.p11 none 0 (some [76, 49]) 2 CKO_PUBLIC_KEY
      (softWorld exampleToken)).2.trace =
      [P11Call.C_FindObjectsInit
        [⟨CKA_ID, PValue.null, 0⟩, ⟨CKA_LABEL, PValue.bytes [76, 49], 2⟩,
         ⟨CKA_CLASS, PValue.ulong CKO_PUBLIC_KEY, 8⟩],
       P11Call.C_FindObjects, P11Call.C_FindObjectsFinal] := by
  decide

/-! ## The copyable keyword -/

theorem attrBoolPtr_convert_of_agree (m m' : List PyObj2Bool_mapping_t) (n i : Nat)
    (h : m[i]? = m'[i]?) :
    attrBoolPtr (convert_py2bool m n) i = attrBoolPtr (convert_py2bool m' n) i := by
  unfold attrBoolPtr
  rw [convert_py2bool_getElem?, convert_py2bool_getElem?, h]

theorem generate_master_key_attrs_agree (kw kw' : Nat → Option PyObject)
    (h : ∀ i, i ≠ sec_en_cka_copyable → kw i = kw' i) (i : Nat)
    (hi : i ≠ sec_en_cka_copyable) :
    (generate_master_key_attrs kw)[i]? = (generate_master_key_attrs kw')[i]? := by
  unfold generate_master_key_attrs
  match i, hi with
  | 0, hi => exact absurd rfl hi
  | 1, _ => simp [h 1 (by decide)]
  | 2, _ => simp [h 2 (by decide)]
  | 3, _ => simp [h 3 (by decide)]
  | 4, _ => simp [h 4 (by decide)]
  | 5, _ => simp [h 5 (by decide)]
  | 6, _ => simp [h 6 (by decide)]
  | 7, _ => simp [h 7 (by decide)]
  | 8, _ => simp [h 8 (by decide)]
  | 9, _ => simp [h 9 (by decide)]
  | 10, _ => simp [h 10 (by decide)]
  | 11, _ => simp [h 11 (by decide)]
  | 12, _ => simp [h 12 (by decide)]
  | n + 13, _ => simp

theorem generate_master_key_template_agree (kw kw' : Nat → Option PyObject)
    (h : ∀ i, i ≠ sec_en_cka_copyable → kw i = kw' i)
    (id : Option (List CK_BYTE)) (id_length : CK_ULONG) (label : Option (List CK_BYTE))
    (label_length : CK_ULONG) (key_length : CK_ULONG) :
    generate_master_key_template id id_length label label_length key_length
      (convert_py2bool (generate_master_key_attrs kw) 13) =
    generate_master_key_template id id_length label label_length key_length
      (convert_py2bool (generate_master_key_attrs kw') 13) := by
  have hA : ∀ i, i ≠ sec_en_cka_copyable →
      attrBool (convert_py2bool (generate_master_key_attrs kw) 13) i =
      attrBool (convert_py2bool (generate_master_key_attrs kw') 13) i := by
    intro i hi
    unfold attrBool
    rw [attrBoolPtr_convert_of_agree _ _ 13 i (generate_master_key_attrs_agree kw kw' h i hi)]
  unfold generate_master_key_template
  rw [hA sec_en_cka_decrypt (by decide), hA sec_en_cka_derive (by decide),
    hA sec_en_cka_encrypt (by decide), hA sec_en_cka_extractable (by decide),
    hA sec_en_cka_modifiable (by decide), hA sec_en_cka_private (by decide),
    hA sec_en_cka_sensitive (by decide), hA sec_en_cka_sign (by decide),
    hA sec_en_cka_unwrap (by decide), hA sec_en_cka_verify (by decide),
    hA sec_en_cka_wrap (by decide), hA sec_en_cka_wrap_with_trusted (by decide)]

theorem generate_master_key_copyable (p : P11 σ) (label_unicode : PyUnicodeObject)
    (id : List CK_BYTE) (key_length : CK_ULONG) (kw kw' : Nat → Option PyObject)
    (w : World σ) (h : ∀ i, i ≠ sec_en_cka_copyable → kw i = kw' i) :
    IPA_PKCS11_generate_master_key p label_unicode id key_length kw w =
      IPA_PKCS11_generate_master_key p label_unicode id key_length kw' w := by
  unfold IPA_PKCS11_generate_master_key
  dsimp only
  rw [generate_master_key_template_agree kw kw' h]

theorem import_wrapped_secret_key_attrs_agree (kw kw' : Nat → Option PyObject)
    (h : ∀ i, i ≠ sec_en_cka_copyable → kw i = kw' i) (i : Nat)
    (hi : i ≠ sec_en_cka_copyable) :
    (import_wrapped_secret_key_attrs kw)[i]? = (import_wrapped_secret_key_attrs kw')[i]? := by
  unfold import_wrapped_secret_key_attrs
  match i, hi with
  | 0, hi => exact absurd rfl hi
  | 1, _ => simp [h 1 (by decide)]
  | 2, _ => simp [h 2 (by decide)]
  | 3, _ => simp [h 3 (by decide)]
  | 4, _ => simp [h 4 (by decide)]
  | 5, _ => simp [h 5 (by decide)]
  | 6, _ => simp [h 6 (by decide)]
  | 7, _ => simp [h 7 (by decide)]
  | 8, _ => simp [h 8 (by decide)]
  | 9, _ => simp [h 9 (by decide)]
  | 10, _ => simp [h 10 (by decide)]
  | 11, _ => simp [h 11 (by decide)]
  | 12, _ => simp [h 12 (by decide)]
  | n + 13, _ => simp

theorem import_wrapped_secret_key_template_agree (kw kw' : Nat → Option PyObject)
    (h : ∀ i, i ≠ sec_en_cka_copyable → kw i = kw' i)
    (key_class : CK_OBJECT_CLASS) (key_type : CK_KEY_TYPE)
    (id : Option (List CK_BYTE)) (id_length : CK_ULONG) (label : Option (List CK_BYTE))
    (label_length : CK_ULONG) :
    import_wrapped_secret_key_template key_class key_type id id_length label label_length
      (convert_py2bool (import_wrapped_secret_key_attrs kw) 13) =
    import_wrapped_secret_key_template key_class key_type id id_length label label_length
      (convert_py2bool (import_wrapped_secret_key_attrs kw') 13) := by
  have hA : ∀ i, i ≠ sec_en_cka_copyable →
      attrBool (convert_py2bool (import_wrapped_secret_key_attrs kw) 13) i =
      attrBool (convert_py2bool (import_wrapped_secret_key_attrs kw') 13) i := by
    intro i hi
    unfold attrBool
    rw [attrBoolPtr_convert_of_agree _ _ 13 i (import_wrapped_secret_key_attrs_agree kw kw' h i hi)]
  unfold import_wrapped_secret_key_template
  rw [hA sec_en_cka_decrypt (by decide),
    hA sec_en_cka_derive (by decide),
    hA sec_en_cka_encrypt (by decide),
    hA sec_en_cka_extractable (by decide),
    hA sec_en_cka_modifiable (by decide),
    hA sec_en_cka_private (by decide),
    hA sec_en_cka_sensitive (by decide),
    hA sec_en_cka_sign (by decide),
    hA sec_en_cka_unwrap (by decide),
    hA sec_en_cka_verify (by decide),
    hA sec_en_cka_wrap (by decide),
    hA sec_en_cka_wrap_with_trusted (by decide)]

theorem generate_replica_key_pair_attrs_pub_agree (kw kw' : Nat → Option PyObject)
    (h : ∀ i, i ≠ pub_en_cka_copyable → kw i = kw' i) (i : Nat)
    (hi : i ≠ pub_en_cka_copyable) :
    (generate_replica_key_pair_attrs_pub kw)[i]? = (generate_replica_key_pair_attrs_pub kw')[i]? := by
  unfold generate_replica_key_pair_attrs_pub
  match i, hi with
  | 0, hi => exact absurd rfl hi
  | 1, _ => simp [h 1 (by decide)]
  | 2, _ => simp [h 2 (by decide)]
  | 3, _ => simp [h 3 (by decide)]
  | 4, _ => simp [h 4 (by decide)]
  | 5, _ => simp [h 5 (by decide)]
  | 6, _ => simp [h 6 (by decide)]
  | 7, _ => simp [h 7 (by decide)]
  | 8, _ => simp [h 8 (by decide)]
  | n + 9, _ => simp

theorem generate_replica_key_pair_publicKeyTemplate_agree (kw kw' : Nat → Option PyObject)
    (h : ∀ i, i ≠ pub_en_cka_copyable → kw i = kw' i)
    (id : Option (List CK_BYTE)) (id_length : CK_ULONG) (label : Option (List CK_BYTE))
    (label_length : CK_ULONG) (modulus_bits : CK_ULONG) :
    generate_replica_key_pair_publicKeyTemplate id id_length label label_length modulus_bits
      (convert_py2bool (generate_replica_key_pair_attrs_pub kw) 9) =
    generate_replica_key_pair_publicKeyTemplate id id_length label label_length modulus_bits
      (convert_py2bool (generate_replica_key_pair_attrs_pub kw') 9) := by
  have hA : ∀ i, i ≠ pub_en_cka_copyable →
      attrBool (convert_py2bool (generate_replica_key_pair_attrs_pub kw) 9) i =
      attrBool (convert_py2bool (generate_replica_key_pair_attrs_pub kw') 9) i := by
    intro i hi
    unfold attrBool
    rw [attrBoolPtr_convert_of_agree _ _ 9 i (generate_replica_key_pair_attrs_pub_agree kw kw' h i hi)]
  unfold generate_replica_key_pair_publicKeyTemplate
  rw [hA pub_en_cka_derive (by decide),
    hA pub_en_cka_encrypt (by decide),
    hA pub_en_cka_modifiable (by decide),
    hA pub_en_cka_private (by decide),
    hA pub_en_cka_trusted (by decide),
    hA pub_en_cka_verify (by decide),
    hA pub_en_cka_verify_recover (by decide),
    hA pub_en_cka_wrap (by decide)]

theorem generate_replica_key_pair_attrs_priv_agree (kw kw' : Nat → Option PyObject)
    (h : ∀ i, i ≠ priv_en_cka_copyable → kw i = kw' i) (i : Nat)
    (hi : i ≠ priv_en_cka_copyable) :
    (generate_replica_key_pair_attrs_priv kw)[i]? = (generate_replica_key_pair_attrs_priv kw')[i]? := by
  unfold generate_replica_key_pair_attrs_priv
  match i, hi with
  | 0, _ => simp [h 0 (by decide)]
  | 1, hi => exact absurd rfl hi
  | 2, _ => simp [h 2 (by decide)]
  | 3, _ => simp [h 3 (by decide)]
  | 4, _ => simp [h 4 (by decide)]
  | 5, _ => simp [h 5 (by decide)]
  | 6, _ => simp [h 6 (by decide)]
  | 7, _ => simp [h 7 (by decide)]
  | 8, _ => simp [h 8 (by decide)]
  | 9, _ => simp [h 9 (by decide)]
  | 10, _ => simp [h 10 (by decide)]
  | 11, _ => simp [h 11 (by decide)]
  | n + 12, _ => simp

theorem generate_replica_key_pair_privateKeyTemplate_agree (kw kw' : Nat → Option PyObject)
    (h : ∀ i, i ≠ priv_en_cka_copyable → kw i = kw' i)
    (id : Option (List CK_BYTE)) (id_length : CK_ULONG) (label : Option (List CK_BYTE))
    (label_length : CK_ULONG) :
    generate_replica_key_pair_privateKeyTemplate id id_length label label_length
      (convert_py2bool (generate_replica_key_pair_attrs_priv kw) 12) =
    generate_replica_key_pair_privateKeyTemplate id id_length label label_length
      (convert_py2bool (generate_replica_key_pair_attrs_priv kw') 12) := by
  have hA : ∀ i, i ≠ priv_en_cka_copyable →
      attrBool (convert_py2bool (generate_replica_key_pair_attrs_priv kw) 12) i =
      attrBool (convert_py2bool (generate_replica_key_pair_attrs_priv kw') 12) i := by
    intro i hi
    unfold attrBool
    rw [attrBoolPtr_convert_of_agree _ _ 12 i (generate_replica_key_pair_attrs_priv_agree kw kw' h i hi)]
  unfold generate_replica_key_pair_privateKeyTemplate
  rw [hA priv_en_cka_always_authenticate (by decide),
    hA priv_en_cka_decrypt (by decide),
    hA priv_en_cka_derive (by decide),
    hA priv_en_cka_extractable (by decide),
    hA priv_en_cka_modifiable (by decide),
    hA priv_en_cka_private (by decide),
    hA priv_en_cka_sensitive (by decide),
    hA priv_en_cka_sign (by decide),
    hA priv_en_cka_unwrap (by decide),
    hA priv_en_cka_wrap_with_trusted (by decide)]

theorem import_wrapped_private_key_attrs_priv_agree (kw kw' : Nat → Option PyObject)
    (h : ∀ i, i ≠ priv_en_cka_copyable → kw i = kw' i) (i : Nat)
    (hi : i ≠ priv_en_cka_copyable) :
    (import_wrapped_private_key_attrs_priv kw)[i]? = (import_wrapped_private_key_attrs_priv kw')[i]? := by
  unfold import_wrapped_private_key_attrs_priv
  match i, hi with
  | 0, _ => simp [h 0 (by decide)]
  | 1, hi => exact absurd rfl hi
  | 2, _ => simp [h 2 (by decide)]
  | 3, _ => simp [h 3 (by decide)]
  | 4, _ => simp [h 4 (by decide)]
  | 5, _ => simp [h 5 (by decide)]
  | 6, _ => simp [h 6 (by decide)]
  | 7, _ => simp [h 7 (by decide)]
  | 8, _ => simp [h 8 (by decide)]
  | 9, _ => simp [h 9 (by decide)]
  | 10, _ => simp [h 10 (by decide)]
  | 11, _ => simp [h 11 (by decide)]
  | n + 12, _ => simp

theorem import_wrapped_private_key_template_agree (kw kw' : Nat → Option PyObject)
    (h : ∀ i, i ≠ priv_en_cka_copyable → kw i = kw' i)
    (key_class : CK_OBJECT_CLASS) (key_type : CK_KEY_TYPE)
    (id : Option (List CK_BYTE)) (id_length : CK_ULONG) (label : Option (List CK_BYTE))
    (label_length : CK_ULONG) :
    import_wrapped_private_key_template key_class key_type id id_length label label_length
      (convert_py2bool (import_wrapped_private_key_attrs_priv kw) 12) =
    import_wrapped_private_key_template key_class key_type id id_length label label_length
      (convert_py2bool (import_wrapped_private_key_attrs_priv kw') 12) := by
  have hA : ∀ i, i ≠ priv_en_cka_copyable →
      attrBool (convert_py2bool (import_wrapped_private_key_attrs_priv kw) 12) i =
      attrBool (convert_py2bool (import_wrapped_private_key_attrs_priv kw') 12) i := by
    intro i hi
    unfold attrBool
    rw [attrBoolPtr_convert_of_agree _ _ 12 i (import_wrapped_private_key_attrs_priv_agree kw kw' h i hi)]
  unfold import_wrapped_private_key_template
  rw [hA priv_en_cka_always_authenticate (by decide),
    hA priv_en_cka_decrypt (by decide),
    hA priv_en_cka_derive (by decide),
    hA priv_en_cka_extractable (by decide),
    hA priv_en_cka_modifiable (by decide),
    hA priv_en_cka_private (by decide),
    hA priv_en_cka_sensitive (by decide),
    hA priv_en_cka_sign (by decide),
    hA priv_en_cka_unwrap (by decide),
    hA priv_en_cka_wrap_with_trusted (by decide)]

theorem import_public_key_attrs_pub_agree (kw kw' : Nat → Option PyObject)
    (h : ∀ i, i ≠ pub_en_cka_copyable → kw i = kw' i) (i : Nat)
    (hi : i ≠ pub_en_cka_copyable) :
    (import_public_key_attrs_pub kw)[i]? = (import_public_key_attrs_pub kw')[i]? := by
  unfold import_public_key_attrs_pub
  match i, hi with
  | 0, hi => exact absurd rfl hi
  | 1, _ => simp [h 1 (by decide)]
  | 2, _ => simp [h 2 (by decide)]
  | 3, _ => simp [h 3 (by decide)]
  | 4, _ => simp [h 4 (by decide)]
  | 5, _ => simp [h 5 (by decide)]
  | 6, _ => simp [h 6 (by decide)]
  | 7, _ => simp [h 7 (by decide)]
  | 8, _ => simp [h 8 (by decide)]
  | n + 9, _ => simp

theorem import_wrapped_secret_key_copyable (p : P11 σ) (label_unicode : PyUnicodeObject)
    (id : List CK_BYTE) (wrapped_key : List CK_BYTE) (unwrapping_key_object : CK_ULONG)
    (wrapping_mech_type : CK_MECHANISM_TYPE) (key_type : CK_KEY_TYPE)
    (kw kw' : Nat → Option PyObject) (w : World σ)
    (h : ∀ i, i ≠ sec_en_cka_copyable → kw i = kw' i) :
    IPA_PKCS11_import_wrapped_secret_key p label_unicode id wrapped_key unwrapping_key_object
      wrapping_mech_type key_type kw w =
    IPA_PKCS11_import_wrapped_secret_key p label_unicode id wrapped_key unwrapping_key_object
      wrapping_mech_type key_type kw' w := by
  unfold IPA_PKCS11_import_wrapped_secret_key
  dsimp only
  rw [import_wrapped_secret_key_template_agree kw kw' h]

theorem import_wrapped_private_key_copyable (p : P11 σ) (label_unicode : PyUnicodeObject)
    (id : List CK_BYTE) (wrapped_key : List CK_BYTE) (unwrapping_key_object : CK_ULONG)
    (wrapping_mech_type : CK_MECHANISM_TYPE) (key_type : CK_KEY_TYPE)
    (kw kw' : Nat → Option PyObject) (w : World σ)
    (h : ∀ i, i ≠ priv_en_cka_copyable → kw i = kw' i) :
    IPA_PKCS11_import_wrapped_private_key p label_unicode id wrapped_key
      unwrapping_key_object wrapping_mech_type key_type kw w =
    IPA_PKCS11_import_wrapped_private_key p label_unicode id wrapped_key
      unwrapping_key_object wrapping_mech_type key_type kw' w := by
  unfold IPA_PKCS11_import_wrapped_private_key
  dsimp only
  rw [import_wrapped_private_key_template_agree kw kw' h]

theorem generate_replica_key_pair_copyable (p : P11 σ) (label_unicode : PyUnicodeObject)
    (id : List CK_BYTE) (modulus_bits : CK_ULONG)
    (kw_pub kw_pub' kw_priv kw_priv' : Nat → Option PyObject) (w : World σ)
    (hpub : ∀ i, i ≠ pub_en_cka_copyable → kw_pub i = kw_pub' i)
    (hpriv : ∀ i, i ≠ priv_en_cka_copyable → kw_priv i = kw_priv' i) :
    IPA_PKCS11_generate_replica_key_pair p label_unicode id modulus_bits kw_pub kw_priv w =
      IPA_PKCS11_generate_replica_key_pair p label_unicode id modulus_bits kw_pub' kw_priv'
        w := by
  unfold IPA_PKCS11_generate_replica_key_pair
  dsimp only
  rw [generate_replica_key_pair_publicKeyTemplate_agree kw_pub kw_pub' hpub,
    generate_replica_key_pair_privateKeyTemplate_agree kw_priv kw_priv' hpriv]

theorem import_RSA_public_key_copyable (p : P11 σ) (ssl : OpenSSL)
    (label : Option (List CK_BYTE)) (label_length : CK_ULONG)
    (id : Option (List CK_BYTE)) (id_length : CK_ULONG) (pkey : EVP_PKEY)
    (cka_copyable cka_copyable' cka_derive cka_encrypt cka_modifiable cka_private cka_trusted
      cka_verify cka_verify_recover cka_wrap : Option Bool) (w : World σ) :
    IPA_PKCS11_import_RSA_public_key p ssl label label_length id id_length pkey
      cka_copyable cka_derive cka_encrypt cka_modifiable cka_private cka_trusted
      cka_verify cka_verify_recover cka_wrap w =
    IPA_PKCS11_import_RSA_public_key p ssl label label_length id id_length pkey
      cka_copyable' cka_derive cka_encrypt cka_modifiable cka_private cka_trusted
      cka_verify cka_verify_recover cka_wrap w := by
  unfold IPA_PKCS11_import_RSA_public_key
  rfl

theorem import_public_key_copyable (p : P11 σ) (ssl : OpenSSL)
    (label_unicode : PyUnicodeObject) (id : List CK_BYTE) (data : List CK_BYTE)
    (kw kw' : Nat → Option PyObject) (w : World σ)
    (h : ∀ i, i ≠ pub_en_cka_copyable → kw i = kw' i) :
    IPA_PKCS11_import_public_key p ssl label_unicode id data kw w =
      IPA_PKCS11_import_public_key p ssl label_unicode id data kw' w := by
  have hA : ∀ i, i ≠ pub_en_cka_copyable →
      attrBoolPtr (convert_py2bool (import_public_key_attrs_pub kw) 9) i =
      attrBoolPtr (convert_py2bool (import_public_key_attrs_pub kw') 9) i := by
    intro i hi
    rw [attrBoolPtr_convert_of_agree _ _ 9 i (import_public_key_attrs_pub_agree kw kw' h i hi)]
  unfold IPA_PKCS11_import_public_key
  dsimp only
  rw [hA pub_en_cka_derive (by decide), hA pub_en_cka_encrypt (by decide),
    hA pub_en_cka_modifiable (by decide), hA pub_en_cka_private (by decide),
    hA pub_en_cka_trusted (by decide), hA pub_en_cka_verify (by decide),
    hA pub_en_cka_verify_recover (by decide), hA pub_en_cka_wrap (by decide)]
  simp only [import_RSA_public_key_copyable p ssl _ _ _ _ _
    (attrBoolPtr (convert_py2bool (import_public_key_attrs_pub kw) 9) pub_en_cka_copyable)
    (attrBoolPtr (convert_py2bool (import_public_key_attrs_pub kw') 9) pub_en_cka_copyable)]

/-- C30. The copyable keyword does not reach the provider.  Two calls of
`generate_master_key` that differ only in the `cka_copyable` override have
the same outcome: the same return value and the same world afterwards, so
the same logged calls with the same templates.  The same holds for
`generate_replica_key_pair` (overrides `pub_cka_copyable` and
`priv_cka_copyable`), `import_public_key`, `import_wrapped_secret_key` and
`import_wrapped_private_key`.  None of the templates these functions build
has an entry of type `CKA_COPYABLE`. -/
theorem copyable_never_reaches_token (p : P11 σ) (ssl : OpenSSL)
    (label_unicode : PyUnicodeObject) (id : List CK_BYTE) (w : World σ) :
    (∀ (kw kw' : Nat → Option PyObject) (key_length : CK_ULONG),
      (∀ i, i ≠ sec_en_cka_copyable → kw i = kw' i) →
      IPA_PKCS11_generate_master_key p label_unicode id key_length kw w =
        IPA_PKCS11_generate_master_key p label_unicode id key_length kw' w) ∧
    (∀ (kw_pub kw_pub' kw_priv kw_priv' : Nat → Option PyObject) (modulus_bits : CK_ULONG),
      (∀ i, i ≠ pub_en_cka_copyable → kw_pub i = kw_pub' i) →
      (∀ i, i ≠ priv_en_cka_copyable → kw_priv i = kw_priv' i) →
      IPA_PKCS11_generate_replica_key_pair p label_unicode id modulus_bits kw_pub kw_priv w =
        IPA_PKCS11_generate_replica_key_pair p label_unicode id modulus_bits kw_pub'
          kw_priv' w) ∧
    (∀ (kw kw' : Nat → Option PyObject) (data : List CK_BYTE),
      (∀ i, i ≠ pub_en_cka_copyable → kw i = kw' i) →
      IPA_PKCS11_import_public_key p ssl label_unicode id data kw w =
        IPA_PKCS11_import_public_key p ssl label_unicode id data kw' w) ∧
    (∀ (kw kw' : Nat → Option PyObject) (wrapped_key : List CK_BYTE)
      (unwrapping_key_object : CK_ULONG) (wrapping_mech_type : CK_MECHANISM_TYPE)
      (key_type : CK_KEY_TYPE),
      (∀ i, i ≠ sec_en_cka_copyable → kw i = kw' i) →
      IPA_PKCS11_import_wrapped_secret_key p label_unicode id wrapped_key
          unwrapping_key_object wrapping_mech_type key_type kw w =
        IPA_PKCS11_import_wrapped_secret_key p label_unicode id wrapped_key
          unwrapping_key_object wrapping_mech_type key_type kw' w) ∧
    (∀ (kw kw' : Nat → Option PyObject) (wrapped_key : List CK_BYTE)
      (unwrapping_key_object : CK_ULONG) (wrapping_mech_type : CK_MECHANISM_TYPE)
      (key_type : CK_KEY_TYPE),
      (∀ i, i ≠ priv_en_cka_copyable → kw i = kw' i) →
      IPA_PKCS11_import_wrapped_private_key p label_unicode id wrapped_key
          unwrapping_key_object wrapping_mech_type key_type kw w =
        IPA_PKCS11_import_wrapped_private_key p label_unicode id wrapped_key
          unwrapping_key_object wrapping_mech_type key_type kw' w) ∧
    (∀ (i l : Option (List CK_BYTE)) (il ll n : CK_ULONG) (attrs : List PyObj2Bool_mapping_t),
      CKA_COPYABLE ∉ (generate_master_key_template i il l ll n attrs).map CK_ATTRIBUTE.type ∧
      CKA_COPYABLE ∉
        (generate_replica_key_pair_publicKeyTemplate i il l ll n attrs).map
          CK_ATTRIBUTE.type ∧
      CKA_COPYABLE ∉
        (generate_replica_key_pair_privateKeyTemplate i il l ll attrs).map
          CK_ATTRIBUTE.type ∧
      (∀ cls kt, CKA_COPYABLE ∉
        (import_wrapped_secret_key_template cls kt i il l ll attrs).map CK_ATTRIBUTE.type) ∧
      (∀ cls kt, CKA_COPYABLE ∉
        (import_wrapped_private_key_template cls kt i il l ll attrs).map
          CK_ATTRIBUTE.type) ∧
      (∀ m ml e el d en mo pr t v vr wr, CKA_COPYABLE ∉
        (import_RSA_public_key_template l ll i il m ml e el d en mo pr t v vr wr).map
          CK_ATTRIBUTE.type)) := by
  refine ⟨?_, ?_, ?_, ?_, ?_, ?_⟩
  · intro kw kw' key_length h
    exact generate_master_key_copyable p label_unicode id key_length kw kw' w h
  · intro kw_pub kw_pub' kw_priv kw_priv' modulus_bits hpub hpriv
    exact generate_replica_key_pair_copyable p label_unicode id modulus_bits kw_pub kw_pub'
      kw_priv kw_priv' w hpub hpriv
  · intro kw kw' data h
    exact import_public_key_copyable p ssl label_unicode id data kw kw' w h
  · intro kw kw' wrapped_key unwrapping_key_object wrapping_mech_type key_type h
    exact import_wrapped_secret_key_copyable p label_unicode id wrapped_key
      unwrapping_key_object wrapping_mech_type key_type kw kw' w h
  · intro kw kw' wrapped_key unwrapping_key_object wrapping_mech_type key_type h
    exact import_wrapped_private_key_copyable p label_unicode id wrapped_key
      unwrapping_key_object wrapping_mech_type key_type kw kw' w h
  · intro i l il ll n attrs
    refine ⟨?_, ?_, ?_, ?_, ?_, ?_⟩
    · simp [generate_master_key_template]
    · simp [generate_replica_key_pair_publicKeyTemplate]
    · simp [generate_replica_key_pair_privateKeyTemplate]
    · intro cls kt
      simp [import_wrapped_secret_key_template]
    · intro cls kt
      simp [import_wrapped_private_key_template]
    · intro m ml e el d en mo pr t v vr wr
      simp [import_RSA_public_key_template]

/-- C30 on an empty token: `generate_master_key` with `cka_copyable=False`
and with no override log the same calls. -/
theorem copyable_example :
    (IPA_PKCS11_generate_master_key SoftToken.p11 labelL1 [1] 16
      (fun i => if i = sec_en_cka_copyable then some (PyObject.pyBool false) else none)
      (softWorld ⟨[], none, 1⟩)).2.trace =
    (IPA_PKCS11_generate_master_key SoftToken.p11 labelL1 [1] 16 noOverrides
      (softWorld ⟨[], none, 1⟩)).2.trace ∧
    (IPA_PKCS11_generate_master_key SoftToken.p11 labelL1 [1] 16 noOverrides
      (softWorld ⟨[], none, 1⟩)).1 = some (PyObject.pyInt 1) := by
  decide

/-! ## The object locator: capacity of the result buffer -/

/-- The loop of `_find_key` with one more unit of fuel makes one pass and
goes on from the variables the pass leaves. -/
theorem _find_key_loop_pass (p : P11 σ) (objects0 : Option (List CK_OBJECT_HANDLE))
    (objects_count0 : Nat) (fuel : Nat) (v v1 : FindKeyVars σ)
    (hc : v.objectCount > 0) (hp : _find_key_pass p v = some v1) :
    _find_key_loop p objects0 objects_count0 (fuel + 1) v.result_object v.objectCount
        v.result_objects v.count v.allocated v.w =
      _find_key_loop p objects0 objects_count0 fuel v1.result_object v1.objectCount
        v1.result_objects v1.count v1.allocated v1.w := by
  unfold _find_key_pass at hp
  rw [_find_key_loop, if_pos hc]
  cases hg : _find_key_grow v.result_objects v.count v.allocated v.w with
  | none => rw [hg] at hp; cases hp
  | some g =>
    obtain ⟨buf, allocated1, w1⟩ := g
    rw [hg] at hp
    dsimp only at hp ⊢
    split at hp
    · cases hp
    · next hne =>
      rw [if_neg hne]
      cases hp
      rfl

/-- A run of the loop of `_find_key` that ends with the return value `1` is
a number of passes, at most the fuel, followed by an exit through the loop
condition; what is published is the buffer and the count at that exit. -/
theorem _find_key_loop_success (p : P11 σ) (objects0 : Option (List CK_OBJECT_HANDLE))
    (objects_count0 : Nat) :
    ∀ (fuel : Nat) (v : FindKeyVars σ) (r : FindKeyRet) (w1 : World σ),
      _find_key_loop p objects0 objects_count0 fuel v.result_object v.objectCount
        v.result_objects v.count v.allocated v.w = some (r, w1) →
      r.ret = 1 →
      ∃ n vf, n ≤ fuel ∧ _find_key_passes p n v = some vf ∧ vf.objectCount = 0 ∧
        r.objects = vf.result_objects ∧ r.objects_count = vf.count := by
  have hfinish : ∀ (v : FindKeyVars σ) (r : FindKeyRet) (w1 : World σ),
      _find_key_finish p objects0 objects_count0 v.result_objects v.count v.w = (r, w1) →
      r.ret = 1 → r.objects = v.result_objects ∧ r.objects_count = v.count := by
    intro v r w1 h hr
    unfold _find_key_finish at h
    dsimp only at h
    split at h
    · cases h
      simp at hr
    · cases h
      exact ⟨rfl, rfl⟩
  intro fuel
  induction fuel with
  | zero =>
    intro v r w1 h hr
    unfold _find_key_loop at h
    by_cases hc : v.objectCount > 0
    · rw [if_pos hc] at h
      cases h
    · rw [if_neg hc] at h
      injection h with h
      obtain ⟨h1, h2⟩ := hfinish v r w1 h hr
      exact ⟨0, v, Nat.le_refl _, rfl, Nat.eq_zero_of_not_pos hc, h1, h2⟩
  | succ fuel ih =>
    intro v r w1 h hr
    by_cases hc : v.objectCount > 0
    · cases hp : _find_key_pass p v with
      | none =>
        exfalso
        unfold _find_key_pass at hp
        unfold _find_key_loop at h
        rw [if_pos hc] at h
        cases hg : _find_key_grow v.result_objects v.count v.allocated v.w with
        | none =>
          rw [hg] at h
          dsimp only at h
          cases h
          simp at hr
        | some g =>
          obtain ⟨buf, allocated1, w2⟩ := g
          rw [hg] at hp h
          dsimp only at hp h
          split at hp
          · next he =>
            rw [if_pos he] at h
            cases h
            simp at hr
          · cases hp
      | some v1 =>
        rw [_find_key_loop_pass p objects0 objects_count0 fuel v v1 hc hp] at h
        obtain ⟨n, vf, hn, hpass, h0, h1, h2⟩ := ih v1 r w1 h hr
        refine ⟨n + 1, vf, by omega, ?_, h0, h1, h2⟩
        rw [_find_key_passes, if_pos hc, hp]
        exact hpass
    · unfold _find_key_loop at h
      rw [if_neg hc] at h
      injection h with h
      obtain ⟨h1, h2⟩ := hfinish v r w1 h hr
      exact ⟨0, v, Nat.zero_le _, rfl, Nat.eq_zero_of_not_pos hc, h1, h2⟩

theorem _find_key_grow_capacity (v : FindKeyVars σ) (hinv : CapacityInv v)
    (hb : v.count + 32 < 2 ^ 32) (buf : Option (List CK_OBJECT_HANDLE)) (allocated1 : Nat)
    (w1 : World σ)
    (hg : _find_key_grow v.result_objects v.count v.allocated v.w =
      some (buf, allocated1, w1)) :
    v.count < allocated1 ∧ allocated1 = 32 * ((v.count + 1 + 31) / 32) ∧
    (buf.getD []).length = v.count := by
  obtain ⟨h1, h2, _⟩ := hinv
  unfold _find_key_grow at hg
  by_cases hle : v.allocated ≤ v.count
  · rw [if_pos hle] at hg
    dsimp only at hg
    split at hg
    · cases hg
    · injection hg with hg
      injection hg with hbuf hg
      injection hg with ha _
      have hmod : (v.allocated + 32) % 2 ^ 32 = v.allocated + 32 := by
        apply Nat.mod_eq_of_lt
        omega
      rw [hmod] at ha
      refine ⟨by omega, by omega, ?_⟩
      rw [← hbuf]
      simpa using h2
  · rw [if_neg hle] at hg
    injection hg with hg
    injection hg with hbuf hg
    injection hg with ha _
    refine ⟨by omega, by omega, ?_⟩
    rw [← hbuf]
    exact h2

theorem _find_key_pass_inv (p : P11 σ) (v v1 : FindKeyVars σ) (hinv : CapacityInv v)
    (hb : v.count + 32 < 2 ^ 32) (hp : _find_key_pass p v = some v1) :
    CapacityInv v1 ∧ v1.count = v.count + 1 := by
  unfold _find_key_pass at hp
  cases hg : _find_key_grow v.result_objects v.count v.allocated v.w with
  | none => rw [hg] at hp; cases hp
  | some g =>
    obtain ⟨buf, allocated1, w1⟩ := g
    obtain ⟨_, hcap, hlen⟩ := _find_key_grow_capacity v hinv hb buf allocated1 w1 hg
    rw [hg] at hp
    dsimp only at hp
    split at hp
    · cases hp
    · cases hp
      have hmod : (v.count + 1) % 2 ^ 32 = v.count + 1 := by
        apply Nat.mod_eq_of_lt
        omega
      refine ⟨⟨?_, ?_, ?_⟩, hmod⟩
      · show allocated1 = 32 * (((v.count + 1) % 2 ^ 32 + 31) / 32)
        rw [hmod]
        exact hcap
      · show (storeAt (buf.getD []) v.count v.result_object).length = (v.count + 1) % 2 ^ 32
        rw [hmod]
        have e : storeAt (buf.getD []) v.count v.result_object =
            buf.getD [] ++ [v.result_object] := by
          rw [← hlen]
          exact storeAt_length _ _
        rw [e]
        simp [hlen]
      · show (some (storeAt (buf.getD []) v.count v.result_object) = none ↔
          (v.count + 1) % 2 ^ 32 = 0)
        rw [hmod]
        simp

theorem _find_key_passes_inv (p : P11 σ) :
    ∀ (n : Nat) (v vn : FindKeyVars σ), CapacityInv v → v.count + n + 32 ≤ 2 ^ 32 →
      _find_key_passes p n v = some vn → CapacityInv vn ∧ vn.count = v.count + n := by
  intro n
  induction n with
  | zero =>
    intro v vn hinv _ hp
    cases hp
    exact ⟨hinv, rfl⟩
  | succ n ih =>
    intro v vn hinv hb hp
    rw [_find_key_passes] at hp
    split at hp
    · cases hpass : _find_key_pass p v with
      | none => rw [hpass] at hp; cases hp
      | some v1 =>
        rw [hpass] at hp
        obtain ⟨hinv1, hc1⟩ := _find_key_pass_inv p v v1 hinv (by omega) hpass
        obtain ⟨hinvn, hcn⟩ := ih v1 vn hinv1 (by omega) hp
        exact ⟨hinvn, by omega⟩
    · cases hp

theorem _find_key_entry_inv (p : P11 σ) (id : Option (List CK_BYTE)) (id_len : CK_ULONG)
    (label : Option (List CK_BYTE)) (label_len : CK_ULONG) (cls : CK_OBJECT_CLASS)
    (cka_wrap cka_unwrap : Option Bool) (w : World σ) :
    CapacityInv (_find_key_entry p id id_len label label_len cls cka_wrap cka_unwrap w) ∧
    (_find_key_entry p id id_len label label_len cls cka_wrap cka_unwrap w).count = 0 := by
  refine ⟨⟨?_, rfl, ?_⟩, rfl⟩
  · show (0 : Nat) = 32 * ((0 + 31) / 32)
    decide
  · simp [_find_key_entry]

/-- A run of `_find_key` that returns `1` reached the loop, and made a
number of passes from the entry variables. -/
theorem _find_key_success (p : P11 σ) (id : Option (List CK_BYTE)) (id_len : CK_ULONG)
    (label : Option (List CK_BYTE)) (label_len : CK_ULONG) (cls : CK_OBJECT_CLASS)
    (cka_wrap cka_unwrap : Option Bool) (objects0 : Option (List CK_OBJECT_HANDLE))
    (objects_count0 : Nat) (fuel : Nat) (w : World σ) (r : FindKeyRet) (w1 : World σ)
    (h : _find_key p id id_len label label_len cls cka_wrap cka_unwrap objects0
      objects_count0 fuel w = some (r, w1))
    (hr : r.ret = 1) :
    ∃ n vf, n ≤ fuel ∧
      _find_key_passes p n
        (_find_key_entry p id id_len label label_len cls cka_wrap cka_unwrap w) = some vf ∧
      vf.objectCount = 0 ∧ r.objects = vf.result_objects ∧ r.objects_count = vf.count := by
  unfold _find_key at h
  dsimp only at h
  by_cases h1 : (w.findObjectsInit p
      (_find_key_template id id_len label label_len cls cka_wrap cka_unwrap)).1 = CKR_OK
  · rw [h1, check_return_value_ok] at h
    dsimp only at h
    rw [if_neg (by decide)] at h
    by_cases h2 : ((w.findObjectsInit p
        (_find_key_template id id_len label label_len cls cka_wrap cka_unwrap)).2.findObjects
          p).1 = CKR_OK
    · rw [h2, check_return_value_ok] at h
      dsimp only at h
      rw [if_neg (by decide)] at h
      exact _find_key_loop_success p objects0 objects_count0 fuel
        (_find_key_entry p id id_len label label_len cls cka_wrap cka_unwrap w) r w1 h hr
    · rw [if_pos (by rw [check_return_value_fst, if_neg h2])] at h
      cases h
      simp at hr
  · rw [if_pos (by rw [check_return_value_fst, if_neg h1])] at h
    cases h
    simp at hr

/-- C29. The capacity of the result buffer of `_find_key`, for runs of at
most `2 ^ 32 - 32` passes (the capacity is an `unsigned int`).  At every
loop head reached, after `n` passes, `count` is `n`, and `allocated` is a
multiple of 32 with `count ≤ allocated < count + 32`, the least multiple of
32 that is not below `count`.  In a pass, after the block that grows the
buffer, the capacity is a multiple of 32 above `count`, so the store
`result_objects[count]` is inside the buffer.  A run that returns `1`
publishes the buffer and the count of the loop head at which the loop was
left: with the count `0` the published array is `NULL` and the capacity `0`;
otherwise the capacity is the least multiple of 32 that is not below the
count. -/
theorem find_key_capacity_invariant (p : P11 σ) (id : Option (List CK_BYTE))
    (id_len : CK_ULONG) (label : Option (List CK_BYTE)) (label_len : CK_ULONG)
    (cls : CK_OBJECT_CLASS) (cka_wrap cka_unwrap : Option Bool)
    (objects0 : Option (List CK_OBJECT_HANDLE)) (objects_count0 : Nat) (fuel : Nat)
    (w : World σ) (hfuel : fuel + 32 ≤ 2 ^ 32) :
    (∀ n vn, n ≤ fuel →
      _find_key_passes p n
        (_find_key_entry p id id_len label label_len cls cka_wrap cka_unwrap w) = some vn →
      vn.count = n ∧ 32 ∣ vn.allocated ∧ vn.count ≤ vn.allocated ∧
      vn.allocated < vn.count + 32 ∧
      (n < fuel → ∀ buf allocated1 w1,
        _find_key_grow vn.result_objects vn.count vn.allocated vn.w =
          some (buf, allocated1, w1) →
        vn.count < allocated1 ∧ 32 ∣ allocated1 ∧ (buf.getD []).length = vn.count)) ∧
    (∀ r w1,
      _find_key p id id_len label label_len cls cka_wrap cka_unwrap objects0
        objects_count0 fuel w = some (r, w1) →
      r.ret = 1 →
      ∃ n vf, n ≤ fuel ∧
        _find_key_passes p n
          (_find_key_entry p id id_len label label_len cls cka_wrap cka_unwrap w) =
            some vf ∧
        vf.objectCount = 0 ∧ r.objects = vf.result_objects ∧ r.objects_count = vf.count ∧
        (r.objects_count = 0 → r.objects = none ∧ vf.allocated = 0) ∧
        (0 < r.objects_count → r.objects ≠ none) ∧
        32 ∣ vf.allocated ∧ r.objects_count ≤ vf.allocated ∧
        vf.allocated < r.objects_count + 32) := by
  obtain ⟨hinv0, hc0⟩ :=
    _find_key_entry_inv p id id_len label label_len cls cka_wrap cka_unwrap w
  have key : ∀ n vn, n ≤ fuel →
      _find_key_passes p n
        (_find_key_entry p id id_len label label_len cls cka_wrap cka_unwrap w) = some vn →
      CapacityInv vn ∧ vn.count = n := by
    intro n vn hn hp
    obtain ⟨h1, h2⟩ := _find_key_passes_inv p n _ vn hinv0 (by rw [hc0]; omega) hp
    exact ⟨h1, by rw [h2, hc0]; omega⟩
  constructor
  · intro n vn hn hp
    obtain ⟨hinv, hc⟩ := key n vn hn hp
    obtain ⟨ha, _, _⟩ := hinv
    refine ⟨hc, ?_, by omega, by omega, ?_⟩
    · rw [ha]
      exact Nat.dvd_mul_right _ _
    · intro hlt buf allocated1 w1 hg
      obtain ⟨g1, g2, g3⟩ := _find_key_grow_capacity vn (key n vn hn hp).1
        (by omega) buf allocated1 w1 hg
      refine ⟨g1, ?_, g3⟩
      rw [g2]
      exact Nat.dvd_mul_right _ _
  · intro r w1 h hr
    obtain ⟨n, vf, hn, hp, h0, h1, h2⟩ := _find_key_success p id id_len label label_len cls
      cka_wrap cka_unwrap objects0 objects_count0 fuel w r w1 h hr
    obtain ⟨⟨ha, _, hnone⟩, hc⟩ := key n vf hn hp
    refine ⟨n, vf, hn, hp, h0, h1, h2, ?_, ?_, ?_, by omega, by omega⟩
    · intro hz
      rw [h2] at hz
      exact ⟨by rw [h1]; exact hnone.mpr hz, by omega⟩
    · intro hpos hnn
      rw [h1] at hnn
      have := hnone.mp hnn
      omega
    · rw [ha]
      exact Nat.dvd_mul_right _ _

/-- Witness of C29, on the example token: the search by label `L1` yields
the two public keys; the loop is left after two passes with the capacity
`32`. -/
theorem find_key_capacity_invariant_witness :
    ∃ n vf, n ≤ 5 ∧
      _find_key_passes SoftToken.p11 n
        (_find_key_entry SoftToken.p11 none 0 (some [76, 49]) 2 CKO_PUBLIC_KEY none none
          (softWorld exampleToken)) = some vf ∧
      vf.objectCount = 0 ∧ some [1, 2] = vf.result_objects ∧ 2 = vf.count ∧
      32 ∣ vf.allocated ∧ 2 ≤ vf.allocated ∧ vf.allocated < 2 + 32 := by
  obtain ⟨n, vf, h1, h2, h3, h4, h5, _, _, h8, h9, h10⟩ :=
    (find_key_capacity_invariant SoftToken.p11 none 0 (some [76, 49]) 2 CKO_PUBLIC_KEY none
      none none 0 5 (softWorld exampleToken) (by decide)).2
      ⟨1, some [1, 2], 2⟩
      ⟨{ exampleToken with search := none },
        [P11Call.C_FindObjectsInit
          [⟨CKA_LABEL, PValue.bytes [76, 49], 2⟩, ⟨CKA_CLASS, PValue.ulong CKO_PUBLIC_KEY, 8⟩],
         P11Call.C_FindObjects, P11Call.C_FindObjects, P11Call.C_FindObjects,
         P11Call.C_FindObjectsFinal], [], none⟩
      rfl rfl
  exact ⟨n, vf, h1, h2, h3, h4, h5, h8, h9, h10⟩

/-! ## The template of `_find_key` and the runs that submit it -/

/-- C15. The template `_find_key` submits.  For every combination of present
and absent label, id, wrap filter and unwrap filter the template is the
present filters in the order label, id, wrap, unwrap, followed by the class
entry; its length is one plus the number of present filters, at most 5.
The function submits it in its first call: when `C_FindObjectsInit` fails,
and when the first `C_FindObjects` call fails, the function returns having
logged `C_FindObjectsInit` with this template first; when the provider
delivers handles and then fails, or delivers handles and an empty answer
(allocations granted, enough fuel), the function returns and its log is
`C_FindObjectsInit` with this template followed by the enumeration calls and,
in the second case, `C_FindObjectsFinal`; and in every run that returns the
first call logged is `C_FindObjectsInit` with this template, followed only
by `C_FindObjects` and `C_FindObjectsFinal` calls. -/
theorem find_key_template_shape (p : P11 σ) (id : Option (List CK_BYTE)) (id_len : CK_ULONG)
    (label : Option (List CK_BYTE)) (label_len : CK_ULONG) (cls : CK_OBJECT_CLASS)
    (cka_wrap cka_unwrap : Option Bool) (objects0 : Option (List CK_OBJECT_HANDLE))
    (objects_count0 : Nat) (fuel : Nat) (w : World σ) :
    _find_key_template id id_len label label_len cls cka_wrap cka_unwrap =
      presentFilters id id_len label label_len cka_wrap cka_unwrap ++
        [⟨CKA_CLASS, PValue.ulong cls, sizeof_CK_ULONG⟩] ∧
    (_find_key_template id id_len label label_len cls cka_wrap cka_unwrap).length =
      1 + presentCount id label cka_wrap cka_unwrap ∧
    (_find_key_template id id_len label label_len cls cka_wrap cka_unwrap).length ≤ 5 ∧
    (∀ r w1, _find_key p id id_len label label_len cls cka_wrap cka_unwrap objects0
        objects_count0 fuel w = some (r, w1) →
      ∃ rest, w1.trace = w.trace ++ P11Call.C_FindObjectsInit
          (_find_key_template id id_len label label_len cls cka_wrap cka_unwrap) :: rest ∧
        ∀ c ∈ rest, c = P11Call.C_FindObjects ∨ c = P11Call.C_FindObjectsFinal) ∧
    ((p.C_FindObjectsInit w.tok
        (_find_key_template id id_len label label_len cls cka_wrap cka_unwrap)).1 ≠ CKR_OK →
      ∃ r w1, _find_key p id id_len label label_len cls cka_wrap cka_unwrap objects0
          objects_count0 fuel w = some (r, w1) ∧
        w1.trace = w.trace ++
          [P11Call.C_FindObjectsInit
            (_find_key_template id id_len label label_len cls cka_wrap cka_unwrap)]) ∧
    ((p.C_FindObjectsInit w.tok
        (_find_key_template id id_len label label_len cls cka_wrap cka_unwrap)).1 = CKR_OK →
      (p.C_FindObjects (p.C_FindObjectsInit w.tok
        (_find_key_template id id_len label label_len cls cka_wrap cka_unwrap)).2).1 ≠
          CKR_OK →
      ∃ r w1, _find_key p id id_len label label_len cls cka_wrap cka_unwrap objects0
          objects_count0 fuel w = some (r, w1) ∧
        w1.trace = w.trace ++
          [P11Call.C_FindObjectsInit
            (_find_key_template id id_len label label_len cls cka_wrap cka_unwrap),
           P11Call.C_FindObjects]) ∧
    (∀ (hs : List CK_OBJECT_HANDLE) (s1 : σ),
      (p.C_FindObjectsInit w.tok
        (_find_key_template id id_len label label_len cls cka_wrap cka_unwrap)).1 = CKR_OK →
      Delivers p (p.C_FindObjectsInit w.tok
        (_find_key_template id id_len label label_len cls cka_wrap cka_unwrap)).2 hs s1 →
      (p.C_FindObjects s1).1 ≠ CKR_OK →
      AllocOK w → hs.length < 2 ^ 32 → hs.length ≤ fuel →
      ∃ r w1, _find_key p id id_len label label_len cls cka_wrap cka_unwrap objects0
          objects_count0 fuel w = some (r, w1) ∧
        w1.trace = w.trace ++
          [P11Call.C_FindObjectsInit
            (_find_key_template id id_len label label_len cls cka_wrap cka_unwrap)] ++
          List.replicate (hs.length + 1) P11Call.C_FindObjects) ∧
    (∀ (hs : List CK_OBJECT_HANDLE) (s1 : σ),
      (p.C_FindObjectsInit w.tok
        (_find_key_template id id_len label label_len cls cka_wrap cka_unwrap)).1 = CKR_OK →
      Yields p (p.C_FindObjectsInit w.tok
        (_find_key_template id id_len label label_len cls cka_wrap cka_unwrap)).2 hs s1 →
      AllocOK w → hs.length < 2 ^ 32 → hs.length ≤ fuel →
      ∃ r w1, _find_key p id id_len label label_len cls cka_wrap cka_unwrap objects0
          objects_count0 fuel w = some (r, w1) ∧
        w1.trace = w.trace ++
          [P11Call.C_FindObjectsInit
            (_find_key_template id id_len label label_len cls cka_wrap cka_unwrap)] ++
          List.replicate (hs.length + 1) P11Call.C_FindObjects ++
          [P11Call.C_FindObjectsFinal]) := by
  refine ⟨?_, ?_, ?_, fun r w1 h => _find_key_trace p id id_len label label_len cls cka_wrap
    cka_unwrap objects0 objects_count0 fuel w r w1 h, ?_, ?_, ?_, ?_⟩
  · cases id <;> cases label <;> cases cka_wrap <;> cases cka_unwrap <;>
      simp [_find_key_template, presentFilters]
  · cases id <;> cases label <;> cases cka_wrap <;> cases cka_unwrap <;>
      simp [_find_key_template, presentCount]
  · cases id <;> cases label <;> cases cka_wrap <;> cases cka_unwrap <;>
      simp [_find_key_template]
  · intro hinit
    have hf : (w.findObjectsInit p
        (_find_key_template id id_len label label_len cls cka_wrap cka_unwrap)).1 ≠ CKR_OK :=
      hinit
    refine ⟨⟨0, objects0, objects_count0⟩,
      (check_return_value (w.findObjectsInit p
        (_find_key_template id id_len label label_len cls cka_wrap cka_unwrap)).1
        "Find key init" (w.findObjectsInit p
        (_find_key_template id id_len label label_len cls cka_wrap cka_unwrap)).2).2, ?_, ?_⟩
    · unfold _find_key
      dsimp only
      rw [if_pos (by rw [check_return_value_fst, if_neg hf])]
    · rw [check_return_value_trace]
      rfl
  · intro hinit hfind
    have hi : (w.findObjectsInit p
        (_find_key_template id id_len label label_len cls cka_wrap cka_unwrap)).1 = CKR_OK :=
      hinit
    have hf : ((w.findObjectsInit p
        (_find_key_template id id_len label label_len cls cka_wrap cka_unwrap)).2.findObjects
          p).1 ≠ CKR_OK := hfind
    refine ⟨⟨0, objects0, objects_count0⟩,
      (check_return_value ((w.findObjectsInit p
          (_find_key_template id id_len label label_len cls cka_wrap
            cka_unwrap)).2.findObjects p).1 "Find key"
          ((w.findObjectsInit p
            (_find_key_template id id_len label label_len cls cka_wrap
              cka_unwrap)).2.findObjects p).2.2.2).2, ?_, ?_⟩
    · unfold _find_key
      dsimp only
      rw [hi, check_return_value_ok]
      dsimp only
      rw [if_neg (by decide), if_pos (by rw [check_return_value_fst, if_neg hf])]
    · rw [check_return_value_trace]
      simp [World.findObjects, World.findObjectsInit]
  · intro hs s1 hinit hd hfail halloc hlen hfuel
    obtain ⟨w1, h1, _, h3, _⟩ :=
      _find_key_find_fails p id id_len label label_len cls cka_wrap cka_unwrap objects0
        objects_count0 fuel w hs s1 hinit hd hfail halloc hlen hfuel
    exact ⟨_, w1, h1, h3⟩
  · intro hs s1 hinit hy halloc hlen hfuel
    by_cases hfin : (p.C_FindObjectsFinal s1).1 = CKR_OK
    · obtain ⟨w1, h1, _, h3, _⟩ :=
        _find_key_yields p id id_len label label_len cls cka_wrap cka_unwrap objects0
          objects_count0 fuel w hs s1 hinit hy hfin halloc hlen hfuel
      exact ⟨_, w1, h1, h3⟩
    · obtain ⟨w1, h1, _, h3, _⟩ :=
        _find_key_final_fails p id id_len label label_len cls cka_wrap cka_unwrap objects0
          objects_count0 fuel w hs s1 hinit hy hfin halloc hlen hfuel
      exact ⟨_, w1, h1, h3⟩

/-- Witness of C15, on the example token: the search by label `L1` and wrap
filter `false` among the public keys returns, and its first logged call
carries the template label, wrap, class. -/
theorem find_key_template_shape_witness :
    ∃ r w1, _find_key SoftToken.p11 none 0 (some [76, 49]) 2 CKO_PUBLIC_KEY (some false) none
        none 0 5 (softWorld exampleToken) = some (r, w1) ∧
      w1.trace =
        [P11Call.C_FindObjectsInit
          [⟨CKA_LABEL, PValue.bytes [76, 49], 2⟩, ⟨CKA_WRAP, PValue.bbool false, 1⟩,
           ⟨CKA_CLASS, PValue.ulong CKO_PUBLIC_KEY, 8⟩],
         P11Call.C_FindObjects, P11Call.C_FindObjectsFinal] := by
  obtain ⟨r, w1, h1, h2⟩ :=
    (find_key_template_shape SoftToken.p11 none 0 (some [76, 49]) 2 CKO_PUBLIC_KEY (some false)
      none none 0 5 (softWorld exampleToken)).2.2.2.2.2.2.2 []
      { exampleToken with search := some [] } (by decide) (by unfold Yields; decide)
      (by intro b hb; simp [softWorld] at hb) (by simp) (by simp)
  exact ⟨r, w1, h1, by rw [h2]; rfl⟩

/-! ## The two `switch` statements, seen through the functions -/

/-- What `get_attribute` returns once both calls succeeded, by the kind its
`switch` gives the code. -/
theorem get_attribute_filled (p : P11 σ) (host : PyHost) (object : CK_ULONG)
    (attr : Nat) (value_addr : Nat) (w : World σ) (h : ¬ AttributeAbsent p object attr w)
    (hq : (get_attribute_query p object attr w).1 = CKR_OK)
    (hf : (get_attribute_fill p object (get_attribute_query p object attr w).2.1
      (get_attribute_query p object attr w).2.2).1 = CKR_OK) :
    IPA_PKCS11_get_attribute p host object attr value_addr w =
      match get_attribute_case attr with
      | AttrKind.boolean =>
        match (get_attribute_value p object attr w).1 with
        | some (b :: _) =>
          some (some (PyObject.pyBool (decide (b ≠ 0))), get_attribute_world p object attr w)
        | _ => none
      | AttrKind.text =>
        match (get_attribute_value p object attr w).1 with
        | some bytes =>
          if bytes.length < (get_attribute_value p object attr w).2 then none
          else
            match host.PyUnicode_DecodeUTF8
              (bytes.take (get_attribute_value p object attr w).2) with
            | some u => some (some (PyObject.pyUnicode u), get_attribute_world p object attr w)
            | none =>
              some (none, (get_attribute_world p object attr w).PyErr_SetString
                PyExc.UnicodeDecodeError (ErrMsg.text "invalid UTF-8"))
        | none =>
          if (get_attribute_value p object attr w).2 = 0 then
            match host.PyUnicode_DecodeUTF8 [] with
            | some u => some (some (PyObject.pyUnicode u), get_attribute_world p object attr w)
            | none =>
              some (none, (get_attribute_world p object attr w).PyErr_SetString
                PyExc.UnicodeDecodeError (ErrMsg.text "invalid UTF-8"))
          else none
      | AttrKind.byteString =>
        match (get_attribute_value p object attr w).1 with
        | some bytes =>
          if bytes.length < (get_attribute_value p object attr w).2 then none
          else some (some (PyObject.pyStr
            (bytes.take (get_attribute_value p object attr w).2)),
            get_attribute_world p object attr w)
        | none => some (some PyObject.pyNone, get_attribute_world p object attr w)
      | AttrKind.number =>
        some (some (PyObject.pyInt
          (if (get_attribute_fill p object (get_attribute_query p object attr w).2.1
              (get_attribute_query p object attr w).2.2).2.2.1 = PValue.null
            then 0 else value_addr)), get_attribute_world p object attr w)
      | AttrKind.unknown => getRejected p object attr w := by
  have h' := h
  unfold AttributeAbsent at h'
  unfold IPA_PKCS11_get_attribute get_attribute_value get_attribute_world getRejected
  dsimp only
  rw [if_neg h', hq, check_return_value_ok]
  dsimp only
  rw [if_neg (by decide), hf, check_return_value_ok]
  dsimp only
  rw [if_neg (by decide)]
  cases get_attribute_case attr <;> rfl

/-- When both calls succeeded, `get_attribute` rejects the code as unknown
only if its `switch` takes the `default:` branch. -/
theorem get_attribute_rejected_unknown (p : P11 σ) (host : PyHost) (object : CK_ULONG)
    (attr : Nat) (value_addr : Nat) (w : World σ) (h : ¬ AttributeAbsent p object attr w)
    (hq : (get_attribute_query p object attr w).1 = CKR_OK)
    (hf : (get_attribute_fill p object (get_attribute_query p object attr w).2.1
      (get_attribute_query p object attr w).2.2).1 = CKR_OK)
    (hr : IPA_PKCS11_get_attribute p host object attr value_addr w =
      getRejected p object attr w) :
    get_attribute_case attr = AttrKind.unknown := by
  rw [get_attribute_filled p host object attr value_addr w h hq hf] at hr
  unfold getRejected at hr
  cases hk : get_attribute_case attr
  case unknown => rfl
  all_goals (
    exfalso
    rw [hk] at hr
    dsimp only at hr
    repeat' split at hr
    all_goals cases hr)

theorem set_attribute_send_ne_rejected (p : P11 σ) (object : CK_ULONG) (a : CK_ATTRIBUTE)
    (w : World σ) : set_attribute_send p object a w ≠ setRejected w := by
  intro h
  have h2 := congrArg (fun r => r.2.trace) h
  simp only [set_attribute_send_trace] at h2
  simp [setRejected, World.PyErr_SetString] at h2

/-- The one outcome of `set_attribute` that is the rejection of the code as
unknown arises only in the `default:` branch of its `switch`. -/
theorem set_attribute_rejected_unknown (p : P11 σ) (host : PyHost) (object : CK_ULONG)
    (attr : Nat) (value : PyObject) (w : World σ)
    (hr : IPA_PKCS11_set_attribute p host object attr value w = setRejected w) :
    set_attribute_case attr = AttrKind.unknown := by
  cases hk : set_attribute_case attr
  case unknown => rfl
  all_goals (
    exfalso
    unfold IPA_PKCS11_set_attribute at hr
    rw [hk] at hr
    dsimp only at hr)
  · exact set_attribute_send_ne_rejected _ _ _ _ hr
  · cases value
    case pyStr s => exact set_attribute_send_ne_rejected _ _ _ _ hr
    all_goals simp [setRejected, World.PyErr_SetString] at hr
  · cases value
    case pyUnicode u =>
      dsimp only at hr
      cases he : host.PyUnicode_AsUTF8String u with
      | none =>
        simp [unicode_to_char_array, he, setRejected, World.PyErr_SetString] at hr
      | some b =>
        simp only [unicode_to_char_array, he] at hr
        exact set_attribute_send_ne_rejected _ _ _ _ hr
    all_goals simp [setRejected, World.PyErr_SetString] at hr
  · by_cases hv : PyInt_Check value = true
    · rw [if_pos hv] at hr
      exact set_attribute_send_ne_rejected _ _ _ _ hr
    · rw [if_neg hv] at hr
      simp [setRejected, World.PyErr_SetString] at hr

/-- Counterexample to C24: `CKA_MODULUS` is rejected as unknown by
`set_attribute`, but `get_attribute` on a key that has no such attribute does
not reject it as unknown: it raises `IPA_PKCS11NotFound`, before its
`switch` is reached. -/
theorem set_rejects_where_get_reports_missing :
    (IPA_PKCS11_set_attribute SoftToken.p11 utf8Host 7 CKA_MODULUS (PyObject.pyStr [1])
      (softWorld aesToken)).1 = none ∧
    (IPA_PKCS11_set_attribute SoftToken.p11 utf8Host 7 CKA_MODULUS (PyObject.pyStr [1])
      (softWorld aesToken)).2.pyerr =
        some ⟨PyExc.IPA_PKCS11Error, ErrMsg.text "Unknown attribute"⟩ ∧
    (IPA_PKCS11_get_attribute SoftToken.p11 utf8Host 7 CKA_MODULUS 4096
      (softWorld aesToken)).map (fun r => (r.1, r.2.pyerr)) =
      some (none, some ⟨PyExc.IPA_PKCS11NotFound, ErrMsg.text "attribute does not exist"⟩) := by
  decide

/-- C24, amended. `set_attribute` and `get_attribute` treat every attribute
code as the same kind of value, once `get_attribute` has the value: the
attribute was not reported missing and both `C_GetAttributeValue` calls
returned `CKR_OK`.  For the 21 boolean codes `set_attribute` sends the truth
value of the argument and `get_attribute` returns the boolean read from the
buffer.  For `CKA_ID` `set_attribute` sends the bytes of a string object and
refuses other objects, and `get_attribute` returns the bytes of the buffer.
For `CKA_LABEL` `set_attribute` sends the UTF-8 bytes of a unicode object and
refuses other objects, and `get_attribute` returns the decoded text.  For
`CKA_KEY_TYPE` `set_attribute` sends the number of an int object and refuses
other objects, and `get_attribute` returns a number.  `set_attribute` rejects
a code as unknown exactly when the code is none of these, and so does
`get_attribute`. -/
theorem set_get_attribute_same_codes (p : P11 σ) (host : PyHost) (object : CK_ULONG)
    (attr : Nat) (value : PyObject) (value_addr : Nat) (w : World σ)
    (h : ¬ AttributeAbsent p object attr w)
    (hq : (get_attribute_query p object attr w).1 = CKR_OK)
    (hf : (get_attribute_fill p object (get_attribute_query p object attr w).2.1
      (get_attribute_query p object attr w).2.2).1 = CKR_OK) :
    (attr ∈ booleanAttributeCodes →
      IPA_PKCS11_set_attribute p host object attr value w =
        set_attribute_send p object
          ⟨attr, PValue.bbool (decide (PyObject_IsTrue value ≠ 0)), sizeof_CK_BBOOL⟩ w ∧
      IPA_PKCS11_get_attribute p host object attr value_addr w =
        match (get_attribute_value p object attr w).1 with
        | some (b :: _) =>
          some (some (PyObject.pyBool (decide (b ≠ 0))), get_attribute_world p object attr w)
        | _ => none) ∧
    (attr = CKA_ID →
      (∀ s, value = PyObject.pyStr s →
        IPA_PKCS11_set_attribute p host object attr value w =
          set_attribute_send p object ⟨attr, PValue.bytes s, s.length⟩ w) ∧
      (PyString_Check value = false →
        IPA_PKCS11_set_attribute p host object attr value w =
          (none, w.PyErr_SetString PyExc.IPA_PKCS11Error
            (ErrMsg.text "String value expected"))) ∧
      IPA_PKCS11_get_attribute p host object attr value_addr w =
        match (get_attribute_value p object attr w).1 with
        | some bytes =>
          if bytes.length < (get_attribute_value p object attr w).2 then none
          else some (some (PyObject.pyStr
            (bytes.take (get_attribute_value p object attr w).2)),
            get_attribute_world p object attr w)
        | none => some (some PyObject.pyNone, get_attribute_world p object attr w)) ∧
    (attr = CKA_LABEL →
      (∀ u b, value = PyObject.pyUnicode u → host.PyUnicode_AsUTF8String u = some b →
        IPA_PKCS11_set_attribute p host object attr value w =
          set_attribute_send p object ⟨attr, PValue.bytes b, b.length⟩ w) ∧
      (PyUnicode_Check value = false →
        IPA_PKCS11_set_attribute p host object attr value w =
          (none, w.PyErr_SetString PyExc.IPA_PKCS11Error
            (ErrMsg.text "Unicode value expected"))) ∧
      IPA_PKCS11_get_attribute p host object attr value_addr w =
        match (get_attribute_value p object attr w).1 with
        | some bytes =>
          if bytes.length < (get_attribute_value p object attr w).2 then none
          else
            match host.PyUnicode_DecodeUTF8
              (bytes.take (get_attribute_value p object attr w).2) with
            | some u => some (some (PyObject.pyUnicode u), get_attribute_world p object attr w)
            | none =>
              some (none, (get_attribute_world p object attr w).PyErr_SetString
                PyExc.UnicodeDecodeError (ErrMsg.text "invalid UTF-8"))
        | none =>
          if (get_attribute_value p object attr w).2 = 0 then
            match host.PyUnicode_DecodeUTF8 [] with
            | some u => some (some (PyObject.pyUnicode u), get_attribute_world p object attr w)
            | none =>
              some (none, (get_attribute_world p object attr w).PyErr_SetString
                PyExc.UnicodeDecodeError (ErrMsg.text "invalid UTF-8"))
          else none) ∧
    (attr = CKA_KEY_TYPE →
      (PyInt_Check value = true →
        IPA_PKCS11_set_attribute p host object attr value w =
          set_attribute_send p object
            ⟨attr, PValue.ulong (PyInt_AsUnsignedLongMask value), sizeof_CK_ULONG⟩ w) ∧
      (PyInt_Check value = false →
        IPA_PKCS11_set_attribute p host object attr value w =
          (none, w.PyErr_SetString PyExc.IPA_PKCS11Error
            (ErrMsg.text "Integer value expected"))) ∧
      ∃ n, IPA_PKCS11_get_attribute p host object attr value_addr w =
        some (some (PyObject.pyInt n), get_attribute_world p object attr w)) ∧
    (IPA_PKCS11_set_attribute p host object attr value w = setRejected w ↔
      (attr ∉ booleanAttributeCodes ∧ attr ≠ CKA_ID ∧ attr ≠ CKA_LABEL ∧
        attr ≠ CKA_KEY_TYPE)) ∧
    (IPA_PKCS11_get_attribute p host object attr value_addr w = getRejected p object attr w ↔
      (attr ∉ booleanAttributeCodes ∧ attr ≠ CKA_ID ∧ attr ≠ CKA_LABEL ∧
        attr ≠ CKA_KEY_TYPE)) ∧
    (IPA_PKCS11_set_attribute p host object attr value w = setRejected w ↔
      IPA_PKCS11_get_attribute p host object attr value_addr w =
        getRejected p object attr w) := by
  obtain ⟨hsg, _, hb, hi, ht, hn⟩ := attribute_case_agree attr
  have hb' : get_attribute_case attr = AttrKind.boolean ↔ attr ∈ booleanAttributeCodes := hb
  have hget := get_attribute_filled p host object attr value_addr w h hq hf
  have hunk : get_attribute_case attr = AttrKind.unknown ↔
      (attr ∉ booleanAttributeCodes ∧ attr ≠ CKA_ID ∧ attr ≠ CKA_LABEL ∧
        attr ≠ CKA_KEY_TYPE) := by
    constructor
    · intro hk
      refine ⟨fun hm => ?_, fun e => ?_, fun e => ?_, fun e => ?_⟩
      · have h2 := hb'.mpr hm
        rw [hk] at h2
        cases h2
      · have h2 := hi.mpr e
        rw [hk] at h2
        cases h2
      · have h2 := ht.mpr e
        rw [hk] at h2
        cases h2
      · have h2 := hn.mpr e
        rw [hk] at h2
        cases h2
    · rintro ⟨h1, h2, h3, h4⟩
      cases hk : get_attribute_case attr
      · exact absurd (hb'.mp hk) h1
      · exact absurd (hi.mp hk) h2
      · exact absurd (ht.mp hk) h3
      · exact absurd (hn.mp hk) h4
      · rfl
  have hsetU : IPA_PKCS11_set_attribute p host object attr value w = setRejected w ↔
      get_attribute_case attr = AttrKind.unknown := by
    constructor
    · intro hr
      rw [← hsg]
      exact set_attribute_rejected_unknown p host object attr value w hr
    · intro hk
      unfold IPA_PKCS11_set_attribute
      rw [hsg, hk]
      rfl
  have hgetU : IPA_PKCS11_get_attribute p host object attr value_addr w =
      getRejected p object attr w ↔ get_attribute_case attr = AttrKind.unknown := by
    constructor
    · exact get_attribute_rejected_unknown p host object attr value_addr w h hq hf
    · intro hk
      rw [hget, hk]
  refine ⟨?_, ?_, ?_, ?_, hsetU.trans hunk, hgetU.trans hunk, hsetU.trans hgetU.symm⟩
  · intro hmem
    have hk := hb'.mpr hmem
    refine ⟨?_, by rw [hget, hk]⟩
    unfold IPA_PKCS11_set_attribute
    rw [hsg, hk]
    dsimp only
    by_cases hv : PyObject_IsTrue value = 0 <;> simp [hv]
  · intro hattr
    have hk := hi.mpr hattr
    refine ⟨?_, ?_, by rw [hget, hk]⟩
    · intro s hs
      subst hs
      unfold IPA_PKCS11_set_attribute
      rw [hsg, hk]
    · intro hv
      unfold IPA_PKCS11_set_attribute
      rw [hsg, hk]
      cases value <;> simp_all [PyString_Check]
  · intro hattr
    have hk := ht.mpr hattr
    refine ⟨?_, ?_, by rw [hget, hk]⟩
    · intro u b hu hb2
      subst hu
      unfold IPA_PKCS11_set_attribute
      rw [hsg, hk]
      simp only [unicode_to_char_array, hb2]
    · intro hv
      unfold IPA_PKCS11_set_attribute
      rw [hsg, hk]
      cases value <;> simp_all [PyUnicode_Check]
  · intro hattr
    have hk := hn.mpr hattr
    refine ⟨?_, ?_, ⟨_, by rw [hget, hk]⟩⟩
    · intro hv
      unfold IPA_PKCS11_set_attribute
      rw [hsg, hk]
      simp only [hv, if_true]
    · intro hv
      unfold IPA_PKCS11_set_attribute
      rw [hsg, hk]
      simp [hv]

/-- Witness of C24, amended, on the token with the AES key `7`: the key has
a value, `CKA_VALUE` is none of the codes of the two functions, and both
reject it as unknown. -/
theorem set_get_attribute_same_codes_witness :
    IPA_PKCS11_set_attribute SoftToken.p11 utf8Host 7 CKA_VALUE (PyObject.pyStr [1])
      (softWorld aesToken) = setRejected (softWorld aesToken) ∧
    IPA_PKCS11_get_attribute SoftToken.p11 utf8Host 7 CKA_VALUE 4096 (softWorld aesToken) =
      getRejected SoftToken.p11 7 CKA_VALUE (softWorld aesToken) :=
  ⟨((set_get_attribute_same_codes SoftToken.p11 utf8Host 7 CKA_VALUE (PyObject.pyStr [1]) 4096
      (softWorld aesToken) (by unfold AttributeAbsent; decide) (by decide)
      (by decide)).2.2.2.2.1).mpr (by decide),
   ((set_get_attribute_same_codes SoftToken.p11 utf8Host 7 CKA_VALUE (PyObject.pyStr [1]) 4096
      (softWorld aesToken) (by unfold AttributeAbsent; decide) (by decide)
      (by decide)).2.2.2.2.2.1).mpr (by decide)⟩

end IpaPkcs11
